import Mathlib

/-!
# Shallow embedding of `consteval-huffman` (tcsullivan/consteval-huffman)

This file embeds the compile-time Huffman codec of `src/consteval_huffman.hpp`
and the `huffman_compressor` variant found in `src/unnamed/part_000` (the two
share the algorithms verbatim; they differ only in the decoder's end-of-data
check and the `data()`/`size()` accessors, both of which are embedded below).

Modelling conventions:
* The input is a `List Nat` of byte values (the `unsigned char` instantiation
  of `detail::huffman_string_container`; each element is `< 256`).
* `struct node` becomes `Node`; the C++ `int` fields that use `-1` as a
  sentinel (`parent`, `left`, `right`, and `value`) are `Int`, frequencies
  (`size_t`, never negative here) are `Nat`.
* `std::sort(list.begin(), list.end(), [](a,b){ return a.freq < b.freq; })`
  guarantees only a permutation that is sorted by frequency; its order on
  tie elements is unspecified (and libstdc++'s introsort is in fact not
  stable).  The embedding refines it to the stable `List.insertionSort` on
  `·.freq ≤ ·.freq`; all general theorems below use only the sortedness and
  permutation properties that `std::sort` does guarantee, and concrete
  evaluations are over inputs whose relevant structure does not depend on the
  tie order (this is noted where it matters).
* The C++ `while` loops that walk `parent` links or the decode table are
  embedded as fuelled recursions; the fuel is always sufficient on the states
  the program actually reaches (proved where a claim needs it).
* Reads out of bounds (undefined behaviour in C++) are modelled by `getD`
  with default `0`.
-/

namespace ConstevalHuffman

set_option maxRecDepth 100000

/-- `struct node`: `value` is a byte value (leaves) or a synthetic id `≥ 0x100`
(internal nodes); `parent` is an index into the arena or `-1`; `left`/`right`
are the child *values* (not indices) or `-1`. -/
structure Node where
  value : Int
  freq : Nat
  parent : Int
  left : Int
  right : Int
deriving Repr, DecidableEq

/-- `node()` value-initialised with its default member initialisers. -/
def defaultNode : Node := ⟨0, 0, -1, -1, -1⟩

instance : Inhabited Node := ⟨defaultNode⟩

/-- The 256-entry counting array of `build_node_list` after the two `for`
loops: entry `v` has `value = v` and `freq = ` number of occurrences of `v`. -/
def countNodes (data : List Nat) : List Node :=
  (List.range 256).map fun v => ⟨Int.ofNat v, data.count v, -1, -1, -1⟩

/-- The comparator of `build_node_list`'s sort, as a (reflexive) relation:
we sort with `a.freq ≤ b.freq`, the stable refinement of the strict
`a.freq < b.freq` comparator handed to `std::sort` (see the file comment). -/
def freqLE (a b : Node) : Prop := a.freq ≤ b.freq

instance : DecidableRel freqLE := fun a b => Nat.decLe a.freq b.freq

/-- `build_node_list()`: count all 256 byte values, sort by increasing
frequency, drop the zero-frequency leading entries (`find_if`/`copy`), and pad
to at least two entries with default nodes (`fit_size < 2`). -/
def build_node_list (data : List Nat) : List Node :=
  let sorted := List.insertionSort freqLE (countNodes data)
  let fit := sorted.dropWhile fun n => n.freq == 0
  if fit.length < 2 then fit ++ List.replicate (2 - fit.length) defaultNode else fit

/-- `tree_count()`: `2L - 1` where `L` is the node-list length. -/
def tree_count (data : List Nat) : Nat := 2 * (build_node_list data).length - 1

/-- Re-insertion of the merged parent node into the working list: the first
position whose frequency is `≥ new_node.freq` (the `find_if` /
`copy_backward` dance of `build_node_tree`). -/
def insertNode (m : Node) : List Node → List Node
  | [] => [m]
  | x :: xs => if m.freq ≤ x.freq then m :: x :: xs else x :: insertNode m xs

theorem insertNode_length (m : Node) (l : List Node) :
    (insertNode m l).length = l.length + 1 := by
  induction l with
  | nil => rfl
  | cons x xs ih =>
    simp only [insertNode]
    split <;> simp [ih]

/-- The merge loop of `build_node_tree()`.  State: the working list (two
least-frequent nodes at the front), the part of the arena already built (the
arena is filled from the high end, so `suffix` is kept lowest-index-first:
each iteration stores `list[0]` at the higher slot then `list[1]` below it,
i.e. prepends `list[1] :: list[0]`), and the next synthetic id.  Returns the
root node and the built suffix; the final arena is `root :: suffix`.  The
loop is fuelled to keep the recursion structural (each iteration shortens
the working list by one, so fuel = initial list length always suffices; the
fuel-exhausted branch is unreachable). -/
def mergeLoop : Nat → List Node → List Node → Int → Node × List Node
  | fuel + 1, l0 :: l1 :: rest, suffix, npv =>
    let newNode : Node := ⟨npv, l0.freq + l1.freq, -1, l0.value, l1.value⟩
    if rest.isEmpty then (newNode, l1 :: l0 :: suffix)
    else mergeLoop fuel (insertNode newNode rest) (l1 :: l0 :: suffix) (npv + 1)
  | _, l, suffix, _ => (l.headD defaultNode, suffix)

/-- One step of the parent-linking pass: node `i > 0` (whose `parent` is still
`-1`) gets as parent the first index `j < i` whose `left` or `right` equals
this node's `value` (`std::find_if(tree.begin(), iter, ...)`); if there is
none the `parent` stays `-1`. -/
def linkOne (tree : List Node) (i : Nat) (n : Node) : Node :=
  if i = 0 then n
  else if n.parent = -1 then
    match (tree.take i).findIdx? (fun m => m.left == n.value || m.right == n.value) with
    | some j => { n with parent := (j : Int) }
    | none => n
  else n

/-- The parent-linking pass over the whole arena
(`for (auto iter = tree.begin(); ++iter != tree.end();)`).  The C++ pass is
in place, but it only ever reads the `left`/`right`/`value` fields, which the
pass never writes, so linking every slot against the unlinked arena is
equivalent. -/
def linkParents (tree : List Node) : List Node :=
  (List.range tree.length).map fun i => linkOne tree i (tree.getD i defaultNode)

/-- `build_node_tree()`: run the merge loop (fuel = list length), put the
root at index 0 (`tree[0] = list[0]`), then the parent-linking pass. -/
def build_node_tree (data : List Nat) : List Node :=
  let lst := build_node_list data
  let res := mergeLoop lst.length lst [] 0x100
  linkParents (res.1 :: res.2)

/-- `std::find_if` for the leaf of byte `c` (`n.value == c`); returns the
arena length when absent (never happens for bytes of the input). -/
def leafIdxOf (tree : List Node) (c : Nat) : Nat :=
  tree.findIdx fun n => n.value == (c : Int)

/-- The inner `while (leaf->parent != -1)` loop of `compressed_size_info()`:
walk to the root, incrementing the bit counter with byte wrap-around
(`if (++bits == 8) bits = 0, bytes++`). -/
def walkCount (tree : List Node) : Nat → Nat → Nat → Nat → Nat × Nat
  | 0, _, bytes, bits => (bytes, bits)
  | fuel + 1, idx, bytes, bits =>
    let p := (tree.getD idx defaultNode).parent
    if p = -1 then (bytes, bits)
    else if bits + 1 = 8 then walkCount tree fuel p.toNat (bytes + 1) 0
    else walkCount tree fuel p.toNat bytes (bits + 1)

/-- `compressed_size_info()`: fold the walk over every input byte starting
from `bytes = 1, bits = 0`. -/
def compressed_size_info (data : List Nat) : Nat × Nat :=
  let tree := build_node_tree data
  data.foldl (fun st c => walkCount tree tree.length (leafIdxOf tree c) st.1 st.2) (1, 0)

/-- Number of tree edges from arena slot `idx` to the root (the walk of the
size calculator, counting only). -/
def stepsToRoot (tree : List Node) : Nat → Nat → Nat
  | 0, _ => 0
  | fuel + 1, idx =>
    let p := (tree.getD idx defaultNode).parent
    if p = -1 then 0 else 1 + stepsToRoot tree fuel p.toNat

/-- Depth of arena slot `idx` (fuel = arena size, always enough on built trees). -/
def depthOf (tree : List Node) (idx : Nat) : Nat := stepsToRoot tree tree.length idx

/-- Total number of payload bits: one bit per tree edge per input byte. -/
def totalBits (data : List Nat) : Nat :=
  let tree := build_node_tree data
  (data.map fun c => depthOf tree (leafIdxOf tree c)).sum

/-- `compressed_size()`: payload bytes plus three bytes per tree node. -/
def compressed_size (data : List Nat) : Nat :=
  (compressed_size_info data).1 + 3 * tree_count data

/-- `uncompressed_size()`. -/
def uncompressed_size (data : List Nat) : Nat := data.length

/-- `bytes_saved()`: `max(0, uncompressed_size - compressed_size)` (the C++
computes a signed difference and clamps at zero; `Nat` subtraction is the
same clamp). -/
def bytes_saved (data : List Nat) : Nat :=
  uncompressed_size data - compressed_size data

/-- The inner `while (leaf->parent != -1)` loop of `compress()`: walk to the
root; whenever this node is its parent's right child, set bit `bits` of
output byte `bytes - 1`; then advance the (backward-running) cursor
(`if (++bits == 8) bits = 0, --bytes`). -/
def encodeWalk (tree : List Node) :
    Nat → Nat → List Nat → Nat → Nat → List Nat × Nat × Nat
  | 0, _, out, bytes, bits => (out, bytes, bits)
  | fuel + 1, idx, out, bytes, bits =>
    let n := tree.getD idx defaultNode
    if n.parent = -1 then (out, bytes, bits)
    else
      let p := tree.getD n.parent.toNat defaultNode
      let out' := if p.right = n.value
        then out.set (bytes - 1) ((out.getD (bytes - 1) 0) ||| (1 <<< bits))
        else out
      if bits + 1 = 8 then encodeWalk tree fuel n.parent.toNat out' (bytes - 1) 0
      else encodeWalk tree fuel n.parent.toNat out' bytes (bits + 1)

/-- `compress()`: the payload.  The buffer has `compressed_size_info().first`
zero bytes; the cursor starts at the last used bit (`bits = 8 - last_bits`,
or on a byte boundary `bits = 0, bytes--`) and the input is processed in
reverse order (`for (i = data_length; i > 0; i--)`). -/
def compress (data : List Nat) : List Nat :=
  let tree := build_node_tree data
  let bb := compressed_size_info data
  let start : Nat × Nat := if bb.2 > 0 then (bb.1, 8 - bb.2) else (bb.1 - 1, 0)
  let res := data.reverse.foldl
    (fun (st : List Nat × Nat × Nat) c =>
      encodeWalk tree tree.length (leafIdxOf tree c) st.1 st.2.1 st.2.2)
    (List.replicate bb.1 0, start.1, start.2)
  res.1

/-- The child search of `build_decode_tree()`: first index `j` in
`(i, tree_count)` with `tree[i].left == tree[j].value` (resp. `right`);
returns `tree_count` when there is none. -/
def findChild (tree : List Node) (i : Nat) (v : Int) : Nat :=
  match (tree.drop (i + 1)).findIdx? (fun m => m.value == v) with
  | some k => i + 1 + k
  | none => tree.length

/-- `build_decode_tree()`: three bytes per node — the byte value (or `0` for
internal nodes), then the index distances to the left and right children (or
`0` when absent).  The distances are stored in an `unsigned char`, hence the
`% 256`: a distance above 255 is silently truncated. -/
def decode_tree (data : List Nat) : List Nat :=
  let tree := build_node_tree data
  let T := tree.length
  (List.range T).flatMap fun i =>
    let n := tree.getD i defaultNode
    let jl := findChild tree i n.left
    let jr := findChild tree i n.right
    [if n.value ≤ 255 then n.value.toNat else 0,
     if jl < T then (jl - i) % 256 else 0,
     if jr < T then (jr - i) % 256 else 0]

/-- The single stored byte array of `huffman_compressor` (`part_000`):
payload followed by the decode table in compressed mode, the raw input bytes
in fallback mode (the constructor's `if constexpr (bytes_saved() > 0)`). -/
def storage (data : List Nat) : List Nat :=
  if bytes_saved data > 0 then compress data ++ decode_tree data else data

/-- `size()` accessor of `huffman_compressor`. -/
def size (data : List Nat) : Nat :=
  if bytes_saved data > 0 then compressed_size data else uncompressed_size data

/-- The construction interface: the class template `requires` clause
(`data_length > 0` / `raw_data.size() > 0`) rejects empty input; this is the
only way construction can fail, and it is modelled as the spec's `EmptyInput`
error.  On success the object's stored bytes are produced. -/
inductive ConstructError where
  | EmptyInput
deriving Repr, DecidableEq

def construct (data : List Nat) : Except ConstructError (List Nat) :=
  if data.length = 0 then .error .EmptyInput else .ok (storage data)

/-- Decoder cursor state: `pos` is the byte position of `m_data` relative to
the start of the stored bytes, `bit` is `m_bit`, `cur` is `m_current`. -/
structure Decoder where
  pos : Nat
  bit : Nat
  cur : Int
deriving Repr, DecidableEq

/-- The immutable compressed object as the decoder sees it: the stored byte
array, the decode table (`m_table`, the tail of the stored bytes at offset
`compressed_size_info().first` for `part_000`, its own array for the `.hpp`
variant), the payload size and last-byte bit count from
`compressed_size_info()`, the raw length, and the fallback flag.  The C++
constructor computes all of this once; the decoders only read it. -/
structure HuffObj where
  stored : List Nat
  table : List Nat
  paySize : Nat
  lastBits : Nat
  rawLen : Nat
  isCompressed : Bool
deriving Repr, DecidableEq

/-- The `part_000` object: one array, payload followed by decode table. -/
def objOf (data : List Nat) : HuffObj :=
  let bb := compressed_size_info data
  let st := storage data
  ⟨st, st.drop bb.1, bb.1, bb.2, data.length, bytes_saved data > 0⟩

/-- Byte position of the end cursor (`decoder::end`): `size_bytes - 1` in
compressed mode, the raw length in fallback mode. -/
def endPos (o : HuffObj) : Nat :=
  if o.isCompressed then o.paySize - 1 else o.rawLen

/-- Bit mask of the end cursor: `1 << (7 - last_bits)` in compressed mode,
the untouched default `0x80` in fallback mode. -/
def endBit (o : HuffObj) : Nat :=
  if o.isCompressed then 2 ^ (7 - o.lastBits) else 128

/-- The `end()` decoder: `m_current` still at its default `-1`. -/
def endDecoder (o : HuffObj) : Decoder :=
  ⟨endPos o, endBit o, -1⟩

/-- The `do { ... } while (node[1] != 0)` table walk shared by both decoders:
`bytes` is the byte sequence the payload bits are read from (`m_data`),
`table` the decode table (`m_table`); `node` is the current table entry
index.  One iteration: pick the left/right offset by the current bit, move,
shift the bit mask (reading the next byte on wrap), stop when the new entry's
left offset is zero. -/
def decodeWalk (bytes table : List Nat) :
    Nat → Nat → Nat → Nat → Nat × Nat × Nat
  | 0, node, pos, bit => (node, pos, bit)
  | fuel + 1, node, pos, bit =>
    let byte := bytes.getD pos 0
    let off := if byte &&& bit ≠ 0 then table.getD (node * 3 + 2) 0
               else table.getD (node * 3 + 1) 0
    let node' := node + off
    let pb : Nat × Nat := if bit / 2 = 0 then (pos + 1, 128) else (pos, bit / 2)
    if table.getD (node' * 3 + 1) 0 = 0 then (node', pb.1, pb.2)
    else decodeWalk bytes table fuel node' pb.1 pb.2

/-- `decoder::get_next()` of `part_000`'s `huffman_compressor`: first the
end-cursor check (a no-op that sets `m_current = -1`), then either the table
walk over the stored bytes (compressed mode) or the verbatim pass-through
`m_current = *m_data++` (fallback mode). -/
def getNext (o : HuffObj) (d : Decoder) : Decoder :=
  if d.pos = endPos o ∧ d.bit = endBit o then { d with cur := -1 }
  else if o.isCompressed then
    let res := decodeWalk o.stored o.table (8 * o.stored.length + 16) 0 d.pos d.bit
    ⟨res.2.1, res.2.2, (o.table.getD (res.1 * 3) 0 : Int)⟩
  else ⟨d.pos + 1, d.bit, (o.stored.getD d.pos 0 : Int)⟩

/-- `begin()`: a fresh cursor at the start of the payload, with the first
symbol already decoded (the constructor calls `get_next()`). -/
def beginDecoder (o : HuffObj) : Decoder :=
  getNext o ⟨0, 128, -1⟩

/-- The first `n` symbols produced by iterating the `part_000` decoder. -/
def decodeOut (o : HuffObj) : Nat → Decoder → List Int
  | 0, _ => []
  | n + 1, d => d.cur :: decodeOut o n (getNext o d)

/-- Iterating the decoder from `begin` for exactly `length S` symbols. -/
def decodeAll (data : List Nat) : List Int :=
  decodeOut (objOf data) data.length (beginDecoder (objOf data))

/-- The `src/consteval_huffman.hpp` object: the payload in its own array
(`compressed_data`, exactly `compressed_size_info().first` bytes in
compressed mode, the raw bytes in fallback mode) and the table in a separate
`decode_tree` array. -/
def infoObjOf (data : List Nat) : HuffObj :=
  let bb := compressed_size_info data
  ⟨if bytes_saved data > 0 then compress data else data,
   decode_tree data, bb.1, bb.2, data.length, bytes_saved data > 0⟩

/-- `decode_info::get_next()` of `src/consteval_huffman.hpp`: the same walk
but with *no* end-cursor check. -/
def infoGetNext (o : HuffObj) (d : Decoder) : Decoder :=
  if o.isCompressed then
    let res := decodeWalk o.stored o.table (8 * o.stored.length + 16) 0 d.pos d.bit
    ⟨res.2.1, res.2.2, (o.table.getD (res.1 * 3) 0 : Int)⟩
  else ⟨d.pos + 1, d.bit, (o.stored.getD d.pos 0 : Int)⟩

/-- `decode_info::end()`: in compressed mode the same cursor as `part_000`;
in fallback mode `m_pos = data_length + 1`. -/
def infoEndDecoder (o : HuffObj) : Decoder :=
  if o.isCompressed then ⟨o.paySize - 1, endBit o, -1⟩
  else ⟨o.rawLen + 1, 128, -1⟩

/-! ## The size calculator's closed form

The byte/bit counting loop of `compressed_size_info` is the walk length
combined with base-8 carry arithmetic. -/

/-- Sum of leaf-to-root walk lengths over a byte list, against a fixed
arena. -/
def depthSum (tree : List Node) (l : List Nat) : Nat :=
  (l.map fun c => depthOf tree (leafIdxOf tree c)).sum

theorem walkCount_eq (tree : List Node) (fuel idx bytes bits : Nat)
    (hb : bits < 8) :
    walkCount tree fuel idx bytes bits =
      (bytes + (bits + stepsToRoot tree fuel idx) / 8,
       (bits + stepsToRoot tree fuel idx) % 8) := by
  induction fuel generalizing idx bytes bits with
  | zero =>
    simp [walkCount, stepsToRoot, Nat.div_eq_of_lt hb, Nat.mod_eq_of_lt hb]
  | succ fuel ih =>
    rw [walkCount, stepsToRoot]
    split_ifs with hp h8
    · simp [Nat.div_eq_of_lt hb, Nat.mod_eq_of_lt hb]
    · rw [ih _ _ _ (by norm_num)]
      simp only [Prod.mk.injEq]
      omega
    · rw [ih _ _ _ (by omega)]
      simp only [Prod.mk.injEq]
      omega

theorem foldl_walkCount_eq (tree : List Node) (l : List Nat)
    (bytes bits : Nat) (hb : bits < 8) :
    l.foldl (fun st c =>
        walkCount tree tree.length (leafIdxOf tree c) st.1 st.2) (bytes, bits) =
      (bytes + (bits + depthSum tree l) / 8, (bits + depthSum tree l) % 8) := by
  induction l generalizing bytes bits with
  | nil => simp [depthSum, Nat.div_eq_of_lt hb, Nat.mod_eq_of_lt hb]
  | cons c cs ih =>
    rw [List.foldl_cons]
    simp only [walkCount_eq tree _ _ _ _ hb]
    rw [ih _ _ (Nat.mod_lt _ (by norm_num))]
    have h1 : depthSum tree (c :: cs) =
        depthOf tree (leafIdxOf tree c) + depthSum tree cs := by
      simp [depthSum]
    rw [h1]
    simp only [Prod.mk.injEq, depthOf]
    omega

/-- The closed form of `compressed_size_info`: the loop returns
`(total_bits / 8 + 1, total_bits % 8)` — one byte more than `⌈bits/8⌉`
whenever the bit count is an exact multiple of 8. -/
theorem compressed_size_info_closed (data : List Nat) :
    compressed_size_info data =
      (totalBits data / 8 + 1, totalBits data % 8) := by
  show data.foldl _ (1, 0) = _
  rw [foldl_walkCount_eq _ _ _ _ (by norm_num)]
  simp [totalBits, depthSum, Nat.add_comm]

/-! ## Claim C3: the size calculator's byte count -/

/-- **C3, counterexample.**  On the input of eight `'a'` bytes the total bit
count is 8 (each symbol gets a one-bit code), and the size calculator returns
`(2, 0)`, not the claimed `(⌈8/8⌉, 8 % 8) = (1, 0)`: `total_bytes` is *not*
`⌈total_bits / 8⌉` when the bit count is a multiple of 8. -/
theorem c3_counterexample :
    totalBits (List.replicate 8 97) = 8 ∧
    compressed_size_info (List.replicate 8 97) = (2, 0) ∧
    ¬ ((compressed_size_info (List.replicate 8 97)).1 =
        (totalBits (List.replicate 8 97) + 7) / 8) := by
  refine ⟨by decide, by decide, by decide⟩

/-- **C3, amended.**  For every input, the size calculator returns the pair
`(total_bits / 8 + 1, total_bits mod 8)` where `total_bits` is the sum over
all input bytes of the number of tree edges from that byte's leaf to the
root.  The first component equals `⌈total_bits / 8⌉` exactly when
`total_bits` is not a multiple of 8; on a multiple of 8 it is one byte
larger (the encoder compensates by pre-decrementing its byte cursor, and the
buffer simply keeps one unused trailing byte). -/
theorem c3_amended_size_info (data : List Nat) :
    compressed_size_info data = (totalBits data / 8 + 1, totalBits data % 8) :=
  compressed_size_info_closed data

/-! ## Claim C9: empty input -/

/-- **C9.**  Construction fails with `EmptyInput` exactly when the input
length is 0 (the class template's `requires (data_length > 0)` clause), and
on any non-empty input it succeeds, producing the stored object — on failure
no partial object exists (`Except.error` carries none). -/
theorem c9_empty_input (data : List Nat) :
    (construct data = .error .EmptyInput ↔ data.length = 0) ∧
    (data.length ≠ 0 → construct data = .ok (storage data)) := by
  refine ⟨⟨fun h => ?_, fun h => by simp [construct, h]⟩, fun h => by simp [construct, h]⟩
  by_contra hne
  simp [construct, hne] at h

/-! ## Claim C2: fallback mode -/

/-- Pass-through decoding in fallback mode: from the cursor that has just
produced `data[k - 1]`, the next `n = length - k` outputs are the remaining
bytes. -/
theorem decodeOut_fallback (data : List Nat) (o : HuffObj)
    (hst : o.stored = data) (hc : o.isCompressed = false)
    (hr : o.rawLen = data.length) :
    ∀ n k c, k + n = data.length →
      decodeOut o n (getNext o ⟨k, 128, c⟩) =
        (data.drop k).map Int.ofNat := by
  intro n
  induction n with
  | zero =>
    intro k c hk
    simp [decodeOut, List.drop_eq_nil_of_le (by omega : data.length ≤ k)]
  | succ n ih =>
    intro k c hk
    have hklt : k < data.length := by omega
    have hend : ¬ (k = endPos o ∧ (128 : Nat) = endBit o) := by
      intro ⟨h1, _⟩
      rw [endPos, hc] at h1
      simp at h1
      omega
    have hg : getNext o ⟨k, 128, c⟩ = ⟨k + 1, 128, (data.getD k 0 : Int)⟩ := by
      rw [getNext, if_neg hend, hc]
      simp [hst]
    rw [hg, decodeOut, ih (k + 1) _ (by omega),
      List.drop_eq_getElem_cons hklt, List.map_cons,
      List.getD_eq_getElem _ _ hklt]
    rfl

/-! ## Merge-loop invariants

Structural well-formedness of the arena built by `build_node_tree`, proved by
induction over the merge loop.  `Claims m v` says node `m` records value `v`
as one of its children; `childrenIn n s` says both children of `n` (matched
by value, with the frequency equation) occur in `s`. -/

/-- `m` lists `v` as a child value. -/
def Claims (m : Node) (v : Int) : Prop := m.left = v ∨ m.right = v

instance : ∀ m v, Decidable (Claims m v) := fun m v => by
  unfold Claims; infer_instance

/-- Both children of `n` occur in `s`, and their frequencies sum to `n`'s. -/
def childrenIn (n : Node) (s : List Node) : Prop :=
  ∃ a ∈ s, ∃ b ∈ s, a.value = n.left ∧ b.value = n.right ∧
    n.freq = a.freq + b.freq

theorem childrenIn_mono {n : Node} {s t : List Node} (hsub : ∀ x ∈ s, x ∈ t)
    (h : childrenIn n s) : childrenIn n t := by
  obtain ⟨a, ha, b, hb, h1, h2, h3⟩ := h
  exact ⟨a, hsub a ha, b, hsub b hb, h1, h2, h3⟩

/-- The invariant carried through the merge loop: `lst` is the working list,
`suffix` the part of the arena already built (head = most recently placed,
i.e. lowest final index), `npv` the next synthetic id, `N` the input
length. -/
structure MergeInv (N : Nat) (lst suffix : List Node) (npv : Int) : Prop where
  nodup : (((lst ++ suffix)).map Node.value).Nodup
  parents : ∀ n ∈ lst ++ suffix, n.parent = -1
  fsum : (lst.map Node.freq).sum = N
  vlt : ∀ n ∈ lst ++ suffix, n.value < npv
  vnn : ∀ n ∈ lst ++ suffix, 0 ≤ n.value
  hnpv : 256 ≤ npv
  leafs : ∀ n ∈ lst ++ suffix, n.value ≤ 255 → n.left = -1 ∧ n.right = -1
  lrdiff : ∀ n ∈ lst ++ suffix, 256 ≤ n.value → n.left ≠ n.right
  childL : ∀ n ∈ lst, 256 ≤ n.value → childrenIn n suffix
  childS : ∀ q n, suffix[q]? = some n → 256 ≤ n.value →
    childrenIn n (suffix.drop (q + 1))
  unclaimedL : ∀ n ∈ lst, ∀ m ∈ lst ++ suffix, ¬ Claims m n.value
  claimedS : ∀ q n, suffix[q]? = some n →
    ∃ m, (m ∈ lst ∨ m ∈ suffix.take q) ∧ Claims m n.value ∧
      ∀ m' ∈ lst ++ suffix, Claims m' n.value → m' = m

theorem insertNode_perm (m : Node) (l : List Node) :
    List.Perm (insertNode m l) (m :: l) := by
  induction l with
  | nil => rfl
  | cons x xs ih =>
    rw [insertNode]
    split
    · rfl
    · exact (ih.cons x).trans (List.Perm.swap m x xs)

theorem mem_insertNode {x m : Node} {l : List Node} :
    x ∈ insertNode m l ↔ x = m ∨ x ∈ l := by
  rw [(insertNode_perm m l).mem_iff, List.mem_cons]

/-- Every internal node of the state has its children somewhere in the
arena suffix. -/
theorem MergeInv.childAny {N : Nat} {lst suffix : List Node} {npv : Int}
    (inv : MergeInv N lst suffix npv) :
    ∀ m ∈ lst ++ suffix, 256 ≤ m.value → childrenIn m suffix := by
  intro m hm hint
  rcases List.mem_append.1 hm with hml | hms
  · exact inv.childL m hml hint
  · obtain ⟨q, hq⟩ := List.mem_iff_getElem?.1 hms
    exact childrenIn_mono (fun x hx => List.mem_of_mem_drop hx)
      (inv.childS q m hq hint)

/-- Left/right child values of any node of the state are strictly below the
next synthetic id (a leaf stores `-1`, an internal node stores the value of
an existing node). -/
theorem MergeInv.lr_lt {N : Nat} {lst suffix : List Node} {npv : Int}
    (inv : MergeInv N lst suffix npv) :
    ∀ m ∈ lst ++ suffix, m.left < npv ∧ m.right < npv := by
  intro m hm
  rcases Int.le_or_lt 256 m.value with hint | hleaf
  · obtain ⟨a, ha, b, hb, h1, h2, _⟩ := inv.childAny m hm hint
    have hva := inv.vlt a (List.mem_append.2 (Or.inr ha))
    have hvb := inv.vlt b (List.mem_append.2 (Or.inr hb))
    omega
  · have h := inv.leafs m hm (by omega)
    have := inv.hnpv
    omega

/-- One merge step preserves the invariant: take the two head nodes, place
them in the arena (`l1` below `l0`), and insert their parent back into the
working list. -/
theorem mergeStep_inv {N : Nat} {l0 l1 : Node} {rest suffix : List Node}
    {npv : Int}
    (inv : MergeInv N (l0 :: l1 :: rest) suffix npv) :
    MergeInv N
      (insertNode ⟨npv, l0.freq + l1.freq, -1, l0.value, l1.value⟩ rest)
      (l1 :: l0 :: suffix) (npv + 1) := by
  set nn : Node := ⟨npv, l0.freq + l1.freq, -1, l0.value, l1.value⟩ with hnn
  have hperm : List.Perm (insertNode nn rest ++ (l1 :: l0 :: suffix))
      (nn :: ((l0 :: l1 :: rest) ++ suffix)) := by
    refine ((insertNode_perm nn rest).append_right _).trans ?_
    simp only [List.cons_append]
    refine List.Perm.cons nn ?_
    refine List.Perm.trans List.perm_middle ?_
    refine List.Perm.trans (List.Perm.cons l1 List.perm_middle) ?_
    exact List.Perm.swap l0 l1 _
  have hmem : ∀ x : Node, x ∈ insertNode nn rest ++ (l1 :: l0 :: suffix) ↔
      x = nn ∨ x ∈ (l0 :: l1 :: rest) ++ suffix := by
    intro x
    rw [hperm.mem_iff, List.mem_cons]
  have hl0 : l0 ∈ (l0 :: l1 :: rest) ++ suffix := by simp
  have hl1 : l1 ∈ (l0 :: l1 :: rest) ++ suffix := by simp
  -- distinctness of values of l0, l1, and the others
  have hnodup : ¬ l0.value ∈ (l1.value :: ((rest ++ suffix).map Node.value)) ∧
      ¬ l1.value ∈ ((rest ++ suffix).map Node.value) ∧
      ((rest ++ suffix).map Node.value).Nodup := by
    have h := inv.nodup
    simp only [List.cons_append, List.map_cons, List.nodup_cons] at h
    exact ⟨h.1, h.2.1, h.2.2⟩
  have hv01 : l0.value ≠ l1.value := by
    intro h
    exact hnodup.1 (by simp [h])
  have hvother : ∀ x ∈ rest ++ suffix, l0.value ≠ x.value ∧ l1.value ≠ x.value := by
    intro x hx
    have hxm : x.value ∈ (rest ++ suffix).map Node.value :=
      List.mem_map.2 ⟨x, hx, rfl⟩
    constructor
    · intro h
      apply hnodup.1
      apply List.mem_cons.2
      right
      rw [h]
      exact hxm
    · intro h
      apply hnodup.2.1
      rw [h]
      exact hxm
  have hnewval : (nn.value : Int) = npv := rfl
  refine ⟨?_, ?_, ?_, ?_, ?_, ?_, ?_, ?_, ?_, ?_, ?_, ?_⟩
  -- nodup
  · rw [(hperm.map Node.value).nodup_iff]
    rw [List.map_cons, List.nodup_cons]
    refine ⟨fun hmem' => ?_, inv.nodup⟩
    obtain ⟨x, hx, hxv⟩ := List.mem_map.1 hmem'
    have := inv.vlt x hx
    rw [hxv] at this
    exact absurd this (by rw [hnewval]; omega)
  -- parents
  · intro n hn
    rcases (hmem n).1 hn with h | h
    · rw [h]
    · exact inv.parents n h
  -- fsum
  · have h := ((insertNode_perm nn rest).map Node.freq).sum_eq
    rw [h]
    have h2 := inv.fsum
    simp only [List.cons_append, List.map_cons, List.sum_cons] at h2 ⊢
    omega
  -- vlt
  · intro n hn
    rcases (hmem n).1 hn with h | h
    · rw [h, hnewval]; omega
    · have := inv.vlt n h; omega
  -- vnn
  · intro n hn
    rcases (hmem n).1 hn with h | h
    · rw [h, hnewval]; have := inv.hnpv; omega
    · exact inv.vnn n h
  -- hnpv
  · have := inv.hnpv; omega
  -- leafs
  · intro n hn hle
    rcases (hmem n).1 hn with h | h
    · rw [h, hnewval] at hle; have := inv.hnpv; omega
    · exact inv.leafs n h hle
  -- lrdiff
  · intro n hn hge
    rcases (hmem n).1 hn with h | h
    · rw [h]; exact hv01
    · exact inv.lrdiff n h hge
  -- childL
  · intro n hn hge
    rcases mem_insertNode.1 hn with h | h
    · rw [h]
      exact ⟨l0, by simp, l1, by simp, rfl, rfl, rfl⟩
    · exact childrenIn_mono
        (fun x hx => List.mem_cons.2 (Or.inr (List.mem_cons.2 (Or.inr hx))))
        (inv.childL n (by simp [h]) hge)
  -- childS
  · intro q n hq hge
    match q, hq with
    | 0, hq =>
      have hn : n = l1 := by simpa using hq.symm
      subst hn
      rw [List.drop_succ_cons, List.drop_zero]
      exact childrenIn_mono (fun x hx => by simp [hx])
        (inv.childL n (by simp) hge)
    | 1, hq =>
      have hn : n = l0 := by simpa using hq.symm
      subst hn
      rw [List.drop_succ_cons, List.drop_succ_cons, List.drop_zero]
      exact inv.childL n (by simp) hge
    | (q + 2), hq =>
      have hq' : suffix[q]? = some n := by simpa using hq
      rw [List.drop_succ_cons, List.drop_succ_cons]
      exact inv.childS q n hq' hge
  -- unclaimedL
  · intro n hn m hm hc
    rcases mem_insertNode.1 hn with h | h
    · -- n is the new node: nobody can claim the fresh id npv
      rw [h] at hc
      rcases (hmem m).1 hm with hm' | hm'
      · rcases hc with hc1 | hc1
        · have h1 : l0.value = npv := by rw [hm'] at hc1; exact hc1
          have := inv.vlt l0 hl0
          omega
        · have h1 : l1.value = npv := by rw [hm'] at hc1; exact hc1
          have := inv.vlt l1 hl1
          omega
      · have hlt := inv.lr_lt m hm'
        rcases hc with hc1 | hc1
        · have h1 : m.left = npv := hc1
          omega
        · have h1 : m.right = npv := hc1
          omega
    · -- n is one of the remaining working nodes
      have hnlst : n ∈ l0 :: l1 :: rest := by simp [h]
      rcases (hmem m).1 hm with hm' | hm'
      · rw [hm'] at hc
        rcases hc with hc | hc
        · exact (hvother n (List.mem_append.2 (Or.inl h))).1 hc
        · exact (hvother n (List.mem_append.2 (Or.inl h))).2 hc
      · exact inv.unclaimedL n hnlst m hm' hc
  -- claimedS
  · intro q n hq
    match q, hq with
    | 0, hq =>
      have hn : n = l1 := by simpa using hq.symm
      subst hn
      refine ⟨nn, Or.inl (mem_insertNode.2 (Or.inl rfl)), Or.inr rfl, ?_⟩
      intro m' hm' hc
      rcases (hmem m').1 hm' with h | h
      · exact h
      · exact absurd hc (inv.unclaimedL n (by simp) m' h)
    | 1, hq =>
      have hn : n = l0 := by simpa using hq.symm
      subst hn
      refine ⟨nn, Or.inl (mem_insertNode.2 (Or.inl rfl)), Or.inl rfl, ?_⟩
      intro m' hm' hc
      rcases (hmem m').1 hm' with h | h
      · exact h
      · exact absurd hc (inv.unclaimedL n (by simp) m' h)
    | (q + 2), hq =>
      have hq' : suffix[q]? = some n := by simpa using hq
      obtain ⟨m, hmloc, hmcl, huniq⟩ := inv.claimedS q n hq'
      have hnmem : n ∈ suffix := List.mem_iff_getElem?.2 ⟨q, hq'⟩
      refine ⟨m, ?_, hmcl, ?_⟩
      · rcases hmloc with hml | hmt
        · rcases List.mem_cons.1 hml with h | h
          · -- m = l0, now in the arena at position 1
            right
            rw [List.take_succ_cons, List.take_succ_cons]
            simp [h]
          · rcases List.mem_cons.1 h with h2 | h2
            · right
              rw [List.take_succ_cons, List.take_succ_cons]
              simp [h2]
            · exact Or.inl (mem_insertNode.2 (Or.inr h2))
        · right
          rw [List.take_succ_cons, List.take_succ_cons]
          simp only [List.mem_cons]
          exact Or.inr (Or.inr hmt)
      · intro m' hm' hc
        rcases (hmem m').1 hm' with h | h
        · rw [h] at hc
          rcases hc with hc | hc
          · have h1 : l0.value = n.value := hc
            exact absurd h1 (hvother n (List.mem_append.2 (Or.inr hnmem))).1
          · have h1 : l1.value = n.value := hc
            exact absurd h1 (hvother n (List.mem_append.2 (Or.inr hnmem))).2
        · exact huniq m' h hc

/-- Running the merge loop with enough fuel preserves the invariant and
ends with a single root node. -/
theorem mergeLoop_inv {N : Nat} :
    ∀ (fuel : Nat) (lst suffix : List Node) (npv : Int),
      2 ≤ lst.length → lst.length ≤ fuel → MergeInv N lst suffix npv →
      ∃ npv', MergeInv N [(mergeLoop fuel lst suffix npv).1]
        (mergeLoop fuel lst suffix npv).2 npv' := by
  intro fuel
  induction fuel with
  | zero => intro lst suffix npv h2 hf inv; omega
  | succ fuel ih =>
    intro lst suffix npv h2 hf inv
    match lst, h2, hf, inv with
    | l0 :: l1 :: rest, h2, hf, inv =>
      rw [mergeLoop]
      by_cases hre : rest.isEmpty
      · rw [if_pos hre]
        have hrest : rest = [] := List.isEmpty_iff.1 hre
        subst hrest
        exact ⟨npv + 1, mergeStep_inv inv⟩
      · rw [if_neg hre]
        have hne : rest ≠ [] := by simpa [List.isEmpty_iff] using hre
        have hlen : 1 ≤ rest.length := by
          cases rest with
          | nil => exact absurd rfl hne
          | cons _ _ => simp
        apply ih
        · rw [insertNode_length]; omega
        · rw [insertNode_length]
          simp only [List.length_cons] at hf
          omega
        · exact mergeStep_inv inv

/-- Sum of pointwise sums. -/
theorem sum_map_add_split (l : List Nat) (f g : Nat → Nat) :
    (l.map (fun v => f v + g v)).sum = (l.map f).sum + (l.map g).sum := by
  induction l with
  | nil => simp
  | cons a as ih => simp [ih]; omega

/-- Summing the indicator of `c` counts its occurrences. -/
theorem sum_map_ite_count (c : Nat) (l : List Nat) :
    (l.map (fun v => if v = c then 1 else 0)).sum = l.count c := by
  induction l with
  | nil => simp
  | cons a as ih =>
    rw [List.map_cons, List.sum_cons, ih]
    by_cases h : a = c
    · subst h
      simp [List.count_cons_self]
      omega
    · rw [List.count_cons_of_ne (fun hh => h hh.symm)]
      simp [h]

/-- Total of all 256 counters is the input length. -/
theorem counts_sum (data : List Nat) (h256 : ∀ c ∈ data, c < 256) :
    ((List.range 256).map (fun v => data.count v)).sum = data.length := by
  induction data with
  | nil => simp
  | cons c cs ih =>
    have h1 : (List.range 256).map (fun v => (c :: cs).count v)
        = (List.range 256).map (fun v => cs.count v + if v = c then 1 else 0) := by
      apply List.map_congr_left
      intro v _
      rw [List.count_cons]
      by_cases h : v = c
      · subst h; simp
      · have h2 : (c == v) = false := by
          simp only [beq_eq_false_iff_ne, ne_eq]
          exact fun hh => h hh.symm
        simp [h, h2]
    rw [h1, sum_map_add_split, sum_map_ite_count,
      ih (fun x hx => h256 x (List.mem_cons.2 (Or.inr hx)))]
    have hc : (List.range 256).count c = 1 :=
      List.count_eq_one_of_mem (List.nodup_range 256)
        (List.mem_range.2 (h256 c (List.mem_cons.2 (Or.inl rfl))))
    rw [hc]
    simp

/-- Structure of the nodes handed to the merge loop: fresh leaves. -/
theorem mem_build_node_list {data : List Nat} {n : Node}
    (hn : n ∈ build_node_list data) :
    n.parent = -1 ∧ n.left = -1 ∧ n.right = -1 ∧ 0 ≤ n.value ∧ n.value < 256 := by
  have hmem : n ∈ (List.insertionSort freqLE (countNodes data)).dropWhile
        (fun n => n.freq == 0) ∨ n = defaultNode := by
    simp only [build_node_list] at hn
    split at hn
    · rcases List.mem_append.1 hn with h | h
      · exact Or.inl h
      · exact Or.inr (List.eq_of_mem_replicate h)
    · exact Or.inl hn
  rcases hmem with h | h
  · have h2 : n ∈ List.insertionSort freqLE (countNodes data) :=
      (List.dropWhile_sublist _).subset h
    have h3 : n ∈ countNodes data :=
      (List.perm_insertionSort freqLE (countNodes data)).mem_iff.1 h2
    simp only [countNodes, List.mem_map, List.mem_range] at h3
    obtain ⟨v, hv, he⟩ := h3
    rw [← he]
    refine ⟨rfl, rfl, rfl, Int.natCast_nonneg v, ?_⟩
    show Int.ofNat v < 256
    rw [Int.ofNat_eq_coe]
    exact_mod_cast hv
  · rw [h]
    exact ⟨rfl, rfl, rfl, by norm_num [defaultNode], by norm_num [defaultNode]⟩

/-- The node list's frequencies sum to the input length. -/
theorem build_node_list_sum (data : List Nat) (h256 : ∀ c ∈ data, c < 256) :
    ((build_node_list data).map Node.freq).sum = data.length := by
  have hcount : ((countNodes data).map Node.freq).sum = data.length := by
    have hcomp : (countNodes data).map Node.freq
        = (List.range 256).map (fun v => data.count v) := by
      rw [countNodes, List.map_map]
      apply List.map_congr_left
      intro v _
      rfl
    rw [hcomp]
    exact counts_sum data h256
  have hsort : ((List.insertionSort freqLE (countNodes data)).map Node.freq).sum
      = data.length := by
    rw [((List.perm_insertionSort freqLE (countNodes data)).map Node.freq).sum_eq]
    exact hcount
  set sorted := List.insertionSort freqLE (countNodes data) with hs
  have hsplit : sorted = sorted.takeWhile (fun n => n.freq == 0) ++
      sorted.dropWhile (fun n => n.freq == 0) :=
    (List.takeWhile_append_dropWhile _ _).symm
  have htake : ((sorted.takeWhile (fun n => n.freq == 0)).map Node.freq).sum = 0 := by
    apply List.sum_eq_zero
    intro x hx
    obtain ⟨m, hm, rfl⟩ := List.mem_map.1 hx
    have := List.mem_takeWhile_imp hm
    simpa using this
  have hdrop : ((sorted.dropWhile (fun n => n.freq == 0)).map Node.freq).sum
      = data.length := by
    have := hsort
    rw [hsplit, List.map_append, List.sum_append, htake] at this
    simpa using this
  simp only [build_node_list, ← hs]
  split
  · rw [List.map_append, List.sum_append, hdrop]
    have : ((List.replicate (2 - (sorted.dropWhile (fun n => n.freq == 0)).length)
        defaultNode).map Node.freq).sum = 0 := by
      apply List.sum_eq_zero
      intro x hx
      obtain ⟨m, hm, rfl⟩ := List.mem_map.1 hx
      rw [List.eq_of_mem_replicate hm]
      rfl
    rw [this]
    omega
  · exact hdrop

/-- The initial state satisfies the invariant (given distinct values, which
can only fail when the padding node duplicates an all-zero input's single
symbol). -/
theorem initial_inv (data : List Nat) (h256 : ∀ c ∈ data, c < 256)
    (hnd : ((build_node_list data).map Node.value).Nodup) :
    MergeInv data.length (build_node_list data) [] 256 := by
  refine ⟨by simpa using hnd, ?_, build_node_list_sum data h256, ?_, ?_,
    le_refl _, ?_, ?_, ?_, ?_, ?_, ?_⟩
  · intro n hn
    exact (mem_build_node_list (by simpa using hn)).1
  · intro n hn
    exact (mem_build_node_list (by simpa using hn)).2.2.2.2
  · intro n hn
    exact (mem_build_node_list (by simpa using hn)).2.2.2.1
  · intro n hn _
    exact ⟨(mem_build_node_list (by simpa using hn)).2.1,
      (mem_build_node_list (by simpa using hn)).2.2.1⟩
  · intro n hn hge
    have h := (mem_build_node_list (n := n) (by simpa using hn)).2.2.2.2
    omega
  · intro n hn hge
    have h := (mem_build_node_list (n := n) (by simpa using hn)).2.2.2.2
    omega
  · intro q n hq
    simp at hq
  · intro n hn m hm hc
    have hmfacts := mem_build_node_list (n := m) (by simpa using hm)
    have hnfacts := mem_build_node_list (n := n) hn
    rcases hc with hc | hc
    · rw [hmfacts.2.1] at hc
      have := hnfacts.2.2.2.1
      omega
    · rw [hmfacts.2.2.1] at hc
      have := hnfacts.2.2.2.1
      omega
  · intro q n hq
    simp at hq

/-- Node at arena index `i` (the arena is only ever indexed in bounds). -/
def nodeAt (T : List Node) (i : Nat) : Node := T.getD i defaultNode

/-- The arena suffix grows by exactly two nodes per merge. -/
theorem mergeLoop_length :
    ∀ (fuel : Nat) (lst suffix : List Node) (npv : Int),
      2 ≤ lst.length → lst.length ≤ fuel →
      ((mergeLoop fuel lst suffix npv).2).length
        = 2 * (lst.length - 1) + suffix.length := by
  intro fuel
  induction fuel with
  | zero => intro lst suffix npv h2 hf; omega
  | succ fuel ih =>
    intro lst suffix npv h2 hf
    match lst, h2, hf with
    | l0 :: l1 :: rest, h2, hf =>
      rw [mergeLoop]
      by_cases hre : rest.isEmpty
      · rw [if_pos hre]
        have hrest : rest = [] := List.isEmpty_iff.1 hre
        subst hrest
        simp
        omega
      · rw [if_neg hre]
        have hne : rest ≠ [] := by simpa [List.isEmpty_iff] using hre
        have hlen : 1 ≤ rest.length := by
          cases rest with
          | nil => exact absurd rfl hne
          | cons _ _ => simp
        rw [ih]
        · rw [insertNode_length]
          simp only [List.length_cons] at *
          omega
        · rw [insertNode_length]; omega
        · rw [insertNode_length]
          simp only [List.length_cons] at hf
          omega

/-- The node list always has at least two entries. -/
theorem two_le_build_node_list_length (data : List Nat) :
    2 ≤ (build_node_list data).length := by
  simp only [build_node_list]
  split
  · rw [List.length_append, List.length_replicate]
    omega
  · omega

theorem linkParents_length (t : List Node) :
    (linkParents t).length = t.length := by
  simp [linkParents]

theorem nodeAt_linkParents (t : List Node) (i : Nat) (h : i < t.length) :
    nodeAt (linkParents t) i = linkOne t i (nodeAt t i) := by
  simp only [linkParents, nodeAt]
  rw [List.getD_eq_getElem _ _ (by simpa using h)]
  simp [h]

theorem linkOne_value (t : List Node) (i : Nat) (n : Node) :
    (linkOne t i n).value = n.value := by
  unfold linkOne
  split
  · rfl
  split
  · split <;> rfl
  · rfl

theorem linkOne_left (t : List Node) (i : Nat) (n : Node) :
    (linkOne t i n).left = n.left := by
  unfold linkOne
  split
  · rfl
  split
  · split <;> rfl
  · rfl

theorem linkOne_right (t : List Node) (i : Nat) (n : Node) :
    (linkOne t i n).right = n.right := by
  unfold linkOne
  split
  · rfl
  split
  · split <;> rfl
  · rfl

theorem linkOne_freq (t : List Node) (i : Nat) (n : Node) :
    (linkOne t i n).freq = n.freq := by
  unfold linkOne
  split
  · rfl
  split
  · split <;> rfl
  · rfl

/-- The final well-formedness package for the built arena: root at index 0
with the whole input's frequency, unique values, parent links pointing
strictly downwards at the unique claiming node, children strictly above
their parents with the frequency equation. -/
structure WfTree (T : List Node) (L N : Nat) : Prop where
  len : T.length = 2 * L - 1
  hL : 2 ≤ L
  rootPar : (nodeAt T 0).parent = -1
  rootFreq : (nodeAt T 0).freq = N
  nodupV : (T.map Node.value).Nodup
  vnn : ∀ i, i < T.length → 0 ≤ (nodeAt T i).value
  leafIff : ∀ i, i < T.length → (nodeAt T i).value ≤ 255 →
    (nodeAt T i).left = -1 ∧ (nodeAt T i).right = -1
  parentLink : ∀ i, 0 < i → i < T.length →
    ∃ j, j < i ∧ (nodeAt T i).parent = (j : Int) ∧
      Claims (nodeAt T j) (nodeAt T i).value
  parentUnique : ∀ i, 0 < i → i < T.length → ∀ j, j < T.length →
    Claims (nodeAt T j) (nodeAt T i).value → (nodeAt T i).parent = (j : Int)
  rootNoClaim : ∀ j, j < T.length → ¬ Claims (nodeAt T j) (nodeAt T 0).value
  childLink : ∀ i, i < T.length → 256 ≤ (nodeAt T i).value →
    ∃ jl jr, i < jl ∧ jl < T.length ∧ i < jr ∧ jr < T.length ∧ jl ≠ jr ∧
      (nodeAt T jl).value = (nodeAt T i).left ∧
      (nodeAt T jr).value = (nodeAt T i).right ∧
      (nodeAt T i).freq = (nodeAt T jl).freq + (nodeAt T jr).freq
  lrneq : ∀ i, i < T.length → 256 ≤ (nodeAt T i).value →
    (nodeAt T i).left ≠ (nodeAt T i).right

/-- The Boolean child-search predicate of `linkOne` agrees with `Claims`. -/
theorem claims_bool_iff (m : Node) (v : Int) :
    (m.left == v || m.right == v) = true ↔ Claims m v := by
  simp [Claims]

/-- Main structural theorem: the arena produced by `build_node_tree` is
well-formed, provided the node-list values are distinct (which holds for
every input except the all-zero-bytes one, see `build_node_list_nodup`). -/
theorem tree_wf (data : List Nat) (h256 : ∀ c ∈ data, c < 256)
    (hnd : ((build_node_list data).map Node.value).Nodup) :
    WfTree (build_node_tree data) (build_node_list data).length data.length := by
  have h2 : 2 ≤ (build_node_list data).length := two_le_build_node_list_length data
  obtain ⟨npv', inv⟩ := mergeLoop_inv (build_node_list data).length
    (build_node_list data) [] 256 h2 (le_refl _) (initial_inv data h256 hnd)
  obtain ⟨root, sufF, hrs⟩ :
      ∃ r s, mergeLoop (build_node_list data).length (build_node_list data) [] 0x100
        = (r, s) := ⟨_, _, Prod.mk.eta.symm⟩
  rw [hrs] at inv
  have hslen : sufF.length = 2 * ((build_node_list data).length - 1) := by
    have := mergeLoop_length (build_node_list data).length
      (build_node_list data) [] 256 h2 (le_refl _)
    rw [hrs] at this
    simpa using this
  have hT : build_node_tree data = linkParents (root :: sufF) := by
    rw [build_node_tree, hrs]
  -- facts about the pre-linking arena tp
  have htpl : (root :: sufF).length = 2 * (build_node_list data).length - 1 := by
    simp only [List.length_cons, hslen]
    omega
  have htpmem : ∀ x : Node, x ∈ root :: sufF ↔ x ∈ [root] ++ sufF := by
    intro x; simp
  have hget : ∀ i, i < (root :: sufF).length →
      (root :: sufF)[i]? = some (nodeAt (root :: sufF) i) := by
    intro i h
    rw [nodeAt, List.getD_eq_getElem _ _ h, List.getElem?_eq_getElem h]
  have hmemAt : ∀ i, i < (root :: sufF).length → nodeAt (root :: sufF) i ∈ root :: sufF := by
    intro i h
    rw [nodeAt, List.getD_eq_getElem _ _ h]
    exact List.getElem_mem h
  have hnodup_tp : ((root :: sufF).map Node.value).Nodup := by
    have := inv.nodup
    simpa using this
  have hvinj : ∀ i j, i < (root :: sufF).length → j < (root :: sufF).length →
      (nodeAt (root :: sufF) i).value = (nodeAt (root :: sufF) j).value → i = j := by
    intro i j hi hj hv
    have hmi : i < ((root :: sufF).map Node.value).length := by simpa using hi
    have hmj : j < ((root :: sufF).map Node.value).length := by simpa using hj
    have hvv : ((root :: sufF).map Node.value).get ⟨i, hmi⟩
        = ((root :: sufF).map Node.value).get ⟨j, hmj⟩ := by
      rw [List.get_eq_getElem, List.get_eq_getElem,
        List.getElem_map, List.getElem_map]
      rw [nodeAt, nodeAt, List.getD_eq_getElem _ _ hi, List.getD_eq_getElem _ _ hj] at hv
      exact hv
    have hfe := (List.Nodup.get_inj_iff hnodup_tp).1 hvv
    exact congrArg Fin.val hfe
  -- index of a node known to be in the arena
  have hidx : ∀ m : Node, m ∈ root :: sufF →
      ∃ j, j < (root :: sufF).length ∧ (root :: sufF)[j]? = some m := by
    intro m hm
    obtain ⟨j, hj⟩ := List.mem_iff_getElem?.1 hm
    exact ⟨j, (List.getElem?_eq_some.1 hj).1, hj⟩
  -- fields of the post-linking arena
  have hlen' : (build_node_tree data).length = (root :: sufF).length := by
    rw [hT, linkParents_length]
  have hfields : ∀ i, i < (root :: sufF).length →
      (nodeAt (build_node_tree data) i).value = (nodeAt (root :: sufF) i).value ∧
      (nodeAt (build_node_tree data) i).left = (nodeAt (root :: sufF) i).left ∧
      (nodeAt (build_node_tree data) i).right = (nodeAt (root :: sufF) i).right ∧
      (nodeAt (build_node_tree data) i).freq = (nodeAt (root :: sufF) i).freq := by
    intro i h
    rw [hT, nodeAt_linkParents _ _ h]
    exact ⟨linkOne_value _ _ _, linkOne_left _ _ _, linkOne_right _ _ _,
      linkOne_freq _ _ _⟩
  have hclaimsT : ∀ j v, j < (root :: sufF).length →
      (Claims (nodeAt (build_node_tree data) j) v ↔ Claims (nodeAt (root :: sufF) j) v) := by
    intro j v hj
    unfold Claims
    rw [(hfields j hj).2.1, (hfields j hj).2.2.1]
  -- suffix access shifted by one
  have hsufat : ∀ q, q < sufF.length → sufF[q]? = some (nodeAt (root :: sufF) (q + 1)) := by
    intro q hq
    have : (root :: sufF)[q + 1]? = sufF[q]? := by simp
    rw [← this]
    exact hget (q + 1) (by simpa using Nat.succ_lt_succ hq)
  -- parent fields before linking are all -1
  have hpar_tp : ∀ i, i < (root :: sufF).length →
      (nodeAt (root :: sufF) i).parent = -1 := by
    intro i h
    exact inv.parents _ (by simpa using hmemAt i h)
  -- the claimant of a non-root node, with its arena index
  have hclaimant : ∀ i, 0 < i → i < (root :: sufF).length →
      ∃ jm, jm < i ∧ (root :: sufF)[jm]? = some (nodeAt (root :: sufF) jm) ∧
        Claims (nodeAt (root :: sufF) jm) (nodeAt (root :: sufF) i).value ∧
        ∀ k, k < (root :: sufF).length →
          Claims (nodeAt (root :: sufF) k) (nodeAt (root :: sufF) i).value → k = jm := by
    intro i hi0 hilen
    obtain ⟨q, rfl⟩ : ∃ q, i = q + 1 := ⟨i - 1, by omega⟩
    have hq : q < sufF.length := by
      simp only [List.length_cons] at hilen
      omega
    obtain ⟨m, hmloc, hmcl, huniq⟩ := inv.claimedS q _ (hsufat q hq)
    have hmidx : ∃ jm, jm < q + 1 ∧ (root :: sufF)[jm]? = some m := by
      rcases hmloc with hml | hmt
      · refine ⟨0, Nat.succ_pos q, ?_⟩
        simp only [List.mem_singleton] at hml
        rw [hml]
        simp
      · obtain ⟨p, hp⟩ := List.mem_iff_getElem?.1 hmt
        have hplen : p < (sufF.take q).length := (List.getElem?_eq_some.1 hp).1
        have hpq : p < q := by
          rw [List.length_take] at hplen
          omega
        refine ⟨p + 1, by omega, ?_⟩
        have h1 : (root :: sufF)[p + 1]? = sufF[p]? := by simp
        rw [h1, ← hp, List.getElem?_take_of_lt hpq]

    obtain ⟨jm, hjmlt, hjm⟩ := hmidx
    have hjmlen : jm < (root :: sufF).length := by
      simp only [List.length_cons] at *
      omega
    have hmeq : nodeAt (root :: sufF) jm = m := by
      have := hget jm hjmlen
      rw [this] at hjm
      exact Option.some.inj hjm.symm |>.symm
    refine ⟨jm, hjmlt, hget jm hjmlen, by rw [hmeq]; exact hmcl, ?_⟩
    intro k hklen hkcl
    have hkm : nodeAt (root :: sufF) k = m :=
      huniq _ (by simpa using hmemAt k hklen) hkcl
    apply hvinj k jm hklen hjmlen
    rw [hkm, hmeq]
  -- the linking pass resolves each non-root parent to the unique claimant
  have hlink : ∀ i, 0 < i → i < (root :: sufF).length →
      ∃ jm, jm < i ∧
        (nodeAt (build_node_tree data) i).parent = (jm : Int) ∧
        Claims (nodeAt (root :: sufF) jm) (nodeAt (root :: sufF) i).value ∧
        ∀ k, k < (root :: sufF).length →
          Claims (nodeAt (root :: sufF) k) (nodeAt (root :: sufF) i).value → k = jm := by
    intro i hi0 hilen
    obtain ⟨jm, hjmlt, hjmget, hjmcl, hjmuniq⟩ := hclaimant i hi0 hilen
    refine ⟨jm, hjmlt, ?_, hjmcl, hjmuniq⟩
    rw [hT, nodeAt_linkParents _ _ hilen, linkOne,
      if_neg (Nat.pos_iff_ne_zero.1 hi0), if_pos (hpar_tp i hilen)]
    have hfind : ((root :: sufF).take i).findIdx?
        (fun m => m.left == (nodeAt (root :: sufF) i).value ||
          m.right == (nodeAt (root :: sufF) i).value) = some jm := by
      rw [List.findIdx?_eq_some_iff_getElem]
      have htklen : ((root :: sufF).take i).length = i := by
        rw [List.length_take]
        omega
      refine ⟨by omega, ?_, ?_⟩
      · have hjmtk : jm < ((root :: sufF).take i).length := by omega
        have hjmval : ((root :: sufF).take i).get ⟨jm, hjmtk⟩
            = nodeAt (root :: sufF) jm := by
          rw [List.get_eq_getElem, List.getElem_take]
          have := hget jm (by omega)
          rw [List.getElem?_eq_getElem (by omega : jm < (root :: sufF).length)] at this
          exact Option.some.inj this
        rw [List.get_eq_getElem] at hjmval
        rw [hjmval]
        exact (claims_bool_iff _ _).2 hjmcl
      · intro k hk
        have hki : k < i := by omega
        have hklen : k < (root :: sufF).length := by omega
        have hktk : k < ((root :: sufF).take i).length := by omega
        have hkval : ((root :: sufF).take i).get ⟨k, hktk⟩
            = nodeAt (root :: sufF) k := by
          rw [List.get_eq_getElem, List.getElem_take]
          have := hget k hklen
          rw [List.getElem?_eq_getElem hklen] at this
          exact Option.some.inj this
        rw [List.get_eq_getElem] at hkval
        rw [hkval]
        intro hcl
        have := hjmuniq k hklen ((claims_bool_iff _ _).1 hcl)
        omega
    rw [hfind]
  refine ⟨?_, h2, ?_, ?_, ?_, ?_, ?_, ?_, ?_, ?_, ?_, ?_⟩
  -- len
  · rw [hlen', htpl]
  -- rootPar
  · rw [hT, nodeAt_linkParents _ _ (by simp), linkOne, if_pos rfl]
    exact hpar_tp 0 (by simp)
  -- rootFreq
  · rw [(hfields 0 (by simp)).2.2.2]
    have := inv.fsum
    simp only [List.map_cons, List.map_nil, List.sum_cons, List.sum_nil] at this
    have h0 : nodeAt (root :: sufF) 0 = root := rfl
    rw [h0]
    omega
  -- nodupV
  · have hmapeq : (build_node_tree data).map Node.value
        = (root :: sufF).map Node.value := by
      apply List.ext_getElem?
      intro i
      by_cases h : i < (root :: sufF).length
      · rw [List.getElem?_eq_getElem (by simpa [hlen'] using h),
          List.getElem?_eq_getElem (by simpa using h)]
        simp only [List.getElem_map]
        have h1 := (hfields i h).1
        rw [nodeAt, nodeAt, List.getD_eq_getElem _ _ (by omega),
          List.getD_eq_getElem _ _ (by rw [hlen']; omega)] at h1
        rw [h1, List.getD_eq_getElem _ _ h]
      · rw [List.getElem?_eq_none, List.getElem?_eq_none]
        · simpa using (by omega : (root :: sufF).length ≤ i)
        · simp only [List.length_map]
          omega
    rw [hmapeq]
    exact hnodup_tp
  -- vnn
  · intro i hi
    rw [(hfields i (by rwa [← hlen'])).1]
    exact inv.vnn _ (by simpa using hmemAt i (by rwa [← hlen']))
  -- leafIff
  · intro i hi hv
    rw [(hfields i (by rwa [← hlen'])).1] at hv
    rw [(hfields i (by rwa [← hlen'])).2.1, (hfields i (by rwa [← hlen'])).2.2.1]
    exact inv.leafs _ (by simpa using hmemAt i (by rwa [← hlen'])) hv
  -- parentLink
  · intro i hi0 hi
    obtain ⟨jm, hjmlt, hpar, hcl, _⟩ := hlink i hi0 (by rwa [← hlen'])
    refine ⟨jm, hjmlt, hpar, ?_⟩
    rw [(hclaimsT jm _ (by simp only [List.length_cons] at *; omega)),
      (hfields i (by rwa [← hlen'])).1]
    exact hcl
  -- parentUnique
  · intro i hi0 hi j hj hcl
    obtain ⟨jm, hjmlt, hpar, _, huniq⟩ := hlink i hi0 (by rwa [← hlen'])
    rw [hpar]
    have := huniq j (by rwa [← hlen'])
    rw [(hclaimsT j _ (by rwa [← hlen'])),
      (hfields i (by rwa [← hlen'])).1] at hcl
    rw [this hcl]
  -- rootNoClaim
  · intro j hj hcl
    rw [(hclaimsT j _ (by rwa [← hlen'])), (hfields 0 (by simp)).1] at hcl
    have h0 : nodeAt (root :: sufF) 0 = root := rfl
    rw [h0] at hcl
    exact inv.unclaimedL root (by simp) _
      (by simpa using hmemAt j (by rwa [← hlen'])) hcl
  -- childLink
  · intro i hi hv
    have hi' : i < (root :: sufF).length := by rwa [← hlen']
    rw [(hfields i hi').1] at hv
    -- obtain children in the suffix below position i
    have hkids : ∃ s₀, (∀ x ∈ s₀, ∃ p, i ≤ p + 1 ∧ p + 1 < (root :: sufF).length ∧
          i ≠ p + 1 ∧ (root :: sufF)[p + 1]? = some x) ∧
        childrenIn (nodeAt (root :: sufF) i) s₀ := by
      match i, hi' with
      | 0, _ =>
        refine ⟨sufF, ?_, inv.childL _ (by simp [nodeAt]) hv⟩
        intro x hx
        obtain ⟨p, hp⟩ := List.mem_iff_getElem?.1 hx
        have hplen := (List.getElem?_eq_some.1 hp).1
        exact ⟨p, by omega, by simp only [List.length_cons]; omega, by omega,
          by simpa using hp⟩
      | (q + 1), hq =>
        have hqlen : q < sufF.length := by
          simp only [List.length_cons] at hq
          omega
        refine ⟨sufF.drop (q + 1), ?_, inv.childS q _ (hsufat q hqlen) hv⟩
        intro x hx
        obtain ⟨p, hp⟩ := List.mem_iff_getElem?.1 hx
        have hplen := (List.getElem?_eq_some.1 hp).1
        rw [List.getElem?_drop] at hp
        have : p < sufF.length - (q + 1) := by
          simpa [List.length_drop] using hplen
        refine ⟨q + 1 + p, by omega, by simp only [List.length_cons]; omega,
          by omega, by simpa using hp⟩
    obtain ⟨s₀, hpos, a, ha, b, hb, hav, hbv, hfr⟩ := hkids
    obtain ⟨pa, hpa1, hpa2, hpa3, hpa4⟩ := hpos a ha
    obtain ⟨pb, hpb1, hpb2, hpb3, hpb4⟩ := hpos b hb
    have haeq : nodeAt (root :: sufF) (pa + 1) = a := by
      have := hget (pa + 1) hpa2
      rw [this] at hpa4
      exact Option.some.inj hpa4
    have hbeq : nodeAt (root :: sufF) (pb + 1) = b := by
      have := hget (pb + 1) hpb2
      rw [this] at hpb4
      exact Option.some.inj hpb4
    have hne : pa + 1 ≠ pb + 1 := by
      intro h
      rw [h] at haeq
      rw [haeq] at hbeq
      have hlr := inv.lrdiff _ (by simpa using hmemAt i hi') hv
      rw [← hav, hbeq, hbv] at hlr
      exact hlr rfl
    have hia : i < pa + 1 := by omega
    have hib : i < pb + 1 := by omega
    refine ⟨pa + 1, pb + 1, hia, by rwa [hlen'], hib, by rwa [hlen'], hne,
      ?_, ?_, ?_⟩
    · rw [(hfields _ hpa2).1, (hfields i hi').2.1, haeq, hav]
    · rw [(hfields _ hpb2).1, (hfields i hi').2.2.1, hbeq, hbv]
    · rw [(hfields i hi').2.2.2, (hfields _ hpa2).2.2.2,
        (hfields _ hpb2).2.2.2, haeq, hbeq]
      exact hfr
  -- lrneq
  · intro i hi hv
    have hi' : i < (root :: sufF).length := by rwa [← hlen']
    rw [(hfields i hi').1] at hv
    rw [(hfields i hi').2.1, (hfields i hi').2.2.1]
    exact inv.lrdiff _ (by simpa using hmemAt i hi') hv

/-- The counting node of every occurring byte survives the zero-frequency
filter. -/
theorem count_node_mem_fit (data : List Nat) (c : Nat) (hc : c ∈ data)
    (h256 : ∀ x ∈ data, x < 256) :
    (⟨Int.ofNat c, data.count c, -1, -1, -1⟩ : Node) ∈
      (List.insertionSort freqLE (countNodes data)).dropWhile
        (fun n => n.freq == 0) := by
  have hmem : (⟨Int.ofNat c, data.count c, -1, -1, -1⟩ : Node) ∈ countNodes data := by
    simp only [countNodes, List.mem_map, List.mem_range]
    exact ⟨c, h256 c hc, rfl⟩
  have hsorted : (⟨Int.ofNat c, data.count c, -1, -1, -1⟩ : Node)
      ∈ List.insertionSort freqLE (countNodes data) :=
    (List.perm_insertionSort freqLE (countNodes data)).mem_iff.2 hmem
  set sorted := List.insertionSort freqLE (countNodes data) with hs
  rw [← List.takeWhile_append_dropWhile (fun n => n.freq == 0) sorted,
    List.mem_append] at hsorted
  rcases hsorted with h | h
  · have := List.mem_takeWhile_imp h
    simp only [beq_iff_eq] at this
    have hpos : 0 < data.count c := List.count_pos_iff.2 hc
    omega
  · exact h

/-- The node-list values are distinct for every non-empty input containing a
non-zero byte (the padding node's value `0` can only collide on the all-zero
input). -/
theorem build_node_list_nodup (data : List Nat) (h256 : ∀ x ∈ data, x < 256)
    (h0 : ∃ c ∈ data, c ≠ 0) :
    ((build_node_list data).map Node.value).Nodup := by
  have hcn : ((countNodes data).map Node.value).Nodup := by
    have : (countNodes data).map Node.value
        = (List.range 256).map (fun v => Int.ofNat v) := by
      rw [countNodes, List.map_map]
      apply List.map_congr_left
      intro v _
      rfl
    rw [this]
    exact (List.nodup_range 256).map (fun a b h => by
      simpa using congrArg Int.toNat h)
  have hsn : ((List.insertionSort freqLE (countNodes data)).map Node.value).Nodup := by
    rw [((List.perm_insertionSort freqLE (countNodes data)).map Node.value).nodup_iff]
    exact hcn
  set sorted := List.insertionSort freqLE (countNodes data) with hs
  set fit := sorted.dropWhile (fun n => n.freq == 0) with hf
  have hfn : (fit.map Node.value).Nodup :=
    ((List.dropWhile_sublist _).map Node.value).nodup hsn
  simp only [build_node_list, ← hs, ← hf]
  obtain ⟨c, hcd, hcne⟩ := h0
  have hcmem : (⟨Int.ofNat c, data.count c, -1, -1, -1⟩ : Node) ∈ fit :=
    count_node_mem_fit data c hcd h256
  clear_value sorted fit
  split
  · next hlt =>
    match fit, hlt, hfn, hcmem with
    | [], _, _, hcmem => simp at hcmem
    | [n], _, _, hcmem =>
      have hn : n = ⟨Int.ofNat c, data.count c, -1, -1, -1⟩ := by
        have := hcmem; simp at this; exact this.symm
      subst hn
      simp [defaultNode]
      omega
  · exact hfn

/-- Every node of the working state survives, unchanged, into the final
arena. -/
theorem mergeLoop_mem_mono :
    ∀ (fuel : Nat) (lst suffix : List Node) (npv : Int) (x : Node),
      2 ≤ lst.length → lst.length ≤ fuel → (x ∈ lst ∨ x ∈ suffix) →
      x ∈ (mergeLoop fuel lst suffix npv).1 :: (mergeLoop fuel lst suffix npv).2 := by
  intro fuel
  induction fuel with
  | zero => intro lst suffix npv x h2 hf hx; omega
  | succ fuel ih =>
    intro lst suffix npv x h2 hf hx
    match lst, h2, hf, hx with
    | l0 :: l1 :: rest, h2, hf, hx =>
      rw [mergeLoop]
      by_cases hre : rest.isEmpty
      · rw [if_pos hre]
        have hrest : rest = [] := List.isEmpty_iff.1 hre
        subst hrest
        rcases hx with hx | hx
        · simp only [List.mem_cons] at hx ⊢
          rcases hx with h | h | h
          · exact Or.inr (Or.inr (Or.inl h))
          · exact Or.inr (Or.inl h)
          · simp at h
        · simp only [List.mem_cons] at hx ⊢
          exact Or.inr (Or.inr (Or.inr hx))
      · rw [if_neg hre]
        have hne : rest ≠ [] := by simpa [List.isEmpty_iff] using hre
        have hlen : 1 ≤ rest.length := by
          cases rest with
          | nil => exact absurd rfl hne
          | cons _ _ => simp
        apply ih
        · rw [insertNode_length]; omega
        · rw [insertNode_length]
          simp only [List.length_cons] at hf
          omega
        · rcases hx with hx | hx
          · simp only [List.mem_cons] at hx
            rcases hx with h | h | h
            · exact Or.inr (by simp [h])
            · exact Or.inr (by simp [h])
            · exact Or.inl (mem_insertNode.2 (Or.inr h))
          · exact Or.inr (by simp [hx])

/-- Every occurring byte has a slot in the built arena carrying its value. -/
theorem leaf_present (data : List Nat) (h256 : ∀ x ∈ data, x < 256)
    (c : Nat) (hc : c ∈ data) :
    ∃ i, i < (build_node_tree data).length ∧
      (nodeAt (build_node_tree data) i).value = Int.ofNat c := by
  have hfit : (⟨Int.ofNat c, data.count c, -1, -1, -1⟩ : Node)
      ∈ build_node_list data := by
    simp only [build_node_list]
    split
    · exact List.mem_append.2 (Or.inl (count_node_mem_fit data c hc h256))
    · exact count_node_mem_fit data c hc h256
  have h2 : 2 ≤ (build_node_list data).length := two_le_build_node_list_length data
  have hmem := mergeLoop_mem_mono (build_node_list data).length
    (build_node_list data) [] 0x100 _ h2 (le_refl _) (Or.inl hfit)
  obtain ⟨j, hj⟩ := List.mem_iff_getElem?.1 hmem
  have hjlen := (List.getElem?_eq_some.1 hj).1
  refine ⟨j, ?_, ?_⟩
  · rw [build_node_tree, linkParents_length]
    simpa using hjlen
  · have hval : (nodeAt (build_node_tree data) j).value
        = (nodeAt ((mergeLoop (build_node_list data).length
            (build_node_list data) [] 0x100).1 ::
            (mergeLoop (build_node_list data).length
              (build_node_list data) [] 0x100).2) j).value := by
      rw [build_node_tree, nodeAt_linkParents _ _ hjlen, linkOne_value]
    rw [hval, nodeAt, List.getD_eq_getElem _ _ hjlen,
      (List.getElem?_eq_some.1 hj).2]

/-- **C2.**  Fallback is chosen exactly when
`payload_bytes + 3 × (2L − 1)` is not strictly smaller than the input
length; in that case the object stores the original bytes verbatim,
`size()` returns the input length, the stored bytes (`data()`) are the raw
input, and iterating the decoder passes the stored bytes straight
through. -/
theorem c2_fallback_mode (data : List Nat) :
    (bytes_saved data = 0 ↔
      ¬ ((compressed_size_info data).1 +
          3 * (2 * (build_node_list data).length - 1) < data.length)) ∧
    (bytes_saved data = 0 →
      size data = data.length ∧ storage data = data ∧
      decodeAll data = data.map Int.ofNat) := by
  constructor
  · simp only [bytes_saved, uncompressed_size, compressed_size, tree_count]
    omega
  · intro h0
    have hnc : ¬ (bytes_saved data > 0) := by omega
    have hst : storage data = data := by simp [storage, hnc]
    refine ⟨by simp [size, hnc, uncompressed_size], hst, ?_⟩
    have hC : (objOf data).isCompressed = false := by simp [objOf, h0]
    have hS : (objOf data).stored = data := by simp [objOf, hst]
    have hR : (objOf data).rawLen = data.length := rfl
    have h := decodeOut_fallback data (objOf data) hS hC hR data.length 0 (-1)
      (by omega)
    simpa [decodeAll, beginDecoder] using h

/-! ## The all-zero input: the one node list with a duplicated value

When the input consists only of zero bytes, the node list is the single
counting node for byte `0` padded with one default node, whose `value` field
is also `0`.  The tree built from it is computed here directly. -/

theorem orderedInsert_zeros (x : Node) (hx : x.freq ≠ 0) :
    ∀ zs : List Node, (∀ z ∈ zs, z.freq = 0) →
      zs.orderedInsert freqLE x = zs ++ [x] := by
  intro zs
  induction zs with
  | nil => intro _; rfl
  | cons z zs ih =>
    intro hz
    have hzf : z.freq = 0 := hz z (by simp)
    have : ¬ freqLE x z := by simp [freqLE, hzf]; omega
    rw [List.orderedInsert, if_neg this, ih fun w hw => hz w (by simp [hw])]
    rfl

theorem insertionSort_all_zero (zs : List Node)
    (hz : ∀ z ∈ zs, z.freq = 0) :
    List.insertionSort freqLE zs = zs := by
  apply List.Sorted.insertionSort_eq
  induction zs with
  | nil => simp
  | cons z zs ih =>
    rw [List.sorted_cons]
    exact ⟨fun y hy => by simp [freqLE, hz z (by simp), hz y (by simp [hy])],
      ih fun w hw => hz w (by simp [hw])⟩

theorem dropWhile_zeros (zs l : List Node)
    (hz : ∀ z ∈ zs, z.freq = 0) :
    (zs ++ l).dropWhile (fun n => n.freq == 0) =
      l.dropWhile (fun n => n.freq == 0) := by
  induction zs with
  | nil => rfl
  | cons z zs ih =>
    rw [List.cons_append, List.dropWhile_cons]
    simp only [hz z (by simp), beq_self_eq_true, if_true]
    exact ih fun w hw => hz w (by simp [hw])

theorem build_node_list_all_zero (data : List Nat) (hne : data ≠ [])
    (hz : ∀ c ∈ data, c = 0) :
    build_node_list data = [⟨0, data.length, -1, -1, -1⟩, defaultNode] := by
  have hcount0 : data.count 0 = data.length :=
    List.count_eq_length.2 fun b hb => (hz b hb).symm
  have hcountv : ∀ v : Nat, data.count (v + 1) = 0 := fun v =>
    List.count_eq_zero.2 fun hmem => Nat.succ_ne_zero v (hz _ hmem)
  have hcn : countNodes data =
      (⟨0, data.length, -1, -1, -1⟩ : Node) ::
        (List.range 255).map (fun v => (⟨Int.ofNat (v + 1), 0, -1, -1, -1⟩ : Node)) := by
    rw [countNodes, List.range_succ_eq_map, List.map_cons, List.map_map]
    refine congrArg₂ _ (by simp [hcount0]) ?_
    apply List.map_congr_left
    intro v _
    simp [Function.comp, hcountv v]
  have hzeros : ∀ z ∈ (List.range 255).map
      (fun v => (⟨Int.ofNat (v + 1), 0, -1, -1, -1⟩ : Node)), z.freq = 0 := by
    intro z hzm
    obtain ⟨v, _, rfl⟩ := List.mem_map.1 hzm
    rfl
  have hlen0 : data.length ≠ 0 := fun h => hne (List.length_eq_zero.1 h)
  have hsort : List.insertionSort freqLE (countNodes data) =
      (List.range 255).map (fun v => (⟨Int.ofNat (v + 1), 0, -1, -1, -1⟩ : Node))
        ++ [⟨0, data.length, -1, -1, -1⟩] := by
    rw [hcn, List.insertionSort]
    rw [insertionSort_all_zero _ hzeros]
    exact orderedInsert_zeros _ hlen0 _ hzeros
  have hdrop : (List.insertionSort freqLE (countNodes data)).dropWhile
      (fun n => n.freq == 0) = [⟨0, data.length, -1, -1, -1⟩] := by
    rw [hsort, dropWhile_zeros _ _ hzeros, List.dropWhile_cons]
    simp only [List.dropWhile_nil]
    have : ((⟨0, data.length, -1, -1, -1⟩ : Node).freq == 0) = false := by
      simp [hlen0]
    simp [this]
  simp only [build_node_list, hdrop]
  rfl

theorem build_node_tree_all_zero (data : List Nat) (hne : data ≠ [])
    (hz : ∀ c ∈ data, c = 0) :
    build_node_tree data =
      [⟨256, data.length, -1, 0, 0⟩, ⟨0, 0, 0, -1, -1⟩,
       ⟨0, data.length, 0, -1, -1⟩] := by
  simp only [build_node_tree, build_node_list_all_zero data hne hz]
  rfl

/-! ## Claim C4: the tree shape invariant -/

/-- **C4.**  For every non-empty input (of bytes, `< 256`) with `L` node-list
entries (`L` floored to 2 by the zero-frequency placeholder), the built arena
has exactly `2L − 1` nodes; the root sits at index 0 (its `parent` is the
`-1` sentinel) and its frequency is the input length; and every internal
node (value `≥ 0x100`) has two children at distinct indices whose
frequencies sum to its own. -/
theorem c4_tree_shape (data : List Nat) (hne : data ≠ [])
    (h256 : ∀ c ∈ data, c < 256) :
    (build_node_tree data).length = 2 * (build_node_list data).length - 1 ∧
    2 ≤ (build_node_list data).length ∧
    (nodeAt (build_node_tree data) 0).parent = -1 ∧
    (nodeAt (build_node_tree data) 0).freq = data.length ∧
    (∀ i, i < (build_node_tree data).length →
      256 ≤ (nodeAt (build_node_tree data) i).value →
      ∃ jl jr, i < jl ∧ jl < (build_node_tree data).length ∧ i < jr ∧
        jr < (build_node_tree data).length ∧ jl ≠ jr ∧
        (nodeAt (build_node_tree data) jl).value =
          (nodeAt (build_node_tree data) i).left ∧
        (nodeAt (build_node_tree data) jr).value =
          (nodeAt (build_node_tree data) i).right ∧
        (nodeAt (build_node_tree data) i).freq =
          (nodeAt (build_node_tree data) jl).freq +
            (nodeAt (build_node_tree data) jr).freq) := by
  refine ⟨?_, two_le_build_node_list_length data, ?_⟩
  · by_cases h0 : ∃ c ∈ data, c ≠ 0
    · exact (tree_wf data h256 (build_node_list_nodup data h256 h0)).len
    · push_neg at h0
      rw [build_node_tree_all_zero data hne h0,
        build_node_list_all_zero data hne h0]
      rfl
  · by_cases h0 : ∃ c ∈ data, c ≠ 0
    · have W := tree_wf data h256 (build_node_list_nodup data h256 h0)
      exact ⟨W.rootPar, W.rootFreq, fun i hi hv => W.childLink i hi hv⟩
    · push_neg at h0
      rw [build_node_tree_all_zero data hne h0]
      refine ⟨rfl, rfl, ?_⟩
      intro i hi hv
      simp only [List.length_cons, List.length_nil] at hi
      interval_cases i
      · exact ⟨1, 2, by norm_num, by norm_num, by norm_num, by norm_num,
          by norm_num, rfl, rfl, by simp [nodeAt]⟩
      · simp [nodeAt] at hv
      · simp [nodeAt] at hv


/-- Witness for C4 at the concrete input `[97, 97, 98]`. -/
theorem c4_tree_shape_witness :
    (([97, 97, 98] : List Nat) ≠ [] ∧ ∀ c ∈ ([97, 97, 98] : List Nat), c < 256) ∧
    ((build_node_tree [97, 97, 98]).length =
        2 * (build_node_list [97, 97, 98]).length - 1 ∧
      2 ≤ (build_node_list [97, 97, 98]).length ∧
      (nodeAt (build_node_tree [97, 97, 98]) 0).parent = -1 ∧
      (nodeAt (build_node_tree [97, 97, 98]) 0).freq =
        ([97, 97, 98] : List Nat).length ∧
      (∀ i, i < (build_node_tree [97, 97, 98]).length →
        256 ≤ (nodeAt (build_node_tree [97, 97, 98]) i).value →
        ∃ jl jr, i < jl ∧ jl < (build_node_tree [97, 97, 98]).length ∧ i < jr ∧
          jr < (build_node_tree [97, 97, 98]).length ∧ jl ≠ jr ∧
          (nodeAt (build_node_tree [97, 97, 98]) jl).value =
            (nodeAt (build_node_tree [97, 97, 98]) i).left ∧
          (nodeAt (build_node_tree [97, 97, 98]) jr).value =
            (nodeAt (build_node_tree [97, 97, 98]) i).right ∧
          (nodeAt (build_node_tree [97, 97, 98]) i).freq =
            (nodeAt (build_node_tree [97, 97, 98]) jl).freq +
              (nodeAt (build_node_tree [97, 97, 98]) jr).freq)) :=
  ⟨⟨by decide, by decide⟩, c4_tree_shape [97, 97, 98] (by decide) (by decide)⟩


/-! ## Concrete evaluation of the pipeline on `bigB`

Direct kernel evaluation of the whole pipeline on a 1387-byte input is out
of reach, so the computation is staged: the 256-entry counting array is
obtained in closed form, the insertion sort is split into eight 32-element
chunks folded over literal intermediate states, and the merge loop, linking
pass and decode table are then evaluated against the literal node list. -/


def bigB : List Nat := List.range 172 ++ List.replicate 1215 200

theorem countNodes_bigB : countNodes bigB =
    (List.range 256).map fun v =>
      ⟨Int.ofNat v, if v < 172 then 1 else if v = 200 then 1215 else 0, -1, -1, -1⟩ := by
  rw [countNodes]
  apply List.map_congr_left
  intro v hv
  have hcnt : bigB.count v = if v < 172 then 1 else if v = 200 then 1215 else 0 := by
    rw [bigB, List.count_append, List.count_replicate]
    by_cases h1 : v < 172
    · have : (List.range 172).count v = 1 :=
        List.count_eq_one_of_mem (List.nodup_range 172) (List.mem_range.2 h1)
      rw [this]
      have : ¬ (v == 200) := by
        simp; omega
      simp [h1, this]
      omega
    · have : (List.range 172).count v = 0 :=
        List.count_eq_zero.2 (fun hm => h1 (List.mem_range.1 hm))
      rw [this]
      by_cases h2 : v = 200 <;> simp [h1, h2]
      omega
  rw [hcnt]

def sortS1 : List Node :=
  [Node.mk 224 0 (-1) (-1) (-1), Node.mk 225 0 (-1) (-1) (-1), Node.mk 226 0 (-1) (-1) (-1), 
   Node.mk 227 0 (-1) (-1) (-1), Node.mk 228 0 (-1) (-1) (-1), Node.mk 229 0 (-1) (-1) (-1), 
   Node.mk 230 0 (-1) (-1) (-1), Node.mk 231 0 (-1) (-1) (-1), Node.mk 232 0 (-1) (-1) (-1), 
   Node.mk 233 0 (-1) (-1) (-1), Node.mk 234 0 (-1) (-1) (-1), Node.mk 235 0 (-1) (-1) (-1), 
   Node.mk 236 0 (-1) (-1) (-1), Node.mk 237 0 (-1) (-1) (-1), Node.mk 238 0 (-1) (-1) (-1), 
   Node.mk 239 0 (-1) (-1) (-1), Node.mk 240 0 (-1) (-1) (-1), Node.mk 241 0 (-1) (-1) (-1), 
   Node.mk 242 0 (-1) (-1) (-1), Node.mk 243 0 (-1) (-1) (-1), Node.mk 244 0 (-1) (-1) (-1), 
   Node.mk 245 0 (-1) (-1) (-1), Node.mk 246 0 (-1) (-1) (-1), Node.mk 247 0 (-1) (-1) (-1), 
   Node.mk 248 0 (-1) (-1) (-1), Node.mk 249 0 (-1) (-1) (-1), Node.mk 250 0 (-1) (-1) (-1), 
   Node.mk 251 0 (-1) (-1) (-1), Node.mk 252 0 (-1) (-1) (-1), Node.mk 253 0 (-1) (-1) (-1), 
   Node.mk 254 0 (-1) (-1) (-1), Node.mk 255 0 (-1) (-1) (-1)]

def sortS2 : List Node :=
  [Node.mk 192 0 (-1) (-1) (-1), Node.mk 193 0 (-1) (-1) (-1), Node.mk 194 0 (-1) (-1) (-1), 
   Node.mk 195 0 (-1) (-1) (-1), Node.mk 196 0 (-1) (-1) (-1), Node.mk 197 0 (-1) (-1) (-1), 
   Node.mk 198 0 (-1) (-1) (-1), Node.mk 199 0 (-1) (-1) (-1), Node.mk 201 0 (-1) (-1) (-1), 
   Node.mk 202 0 (-1) (-1) (-1), Node.mk 203 0 (-1) (-1) (-1), Node.mk 204 0 (-1) (-1) (-1), 
   Node.mk 205 0 (-1) (-1) (-1), Node.mk 206 0 (-1) (-1) (-1), Node.mk 207 0 (-1) (-1) (-1), 
   Node.mk 208 0 (-1) (-1) (-1), Node.mk 209 0 (-1) (-1) (-1), Node.mk 210 0 (-1) (-1) (-1), 
   Node.mk 211 0 (-1) (-1) (-1), Node.mk 212 0 (-1) (-1) (-1), Node.mk 213 0 (-1) (-1) (-1), 
   Node.mk 214 0 (-1) (-1) (-1), Node.mk 215 0 (-1) (-1) (-1), Node.mk 216 0 (-1) (-1) (-1), 
   Node.mk 217 0 (-1) (-1) (-1), Node.mk 218 0 (-1) (-1) (-1), Node.mk 219 0 (-1) (-1) (-1), 
   Node.mk 220 0 (-1) (-1) (-1), Node.mk 221 0 (-1) (-1) (-1), Node.mk 222 0 (-1) (-1) (-1), 
   Node.mk 223 0 (-1) (-1) (-1), Node.mk 224 0 (-1) (-1) (-1), Node.mk 225 0 (-1) (-1) (-1), 
   Node.mk 226 0 (-1) (-1) (-1), Node.mk 227 0 (-1) (-1) (-1), Node.mk 228 0 (-1) (-1) (-1), 
   Node.mk 229 0 (-1) (-1) (-1), Node.mk 230 0 (-1) (-1) (-1), Node.mk 231 0 (-1) (-1) (-1), 
   Node.mk 232 0 (-1) (-1) (-1), Node.mk 233 0 (-1) (-1) (-1), Node.mk 234 0 (-1) (-1) (-1), 
   Node.mk 235 0 (-1) (-1) (-1), Node.mk 236 0 (-1) (-1) (-1), Node.mk 237 0 (-1) (-1) (-1), 
   Node.mk 238 0 (-1) (-1) (-1), Node.mk 239 0 (-1) (-1) (-1), Node.mk 240 0 (-1) (-1) (-1), 
   Node.mk 241 0 (-1) (-1) (-1), Node.mk 242 0 (-1) (-1) (-1), Node.mk 243 0 (-1) (-1) (-1), 
   Node.mk 244 0 (-1) (-1) (-1), Node.mk 245 0 (-1) (-1) (-1), Node.mk 246 0 (-1) (-1) (-1), 
   Node.mk 247 0 (-1) (-1) (-1), Node.mk 248 0 (-1) (-1) (-1), Node.mk 249 0 (-1) (-1) (-1), 
   Node.mk 250 0 (-1) (-1) (-1), Node.mk 251 0 (-1) (-1) (-1), Node.mk 252 0 (-1) (-1) (-1), 
   Node.mk 253 0 (-1) (-1) (-1), Node.mk 254 0 (-1) (-1) (-1), Node.mk 255 0 (-1) (-1) (-1), 
   Node.mk 200 1215 (-1) (-1) (-1)]

def sortS3 : List Node :=
  [Node.mk 172 0 (-1) (-1) (-1), Node.mk 173 0 (-1) (-1) (-1), Node.mk 174 0 (-1) (-1) (-1), 
   Node.mk 175 0 (-1) (-1) (-1), Node.mk 176 0 (-1) (-1) (-1), Node.mk 177 0 (-1) (-1) (-1), 
   Node.mk 178 0 (-1) (-1) (-1), Node.mk 179 0 (-1) (-1) (-1), Node.mk 180 0 (-1) (-1) (-1), 
   Node.mk 181 0 (-1) (-1) (-1), Node.mk 182 0 (-1) (-1) (-1), Node.mk 183 0 (-1) (-1) (-1), 
   Node.mk 184 0 (-1) (-1) (-1), Node.mk 185 0 (-1) (-1) (-1), Node.mk 186 0 (-1) (-1) (-1), 
   Node.mk 187 0 (-1) (-1) (-1), Node.mk 188 0 (-1) (-1) (-1), Node.mk 189 0 (-1) (-1) (-1), 
   Node.mk 190 0 (-1) (-1) (-1), Node.mk 191 0 (-1) (-1) (-1), Node.mk 192 0 (-1) (-1) (-1), 
   Node.mk 193 0 (-1) (-1) (-1), Node.mk 194 0 (-1) (-1) (-1), Node.mk 195 0 (-1) (-1) (-1), 
   Node.mk 196 0 (-1) (-1) (-1), Node.mk 197 0 (-1) (-1) (-1), Node.mk 198 0 (-1) (-1) (-1), 
   Node.mk 199 0 (-1) (-1) (-1), Node.mk 201 0 (-1) (-1) (-1), Node.mk 202 0 (-1) (-1) (-1), 
   Node.mk 203 0 (-1) (-1) (-1), Node.mk 204 0 (-1) (-1) (-1), Node.mk 205 0 (-1) (-1) (-1), 
   Node.mk 206 0 (-1) (-1) (-1), Node.mk 207 0 (-1) (-1) (-1), Node.mk 208 0 (-1) (-1) (-1), 
   Node.mk 209 0 (-1) (-1) (-1), Node.mk 210 0 (-1) (-1) (-1), Node.mk 211 0 (-1) (-1) (-1), 
   Node.mk 212 0 (-1) (-1) (-1), Node.mk 213 0 (-1) (-1) (-1), Node.mk 214 0 (-1) (-1) (-1), 
   Node.mk 215 0 (-1) (-1) (-1), Node.mk 216 0 (-1) (-1) (-1), Node.mk 217 0 (-1) (-1) (-1), 
   Node.mk 218 0 (-1) (-1) (-1), Node.mk 219 0 (-1) (-1) (-1), Node.mk 220 0 (-1) (-1) (-1), 
   Node.mk 221 0 (-1) (-1) (-1), Node.mk 222 0 (-1) (-1) (-1), Node.mk 223 0 (-1) (-1) (-1), 
   Node.mk 224 0 (-1) (-1) (-1), Node.mk 225 0 (-1) (-1) (-1), Node.mk 226 0 (-1) (-1) (-1), 
   Node.mk 227 0 (-1) (-1) (-1), Node.mk 228 0 (-1) (-1) (-1), Node.mk 229 0 (-1) (-1) (-1), 
   Node.mk 230 0 (-1) (-1) (-1), Node.mk 231 0 (-1) (-1) (-1), Node.mk 232 0 (-1) (-1) (-1), 
   Node.mk 233 0 (-1) (-1) (-1), Node.mk 234 0 (-1) (-1) (-1), Node.mk 235 0 (-1) (-1) (-1), 
   Node.mk 236 0 (-1) (-1) (-1), Node.mk 237 0 (-1) (-1) (-1), Node.mk 238 0 (-1) (-1) (-1), 
   Node.mk 239 0 (-1) (-1) (-1), Node.mk 240 0 (-1) (-1) (-1), Node.mk 241 0 (-1) (-1) (-1), 
   Node.mk 242 0 (-1) (-1) (-1), Node.mk 243 0 (-1) (-1) (-1), Node.mk 244 0 (-1) (-1) (-1), 
   Node.mk 245 0 (-1) (-1) (-1), Node.mk 246 0 (-1) (-1) (-1), Node.mk 247 0 (-1) (-1) (-1), 
   Node.mk 248 0 (-1) (-1) (-1), Node.mk 249 0 (-1) (-1) (-1), Node.mk 250 0 (-1) (-1) (-1), 
   Node.mk 251 0 (-1) (-1) (-1), Node.mk 252 0 (-1) (-1) (-1), Node.mk 253 0 (-1) (-1) (-1), 
   Node.mk 254 0 (-1) (-1) (-1), Node.mk 255 0 (-1) (-1) (-1), Node.mk 160 1 (-1) (-1) (-1), 
   Node.mk 161 1 (-1) (-1) (-1), Node.mk 162 1 (-1) (-1) (-1), Node.mk 163 1 (-1) (-1) (-1), 
   Node.mk 164 1 (-1) (-1) (-1), Node.mk 165 1 (-1) (-1) (-1), Node.mk 166 1 (-1) (-1) (-1), 
   Node.mk 167 1 (-1) (-1) (-1), Node.mk 168 1 (-1) (-1) (-1), Node.mk 169 1 (-1) (-1) (-1), 
   Node.mk 170 1 (-1) (-1) (-1), Node.mk 171 1 (-1) (-1) (-1), Node.mk 200 1215 (-1) (-1) (-1)]

def sortS4 : List Node :=
  [Node.mk 172 0 (-1) (-1) (-1), Node.mk 173 0 (-1) (-1) (-1), Node.mk 174 0 (-1) (-1) (-1), 
   Node.mk 175 0 (-1) (-1) (-1), Node.mk 176 0 (-1) (-1) (-1), Node.mk 177 0 (-1) (-1) (-1), 
   Node.mk 178 0 (-1) (-1) (-1), Node.mk 179 0 (-1) (-1) (-1), Node.mk 180 0 (-1) (-1) (-1), 
   Node.mk 181 0 (-1) (-1) (-1), Node.mk 182 0 (-1) (-1) (-1), Node.mk 183 0 (-1) (-1) (-1), 
   Node.mk 184 0 (-1) (-1) (-1), Node.mk 185 0 (-1) (-1) (-1), Node.mk 186 0 (-1) (-1) (-1), 
   Node.mk 187 0 (-1) (-1) (-1), Node.mk 188 0 (-1) (-1) (-1), Node.mk 189 0 (-1) (-1) (-1), 
   Node.mk 190 0 (-1) (-1) (-1), Node.mk 191 0 (-1) (-1) (-1), Node.mk 192 0 (-1) (-1) (-1), 
   Node.mk 193 0 (-1) (-1) (-1), Node.mk 194 0 (-1) (-1) (-1), Node.mk 195 0 (-1) (-1) (-1), 
   Node.mk 196 0 (-1) (-1) (-1), Node.mk 197 0 (-1) (-1) (-1), Node.mk 198 0 (-1) (-1) (-1), 
   Node.mk 199 0 (-1) (-1) (-1), Node.mk 201 0 (-1) (-1) (-1), Node.mk 202 0 (-1) (-1) (-1), 
   Node.mk 203 0 (-1) (-1) (-1), Node.mk 204 0 (-1) (-1) (-1), Node.mk 205 0 (-1) (-1) (-1), 
   Node.mk 206 0 (-1) (-1) (-1), Node.mk 207 0 (-1) (-1) (-1), Node.mk 208 0 (-1) (-1) (-1), 
   Node.mk 209 0 (-1) (-1) (-1), Node.mk 210 0 (-1) (-1) (-1), Node.mk 211 0 (-1) (-1) (-1), 
   Node.mk 212 0 (-1) (-1) (-1), Node.mk 213 0 (-1) (-1) (-1), Node.mk 214 0 (-1) (-1) (-1), 
   Node.mk 215 0 (-1) (-1) (-1), Node.mk 216 0 (-1) (-1) (-1), Node.mk 217 0 (-1) (-1) (-1), 
   Node.mk 218 0 (-1) (-1) (-1), Node.mk 219 0 (-1) (-1) (-1), Node.mk 220 0 (-1) (-1) (-1), 
   Node.mk 221 0 (-1) (-1) (-1), Node.mk 222 0 (-1) (-1) (-1), Node.mk 223 0 (-1) (-1) (-1), 
   Node.mk 224 0 (-1) (-1) (-1), Node.mk 225 0 (-1) (-1) (-1), Node.mk 226 0 (-1) (-1) (-1), 
   Node.mk 227 0 (-1) (-1) (-1), Node.mk 228 0 (-1) (-1) (-1), Node.mk 229 0 (-1) (-1) (-1), 
   Node.mk 230 0 (-1) (-1) (-1), Node.mk 231 0 (-1) (-1) (-1), Node.mk 232 0 (-1) (-1) (-1), 
   Node.mk 233 0 (-1) (-1) (-1), Node.mk 234 0 (-1) (-1) (-1), Node.mk 235 0 (-1) (-1) (-1), 
   Node.mk 236 0 (-1) (-1) (-1), Node.mk 237 0 (-1) (-1) (-1), Node.mk 238 0 (-1) (-1) (-1), 
   Node.mk 239 0 (-1) (-1) (-1), Node.mk 240 0 (-1) (-1) (-1), Node.mk 241 0 (-1) (-1) (-1), 
   Node.mk 242 0 (-1) (-1) (-1), Node.mk 243 0 (-1) (-1) (-1), Node.mk 244 0 (-1) (-1) (-1), 
   Node.mk 245 0 (-1) (-1) (-1), Node.mk 246 0 (-1) (-1) (-1), Node.mk 247 0 (-1) (-1) (-1), 
   Node.mk 248 0 (-1) (-1) (-1), Node.mk 249 0 (-1) (-1) (-1), Node.mk 250 0 (-1) (-1) (-1), 
   Node.mk 251 0 (-1) (-1) (-1), Node.mk 252 0 (-1) (-1) (-1), Node.mk 253 0 (-1) (-1) (-1), 
   Node.mk 254 0 (-1) (-1) (-1), Node.mk 255 0 (-1) (-1) (-1), Node.mk 128 1 (-1) (-1) (-1), 
   Node.mk 129 1 (-1) (-1) (-1), Node.mk 130 1 (-1) (-1) (-1), Node.mk 131 1 (-1) (-1) (-1), 
   Node.mk 132 1 (-1) (-1) (-1), Node.mk 133 1 (-1) (-1) (-1), Node.mk 134 1 (-1) (-1) (-1), 
   Node.mk 135 1 (-1) (-1) (-1), Node.mk 136 1 (-1) (-1) (-1), Node.mk 137 1 (-1) (-1) (-1), 
   Node.mk 138 1 (-1) (-1) (-1), Node.mk 139 1 (-1) (-1) (-1), Node.mk 140 1 (-1) (-1) (-1), 
   Node.mk 141 1 (-1) (-1) (-1), Node.mk 142 1 (-1) (-1) (-1), Node.mk 143 1 (-1) (-1) (-1), 
   Node.mk 144 1 (-1) (-1) (-1), Node.mk 145 1 (-1) (-1) (-1), Node.mk 146 1 (-1) (-1) (-1), 
   Node.mk 147 1 (-1) (-1) (-1), Node.mk 148 1 (-1) (-1) (-1), Node.mk 149 1 (-1) (-1) (-1), 
   Node.mk 150 1 (-1) (-1) (-1), Node.mk 151 1 (-1) (-1) (-1), Node.mk 152 1 (-1) (-1) (-1), 
   Node.mk 153 1 (-1) (-1) (-1), Node.mk 154 1 (-1) (-1) (-1), Node.mk 155 1 (-1) (-1) (-1), 
   Node.mk 156 1 (-1) (-1) (-1), Node.mk 157 1 (-1) (-1) (-1), Node.mk 158 1 (-1) (-1) (-1), 
   Node.mk 159 1 (-1) (-1) (-1), Node.mk 160 1 (-1) (-1) (-1), Node.mk 161 1 (-1) (-1) (-1), 
   Node.mk 162 1 (-1) (-1) (-1), Node.mk 163 1 (-1) (-1) (-1), Node.mk 164 1 (-1) (-1) (-1), 
   Node.mk 165 1 (-1) (-1) (-1), Node.mk 166 1 (-1) (-1) (-1), Node.mk 167 1 (-1) (-1) (-1), 
   Node.mk 168 1 (-1) (-1) (-1), Node.mk 169 1 (-1) (-1) (-1), Node.mk 170 1 (-1) (-1) (-1), 
   Node.mk 171 1 (-1) (-1) (-1), Node.mk 200 1215 (-1) (-1) (-1)]

def sortS5 : List Node :=
  [Node.mk 172 0 (-1) (-1) (-1), Node.mk 173 0 (-1) (-1) (-1), Node.mk 174 0 (-1) (-1) (-1), 
   Node.mk 175 0 (-1) (-1) (-1), Node.mk 176 0 (-1) (-1) (-1), Node.mk 177 0 (-1) (-1) (-1), 
   Node.mk 178 0 (-1) (-1) (-1), Node.mk 179 0 (-1) (-1) (-1), Node.mk 180 0 (-1) (-1) (-1), 
   Node.mk 181 0 (-1) (-1) (-1), Node.mk 182 0 (-1) (-1) (-1), Node.mk 183 0 (-1) (-1) (-1), 
   Node.mk 184 0 (-1) (-1) (-1), Node.mk 185 0 (-1) (-1) (-1), Node.mk 186 0 (-1) (-1) (-1), 
   Node.mk 187 0 (-1) (-1) (-1), Node.mk 188 0 (-1) (-1) (-1), Node.mk 189 0 (-1) (-1) (-1), 
   Node.mk 190 0 (-1) (-1) (-1), Node.mk 191 0 (-1) (-1) (-1), Node.mk 192 0 (-1) (-1) (-1), 
   Node.mk 193 0 (-1) (-1) (-1), Node.mk 194 0 (-1) (-1) (-1), Node.mk 195 0 (-1) (-1) (-1), 
   Node.mk 196 0 (-1) (-1) (-1), Node.mk 197 0 (-1) (-1) (-1), Node.mk 198 0 (-1) (-1) (-1), 
   Node.mk 199 0 (-1) (-1) (-1), Node.mk 201 0 (-1) (-1) (-1), Node.mk 202 0 (-1) (-1) (-1), 
   Node.mk 203 0 (-1) (-1) (-1), Node.mk 204 0 (-1) (-1) (-1), Node.mk 205 0 (-1) (-1) (-1), 
   Node.mk 206 0 (-1) (-1) (-1), Node.mk 207 0 (-1) (-1) (-1), Node.mk 208 0 (-1) (-1) (-1), 
   Node.mk 209 0 (-1) (-1) (-1), Node.mk 210 0 (-1) (-1) (-1), Node.mk 211 0 (-1) (-1) (-1), 
   Node.mk 212 0 (-1) (-1) (-1), Node.mk 213 0 (-1) (-1) (-1), Node.mk 214 0 (-1) (-1) (-1), 
   Node.mk 215 0 (-1) (-1) (-1), Node.mk 216 0 (-1) (-1) (-1), Node.mk 217 0 (-1) (-1) (-1), 
   Node.mk 218 0 (-1) (-1) (-1), Node.mk 219 0 (-1) (-1) (-1), Node.mk 220 0 (-1) (-1) (-1), 
   Node.mk 221 0 (-1) (-1) (-1), Node.mk 222 0 (-1) (-1) (-1), Node.mk 223 0 (-1) (-1) (-1), 
   Node.mk 224 0 (-1) (-1) (-1), Node.mk 225 0 (-1) (-1) (-1), Node.mk 226 0 (-1) (-1) (-1), 
   Node.mk 227 0 (-1) (-1) (-1), Node.mk 228 0 (-1) (-1) (-1), Node.mk 229 0 (-1) (-1) (-1), 
   Node.mk 230 0 (-1) (-1) (-1), Node.mk 231 0 (-1) (-1) (-1), Node.mk 232 0 (-1) (-1) (-1), 
   Node.mk 233 0 (-1) (-1) (-1), Node.mk 234 0 (-1) (-1) (-1), Node.mk 235 0 (-1) (-1) (-1), 
   Node.mk 236 0 (-1) (-1) (-1), Node.mk 237 0 (-1) (-1) (-1), Node.mk 238 0 (-1) (-1) (-1), 
   Node.mk 239 0 (-1) (-1) (-1), Node.mk 240 0 (-1) (-1) (-1), Node.mk 241 0 (-1) (-1) (-1), 
   Node.mk 242 0 (-1) (-1) (-1), Node.mk 243 0 (-1) (-1) (-1), Node.mk 244 0 (-1) (-1) (-1), 
   Node.mk 245 0 (-1) (-1) (-1), Node.mk 246 0 (-1) (-1) (-1), Node.mk 247 0 (-1) (-1) (-1), 
   Node.mk 248 0 (-1) (-1) (-1), Node.mk 249 0 (-1) (-1) (-1), Node.mk 250 0 (-1) (-1) (-1), 
   Node.mk 251 0 (-1) (-1) (-1), Node.mk 252 0 (-1) (-1) (-1), Node.mk 253 0 (-1) (-1) (-1), 
   Node.mk 254 0 (-1) (-1) (-1), Node.mk 255 0 (-1) (-1) (-1), Node.mk 96 1 (-1) (-1) (-1), 
   Node.mk 97 1 (-1) (-1) (-1), Node.mk 98 1 (-1) (-1) (-1), Node.mk 99 1 (-1) (-1) (-1), 
   Node.mk 100 1 (-1) (-1) (-1), Node.mk 101 1 (-1) (-1) (-1), Node.mk 102 1 (-1) (-1) (-1), 
   Node.mk 103 1 (-1) (-1) (-1), Node.mk 104 1 (-1) (-1) (-1), Node.mk 105 1 (-1) (-1) (-1), 
   Node.mk 106 1 (-1) (-1) (-1), Node.mk 107 1 (-1) (-1) (-1), Node.mk 108 1 (-1) (-1) (-1), 
   Node.mk 109 1 (-1) (-1) (-1), Node.mk 110 1 (-1) (-1) (-1), Node.mk 111 1 (-1) (-1) (-1), 
   Node.mk 112 1 (-1) (-1) (-1), Node.mk 113 1 (-1) (-1) (-1), Node.mk 114 1 (-1) (-1) (-1), 
   Node.mk 115 1 (-1) (-1) (-1), Node.mk 116 1 (-1) (-1) (-1), Node.mk 117 1 (-1) (-1) (-1), 
   Node.mk 118 1 (-1) (-1) (-1), Node.mk 119 1 (-1) (-1) (-1), Node.mk 120 1 (-1) (-1) (-1), 
   Node.mk 121 1 (-1) (-1) (-1), Node.mk 122 1 (-1) (-1) (-1), Node.mk 123 1 (-1) (-1) (-1), 
   Node.mk 124 1 (-1) (-1) (-1), Node.mk 125 1 (-1) (-1) (-1), Node.mk 126 1 (-1) (-1) (-1), 
   Node.mk 127 1 (-1) (-1) (-1), Node.mk 128 1 (-1) (-1) (-1), Node.mk 129 1 (-1) (-1) (-1), 
   Node.mk 130 1 (-1) (-1) (-1), Node.mk 131 1 (-1) (-1) (-1), Node.mk 132 1 (-1) (-1) (-1), 
   Node.mk 133 1 (-1) (-1) (-1), Node.mk 134 1 (-1) (-1) (-1), Node.mk 135 1 (-1) (-1) (-1), 
   Node.mk 136 1 (-1) (-1) (-1), Node.mk 137 1 (-1) (-1) (-1), Node.mk 138 1 (-1) (-1) (-1), 
   Node.mk 139 1 (-1) (-1) (-1), Node.mk 140 1 (-1) (-1) (-1), Node.mk 141 1 (-1) (-1) (-1), 
   Node.mk 142 1 (-1) (-1) (-1), Node.mk 143 1 (-1) (-1) (-1), Node.mk 144 1 (-1) (-1) (-1), 
   Node.mk 145 1 (-1) (-1) (-1), Node.mk 146 1 (-1) (-1) (-1), Node.mk 147 1 (-1) (-1) (-1), 
   Node.mk 148 1 (-1) (-1) (-1), Node.mk 149 1 (-1) (-1) (-1), Node.mk 150 1 (-1) (-1) (-1), 
   Node.mk 151 1 (-1) (-1) (-1), Node.mk 152 1 (-1) (-1) (-1), Node.mk 153 1 (-1) (-1) (-1), 
   Node.mk 154 1 (-1) (-1) (-1), Node.mk 155 1 (-1) (-1) (-1), Node.mk 156 1 (-1) (-1) (-1), 
   Node.mk 157 1 (-1) (-1) (-1), Node.mk 158 1 (-1) (-1) (-1), Node.mk 159 1 (-1) (-1) (-1), 
   Node.mk 160 1 (-1) (-1) (-1), Node.mk 161 1 (-1) (-1) (-1), Node.mk 162 1 (-1) (-1) (-1), 
   Node.mk 163 1 (-1) (-1) (-1), Node.mk 164 1 (-1) (-1) (-1), Node.mk 165 1 (-1) (-1) (-1), 
   Node.mk 166 1 (-1) (-1) (-1), Node.mk 167 1 (-1) (-1) (-1), Node.mk 168 1 (-1) (-1) (-1), 
   Node.mk 169 1 (-1) (-1) (-1), Node.mk 170 1 (-1) (-1) (-1), Node.mk 171 1 (-1) (-1) (-1), 
   Node.mk 200 1215 (-1) (-1) (-1)]

def sortS6 : List Node :=
  [Node.mk 172 0 (-1) (-1) (-1), Node.mk 173 0 (-1) (-1) (-1), Node.mk 174 0 (-1) (-1) (-1), 
   Node.mk 175 0 (-1) (-1) (-1), Node.mk 176 0 (-1) (-1) (-1), Node.mk 177 0 (-1) (-1) (-1), 
   Node.mk 178 0 (-1) (-1) (-1), Node.mk 179 0 (-1) (-1) (-1), Node.mk 180 0 (-1) (-1) (-1), 
   Node.mk 181 0 (-1) (-1) (-1), Node.mk 182 0 (-1) (-1) (-1), Node.mk 183 0 (-1) (-1) (-1), 
   Node.mk 184 0 (-1) (-1) (-1), Node.mk 185 0 (-1) (-1) (-1), Node.mk 186 0 (-1) (-1) (-1), 
   Node.mk 187 0 (-1) (-1) (-1), Node.mk 188 0 (-1) (-1) (-1), Node.mk 189 0 (-1) (-1) (-1), 
   Node.mk 190 0 (-1) (-1) (-1), Node.mk 191 0 (-1) (-1) (-1), Node.mk 192 0 (-1) (-1) (-1), 
   Node.mk 193 0 (-1) (-1) (-1), Node.mk 194 0 (-1) (-1) (-1), Node.mk 195 0 (-1) (-1) (-1), 
   Node.mk 196 0 (-1) (-1) (-1), Node.mk 197 0 (-1) (-1) (-1), Node.mk 198 0 (-1) (-1) (-1), 
   Node.mk 199 0 (-1) (-1) (-1), Node.mk 201 0 (-1) (-1) (-1), Node.mk 202 0 (-1) (-1) (-1), 
   Node.mk 203 0 (-1) (-1) (-1), Node.mk 204 0 (-1) (-1) (-1), Node.mk 205 0 (-1) (-1) (-1), 
   Node.mk 206 0 (-1) (-1) (-1), Node.mk 207 0 (-1) (-1) (-1), Node.mk 208 0 (-1) (-1) (-1), 
   Node.mk 209 0 (-1) (-1) (-1), Node.mk 210 0 (-1) (-1) (-1), Node.mk 211 0 (-1) (-1) (-1), 
   Node.mk 212 0 (-1) (-1) (-1), Node.mk 213 0 (-1) (-1) (-1), Node.mk 214 0 (-1) (-1) (-1), 
   Node.mk 215 0 (-1) (-1) (-1), Node.mk 216 0 (-1) (-1) (-1), Node.mk 217 0 (-1) (-1) (-1), 
   Node.mk 218 0 (-1) (-1) (-1), Node.mk 219 0 (-1) (-1) (-1), Node.mk 220 0 (-1) (-1) (-1), 
   Node.mk 221 0 (-1) (-1) (-1), Node.mk 222 0 (-1) (-1) (-1), Node.mk 223 0 (-1) (-1) (-1), 
   Node.mk 224 0 (-1) (-1) (-1), Node.mk 225 0 (-1) (-1) (-1), Node.mk 226 0 (-1) (-1) (-1), 
   Node.mk 227 0 (-1) (-1) (-1), Node.mk 228 0 (-1) (-1) (-1), Node.mk 229 0 (-1) (-1) (-1), 
   Node.mk 230 0 (-1) (-1) (-1), Node.mk 231 0 (-1) (-1) (-1), Node.mk 232 0 (-1) (-1) (-1), 
   Node.mk 233 0 (-1) (-1) (-1), Node.mk 234 0 (-1) (-1) (-1), Node.mk 235 0 (-1) (-1) (-1), 
   Node.mk 236 0 (-1) (-1) (-1), Node.mk 237 0 (-1) (-1) (-1), Node.mk 238 0 (-1) (-1) (-1), 
   Node.mk 239 0 (-1) (-1) (-1), Node.mk 240 0 (-1) (-1) (-1), Node.mk 241 0 (-1) (-1) (-1), 
   Node.mk 242 0 (-1) (-1) (-1), Node.mk 243 0 (-1) (-1) (-1), Node.mk 244 0 (-1) (-1) (-1), 
   Node.mk 245 0 (-1) (-1) (-1), Node.mk 246 0 (-1) (-1) (-1), Node.mk 247 0 (-1) (-1) (-1), 
   Node.mk 248 0 (-1) (-1) (-1), Node.mk 249 0 (-1) (-1) (-1), Node.mk 250 0 (-1) (-1) (-1), 
   Node.mk 251 0 (-1) (-1) (-1), Node.mk 252 0 (-1) (-1) (-1), Node.mk 253 0 (-1) (-1) (-1), 
   Node.mk 254 0 (-1) (-1) (-1), Node.mk 255 0 (-1) (-1) (-1), Node.mk 64 1 (-1) (-1) (-1), 
   Node.mk 65 1 (-1) (-1) (-1), Node.mk 66 1 (-1) (-1) (-1), Node.mk 67 1 (-1) (-1) (-1), 
   Node.mk 68 1 (-1) (-1) (-1), Node.mk 69 1 (-1) (-1) (-1), Node.mk 70 1 (-1) (-1) (-1), 
   Node.mk 71 1 (-1) (-1) (-1), Node.mk 72 1 (-1) (-1) (-1), Node.mk 73 1 (-1) (-1) (-1), 
   Node.mk 74 1 (-1) (-1) (-1), Node.mk 75 1 (-1) (-1) (-1), Node.mk 76 1 (-1) (-1) (-1), 
   Node.mk 77 1 (-1) (-1) (-1), Node.mk 78 1 (-1) (-1) (-1), Node.mk 79 1 (-1) (-1) (-1), 
   Node.mk 80 1 (-1) (-1) (-1), Node.mk 81 1 (-1) (-1) (-1), Node.mk 82 1 (-1) (-1) (-1), 
   Node.mk 83 1 (-1) (-1) (-1), Node.mk 84 1 (-1) (-1) (-1), Node.mk 85 1 (-1) (-1) (-1), 
   Node.mk 86 1 (-1) (-1) (-1), Node.mk 87 1 (-1) (-1) (-1), Node.mk 88 1 (-1) (-1) (-1), 
   Node.mk 89 1 (-1) (-1) (-1), Node.mk 90 1 (-1) (-1) (-1), Node.mk 91 1 (-1) (-1) (-1), 
   Node.mk 92 1 (-1) (-1) (-1), Node.mk 93 1 (-1) (-1) (-1), Node.mk 94 1 (-1) (-1) (-1), 
   Node.mk 95 1 (-1) (-1) (-1), Node.mk 96 1 (-1) (-1) (-1), Node.mk 97 1 (-1) (-1) (-1), 
   Node.mk 98 1 (-1) (-1) (-1), Node.mk 99 1 (-1) (-1) (-1), Node.mk 100 1 (-1) (-1) (-1), 
   Node.mk 101 1 (-1) (-1) (-1), Node.mk 102 1 (-1) (-1) (-1), Node.mk 103 1 (-1) (-1) (-1), 
   Node.mk 104 1 (-1) (-1) (-1), Node.mk 105 1 (-1) (-1) (-1), Node.mk 106 1 (-1) (-1) (-1), 
   Node.mk 107 1 (-1) (-1) (-1), Node.mk 108 1 (-1) (-1) (-1), Node.mk 109 1 (-1) (-1) (-1), 
   Node.mk 110 1 (-1) (-1) (-1), Node.mk 111 1 (-1) (-1) (-1), Node.mk 112 1 (-1) (-1) (-1), 
   Node.mk 113 1 (-1) (-1) (-1), Node.mk 114 1 (-1) (-1) (-1), Node.mk 115 1 (-1) (-1) (-1), 
   Node.mk 116 1 (-1) (-1) (-1), Node.mk 117 1 (-1) (-1) (-1), Node.mk 118 1 (-1) (-1) (-1), 
   Node.mk 119 1 (-1) (-1) (-1), Node.mk 120 1 (-1) (-1) (-1), Node.mk 121 1 (-1) (-1) (-1), 
   Node.mk 122 1 (-1) (-1) (-1), Node.mk 123 1 (-1) (-1) (-1), Node.mk 124 1 (-1) (-1) (-1), 
   Node.mk 125 1 (-1) (-1) (-1), Node.mk 126 1 (-1) (-1) (-1), Node.mk 127 1 (-1) (-1) (-1), 
   Node.mk 128 1 (-1) (-1) (-1), Node.mk 129 1 (-1) (-1) (-1), Node.mk 130 1 (-1) (-1) (-1), 
   Node.mk 131 1 (-1) (-1) (-1), Node.mk 132 1 (-1) (-1) (-1), Node.mk 133 1 (-1) (-1) (-1), 
   Node.mk 134 1 (-1) (-1) (-1), Node.mk 135 1 (-1) (-1) (-1), Node.mk 136 1 (-1) (-1) (-1), 
   Node.mk 137 1 (-1) (-1) (-1), Node.mk 138 1 (-1) (-1) (-1), Node.mk 139 1 (-1) (-1) (-1), 
   Node.mk 140 1 (-1) (-1) (-1), Node.mk 141 1 (-1) (-1) (-1), Node.mk 142 1 (-1) (-1) (-1), 
   Node.mk 143 1 (-1) (-1) (-1), Node.mk 144 1 (-1) (-1) (-1), Node.mk 145 1 (-1) (-1) (-1), 
   Node.mk 146 1 (-1) (-1) (-1), Node.mk 147 1 (-1) (-1) (-1), Node.mk 148 1 (-1) (-1) (-1), 
   Node.mk 149 1 (-1) (-1) (-1), Node.mk 150 1 (-1) (-1) (-1), Node.mk 151 1 (-1) (-1) (-1), 
   Node.mk 152 1 (-1) (-1) (-1), Node.mk 153 1 (-1) (-1) (-1), Node.mk 154 1 (-1) (-1) (-1), 
   Node.mk 155 1 (-1) (-1) (-1), Node.mk 156 1 (-1) (-1) (-1), Node.mk 157 1 (-1) (-1) (-1), 
   Node.mk 158 1 (-1) (-1) (-1), Node.mk 159 1 (-1) (-1) (-1), Node.mk 160 1 (-1) (-1) (-1), 
   Node.mk 161 1 (-1) (-1) (-1), Node.mk 162 1 (-1) (-1) (-1), Node.mk 163 1 (-1) (-1) (-1), 
   Node.mk 164 1 (-1) (-1) (-1), Node.mk 165 1 (-1) (-1) (-1), Node.mk 166 1 (-1) (-1) (-1), 
   Node.mk 167 1 (-1) (-1) (-1), Node.mk 168 1 (-1) (-1) (-1), Node.mk 169 1 (-1) (-1) (-1), 
   Node.mk 170 1 (-1) (-1) (-1), Node.mk 171 1 (-1) (-1) (-1), Node.mk 200 1215 (-1) (-1) (-1)]

def sortS7 : List Node :=
  [Node.mk 172 0 (-1) (-1) (-1), Node.mk 173 0 (-1) (-1) (-1), Node.mk 174 0 (-1) (-1) (-1), 
   Node.mk 175 0 (-1) (-1) (-1), Node.mk 176 0 (-1) (-1) (-1), Node.mk 177 0 (-1) (-1) (-1), 
   Node.mk 178 0 (-1) (-1) (-1), Node.mk 179 0 (-1) (-1) (-1), Node.mk 180 0 (-1) (-1) (-1), 
   Node.mk 181 0 (-1) (-1) (-1), Node.mk 182 0 (-1) (-1) (-1), Node.mk 183 0 (-1) (-1) (-1), 
   Node.mk 184 0 (-1) (-1) (-1), Node.mk 185 0 (-1) (-1) (-1), Node.mk 186 0 (-1) (-1) (-1), 
   Node.mk 187 0 (-1) (-1) (-1), Node.mk 188 0 (-1) (-1) (-1), Node.mk 189 0 (-1) (-1) (-1), 
   Node.mk 190 0 (-1) (-1) (-1), Node.mk 191 0 (-1) (-1) (-1), Node.mk 192 0 (-1) (-1) (-1), 
   Node.mk 193 0 (-1) (-1) (-1), Node.mk 194 0 (-1) (-1) (-1), Node.mk 195 0 (-1) (-1) (-1), 
   Node.mk 196 0 (-1) (-1) (-1), Node.mk 197 0 (-1) (-1) (-1), Node.mk 198 0 (-1) (-1) (-1), 
   Node.mk 199 0 (-1) (-1) (-1), Node.mk 201 0 (-1) (-1) (-1), Node.mk 202 0 (-1) (-1) (-1), 
   Node.mk 203 0 (-1) (-1) (-1), Node.mk 204 0 (-1) (-1) (-1), Node.mk 205 0 (-1) (-1) (-1), 
   Node.mk 206 0 (-1) (-1) (-1), Node.mk 207 0 (-1) (-1) (-1), Node.mk 208 0 (-1) (-1) (-1), 
   Node.mk 209 0 (-1) (-1) (-1), Node.mk 210 0 (-1) (-1) (-1), Node.mk 211 0 (-1) (-1) (-1), 
   Node.mk 212 0 (-1) (-1) (-1), Node.mk 213 0 (-1) (-1) (-1), Node.mk 214 0 (-1) (-1) (-1), 
   Node.mk 215 0 (-1) (-1) (-1), Node.mk 216 0 (-1) (-1) (-1), Node.mk 217 0 (-1) (-1) (-1), 
   Node.mk 218 0 (-1) (-1) (-1), Node.mk 219 0 (-1) (-1) (-1), Node.mk 220 0 (-1) (-1) (-1), 
   Node.mk 221 0 (-1) (-1) (-1), Node.mk 222 0 (-1) (-1) (-1), Node.mk 223 0 (-1) (-1) (-1), 
   Node.mk 224 0 (-1) (-1) (-1), Node.mk 225 0 (-1) (-1) (-1), Node.mk 226 0 (-1) (-1) (-1), 
   Node.mk 227 0 (-1) (-1) (-1), Node.mk 228 0 (-1) (-1) (-1), Node.mk 229 0 (-1) (-1) (-1), 
   Node.mk 230 0 (-1) (-1) (-1), Node.mk 231 0 (-1) (-1) (-1), Node.mk 232 0 (-1) (-1) (-1), 
   Node.mk 233 0 (-1) (-1) (-1), Node.mk 234 0 (-1) (-1) (-1), Node.mk 235 0 (-1) (-1) (-1), 
   Node.mk 236 0 (-1) (-1) (-1), Node.mk 237 0 (-1) (-1) (-1), Node.mk 238 0 (-1) (-1) (-1), 
   Node.mk 239 0 (-1) (-1) (-1), Node.mk 240 0 (-1) (-1) (-1), Node.mk 241 0 (-1) (-1) (-1), 
   Node.mk 242 0 (-1) (-1) (-1), Node.mk 243 0 (-1) (-1) (-1), Node.mk 244 0 (-1) (-1) (-1), 
   Node.mk 245 0 (-1) (-1) (-1), Node.mk 246 0 (-1) (-1) (-1), Node.mk 247 0 (-1) (-1) (-1), 
   Node.mk 248 0 (-1) (-1) (-1), Node.mk 249 0 (-1) (-1) (-1), Node.mk 250 0 (-1) (-1) (-1), 
   Node.mk 251 0 (-1) (-1) (-1), Node.mk 252 0 (-1) (-1) (-1), Node.mk 253 0 (-1) (-1) (-1), 
   Node.mk 254 0 (-1) (-1) (-1), Node.mk 255 0 (-1) (-1) (-1), Node.mk 32 1 (-1) (-1) (-1), 
   Node.mk 33 1 (-1) (-1) (-1), Node.mk 34 1 (-1) (-1) (-1), Node.mk 35 1 (-1) (-1) (-1), 
   Node.mk 36 1 (-1) (-1) (-1), Node.mk 37 1 (-1) (-1) (-1), Node.mk 38 1 (-1) (-1) (-1), 
   Node.mk 39 1 (-1) (-1) (-1), Node.mk 40 1 (-1) (-1) (-1), Node.mk 41 1 (-1) (-1) (-1), 
   Node.mk 42 1 (-1) (-1) (-1), Node.mk 43 1 (-1) (-1) (-1), Node.mk 44 1 (-1) (-1) (-1), 
   Node.mk 45 1 (-1) (-1) (-1), Node.mk 46 1 (-1) (-1) (-1), Node.mk 47 1 (-1) (-1) (-1), 
   Node.mk 48 1 (-1) (-1) (-1), Node.mk 49 1 (-1) (-1) (-1), Node.mk 50 1 (-1) (-1) (-1), 
   Node.mk 51 1 (-1) (-1) (-1), Node.mk 52 1 (-1) (-1) (-1), Node.mk 53 1 (-1) (-1) (-1), 
   Node.mk 54 1 (-1) (-1) (-1), Node.mk 55 1 (-1) (-1) (-1), Node.mk 56 1 (-1) (-1) (-1), 
   Node.mk 57 1 (-1) (-1) (-1), Node.mk 58 1 (-1) (-1) (-1), Node.mk 59 1 (-1) (-1) (-1), 
   Node.mk 60 1 (-1) (-1) (-1), Node.mk 61 1 (-1) (-1) (-1), Node.mk 62 1 (-1) (-1) (-1), 
   Node.mk 63 1 (-1) (-1) (-1), Node.mk 64 1 (-1) (-1) (-1), Node.mk 65 1 (-1) (-1) (-1), 
   Node.mk 66 1 (-1) (-1) (-1), Node.mk 67 1 (-1) (-1) (-1), Node.mk 68 1 (-1) (-1) (-1), 
   Node.mk 69 1 (-1) (-1) (-1), Node.mk 70 1 (-1) (-1) (-1), Node.mk 71 1 (-1) (-1) (-1), 
   Node.mk 72 1 (-1) (-1) (-1), Node.mk 73 1 (-1) (-1) (-1), Node.mk 74 1 (-1) (-1) (-1), 
   Node.mk 75 1 (-1) (-1) (-1), Node.mk 76 1 (-1) (-1) (-1), Node.mk 77 1 (-1) (-1) (-1), 
   Node.mk 78 1 (-1) (-1) (-1), Node.mk 79 1 (-1) (-1) (-1), Node.mk 80 1 (-1) (-1) (-1), 
   Node.mk 81 1 (-1) (-1) (-1), Node.mk 82 1 (-1) (-1) (-1), Node.mk 83 1 (-1) (-1) (-1), 
   Node.mk 84 1 (-1) (-1) (-1), Node.mk 85 1 (-1) (-1) (-1), Node.mk 86 1 (-1) (-1) (-1), 
   Node.mk 87 1 (-1) (-1) (-1), Node.mk 88 1 (-1) (-1) (-1), Node.mk 89 1 (-1) (-1) (-1), 
   Node.mk 90 1 (-1) (-1) (-1), Node.mk 91 1 (-1) (-1) (-1), Node.mk 92 1 (-1) (-1) (-1), 
   Node.mk 93 1 (-1) (-1) (-1), Node.mk 94 1 (-1) (-1) (-1), Node.mk 95 1 (-1) (-1) (-1), 
   Node.mk 96 1 (-1) (-1) (-1), Node.mk 97 1 (-1) (-1) (-1), Node.mk 98 1 (-1) (-1) (-1), 
   Node.mk 99 1 (-1) (-1) (-1), Node.mk 100 1 (-1) (-1) (-1), Node.mk 101 1 (-1) (-1) (-1), 
   Node.mk 102 1 (-1) (-1) (-1), Node.mk 103 1 (-1) (-1) (-1), Node.mk 104 1 (-1) (-1) (-1), 
   Node.mk 105 1 (-1) (-1) (-1), Node.mk 106 1 (-1) (-1) (-1), Node.mk 107 1 (-1) (-1) (-1), 
   Node.mk 108 1 (-1) (-1) (-1), Node.mk 109 1 (-1) (-1) (-1), Node.mk 110 1 (-1) (-1) (-1), 
   Node.mk 111 1 (-1) (-1) (-1), Node.mk 112 1 (-1) (-1) (-1), Node.mk 113 1 (-1) (-1) (-1), 
   Node.mk 114 1 (-1) (-1) (-1), Node.mk 115 1 (-1) (-1) (-1), Node.mk 116 1 (-1) (-1) (-1), 
   Node.mk 117 1 (-1) (-1) (-1), Node.mk 118 1 (-1) (-1) (-1), Node.mk 119 1 (-1) (-1) (-1), 
   Node.mk 120 1 (-1) (-1) (-1), Node.mk 121 1 (-1) (-1) (-1), Node.mk 122 1 (-1) (-1) (-1), 
   Node.mk 123 1 (-1) (-1) (-1), Node.mk 124 1 (-1) (-1) (-1), Node.mk 125 1 (-1) (-1) (-1), 
   Node.mk 126 1 (-1) (-1) (-1), Node.mk 127 1 (-1) (-1) (-1), Node.mk 128 1 (-1) (-1) (-1), 
   Node.mk 129 1 (-1) (-1) (-1), Node.mk 130 1 (-1) (-1) (-1), Node.mk 131 1 (-1) (-1) (-1), 
   Node.mk 132 1 (-1) (-1) (-1), Node.mk 133 1 (-1) (-1) (-1), Node.mk 134 1 (-1) (-1) (-1), 
   Node.mk 135 1 (-1) (-1) (-1), Node.mk 136 1 (-1) (-1) (-1), Node.mk 137 1 (-1) (-1) (-1), 
   Node.mk 138 1 (-1) (-1) (-1), Node.mk 139 1 (-1) (-1) (-1), Node.mk 140 1 (-1) (-1) (-1), 
   Node.mk 141 1 (-1) (-1) (-1), Node.mk 142 1 (-1) (-1) (-1), Node.mk 143 1 (-1) (-1) (-1), 
   Node.mk 144 1 (-1) (-1) (-1), Node.mk 145 1 (-1) (-1) (-1), Node.mk 146 1 (-1) (-1) (-1), 
   Node.mk 147 1 (-1) (-1) (-1), Node.mk 148 1 (-1) (-1) (-1), Node.mk 149 1 (-1) (-1) (-1), 
   Node.mk 150 1 (-1) (-1) (-1), Node.mk 151 1 (-1) (-1) (-1), Node.mk 152 1 (-1) (-1) (-1), 
   Node.mk 153 1 (-1) (-1) (-1), Node.mk 154 1 (-1) (-1) (-1), Node.mk 155 1 (-1) (-1) (-1), 
   Node.mk 156 1 (-1) (-1) (-1), Node.mk 157 1 (-1) (-1) (-1), Node.mk 158 1 (-1) (-1) (-1), 
   Node.mk 159 1 (-1) (-1) (-1), Node.mk 160 1 (-1) (-1) (-1), Node.mk 161 1 (-1) (-1) (-1), 
   Node.mk 162 1 (-1) (-1) (-1), Node.mk 163 1 (-1) (-1) (-1), Node.mk 164 1 (-1) (-1) (-1), 
   Node.mk 165 1 (-1) (-1) (-1), Node.mk 166 1 (-1) (-1) (-1), Node.mk 167 1 (-1) (-1) (-1), 
   Node.mk 168 1 (-1) (-1) (-1), Node.mk 169 1 (-1) (-1) (-1), Node.mk 170 1 (-1) (-1) (-1), 
   Node.mk 171 1 (-1) (-1) (-1), Node.mk 200 1215 (-1) (-1) (-1)]

def sortS8 : List Node :=
  [Node.mk 172 0 (-1) (-1) (-1), Node.mk 173 0 (-1) (-1) (-1), Node.mk 174 0 (-1) (-1) (-1), 
   Node.mk 175 0 (-1) (-1) (-1), Node.mk 176 0 (-1) (-1) (-1), Node.mk 177 0 (-1) (-1) (-1), 
   Node.mk 178 0 (-1) (-1) (-1), Node.mk 179 0 (-1) (-1) (-1), Node.mk 180 0 (-1) (-1) (-1), 
   Node.mk 181 0 (-1) (-1) (-1), Node.mk 182 0 (-1) (-1) (-1), Node.mk 183 0 (-1) (-1) (-1), 
   Node.mk 184 0 (-1) (-1) (-1), Node.mk 185 0 (-1) (-1) (-1), Node.mk 186 0 (-1) (-1) (-1), 
   Node.mk 187 0 (-1) (-1) (-1), Node.mk 188 0 (-1) (-1) (-1), Node.mk 189 0 (-1) (-1) (-1), 
   Node.mk 190 0 (-1) (-1) (-1), Node.mk 191 0 (-1) (-1) (-1), Node.mk 192 0 (-1) (-1) (-1), 
   Node.mk 193 0 (-1) (-1) (-1), Node.mk 194 0 (-1) (-1) (-1), Node.mk 195 0 (-1) (-1) (-1), 
   Node.mk 196 0 (-1) (-1) (-1), Node.mk 197 0 (-1) (-1) (-1), Node.mk 198 0 (-1) (-1) (-1), 
   Node.mk 199 0 (-1) (-1) (-1), Node.mk 201 0 (-1) (-1) (-1), Node.mk 202 0 (-1) (-1) (-1), 
   Node.mk 203 0 (-1) (-1) (-1), Node.mk 204 0 (-1) (-1) (-1), Node.mk 205 0 (-1) (-1) (-1), 
   Node.mk 206 0 (-1) (-1) (-1), Node.mk 207 0 (-1) (-1) (-1), Node.mk 208 0 (-1) (-1) (-1), 
   Node.mk 209 0 (-1) (-1) (-1), Node.mk 210 0 (-1) (-1) (-1), Node.mk 211 0 (-1) (-1) (-1), 
   Node.mk 212 0 (-1) (-1) (-1), Node.mk 213 0 (-1) (-1) (-1), Node.mk 214 0 (-1) (-1) (-1), 
   Node.mk 215 0 (-1) (-1) (-1), Node.mk 216 0 (-1) (-1) (-1), Node.mk 217 0 (-1) (-1) (-1), 
   Node.mk 218 0 (-1) (-1) (-1), Node.mk 219 0 (-1) (-1) (-1), Node.mk 220 0 (-1) (-1) (-1), 
   Node.mk 221 0 (-1) (-1) (-1), Node.mk 222 0 (-1) (-1) (-1), Node.mk 223 0 (-1) (-1) (-1), 
   Node.mk 224 0 (-1) (-1) (-1), Node.mk 225 0 (-1) (-1) (-1), Node.mk 226 0 (-1) (-1) (-1), 
   Node.mk 227 0 (-1) (-1) (-1), Node.mk 228 0 (-1) (-1) (-1), Node.mk 229 0 (-1) (-1) (-1), 
   Node.mk 230 0 (-1) (-1) (-1), Node.mk 231 0 (-1) (-1) (-1), Node.mk 232 0 (-1) (-1) (-1), 
   Node.mk 233 0 (-1) (-1) (-1), Node.mk 234 0 (-1) (-1) (-1), Node.mk 235 0 (-1) (-1) (-1), 
   Node.mk 236 0 (-1) (-1) (-1), Node.mk 237 0 (-1) (-1) (-1), Node.mk 238 0 (-1) (-1) (-1), 
   Node.mk 239 0 (-1) (-1) (-1), Node.mk 240 0 (-1) (-1) (-1), Node.mk 241 0 (-1) (-1) (-1), 
   Node.mk 242 0 (-1) (-1) (-1), Node.mk 243 0 (-1) (-1) (-1), Node.mk 244 0 (-1) (-1) (-1), 
   Node.mk 245 0 (-1) (-1) (-1), Node.mk 246 0 (-1) (-1) (-1), Node.mk 247 0 (-1) (-1) (-1), 
   Node.mk 248 0 (-1) (-1) (-1), Node.mk 249 0 (-1) (-1) (-1), Node.mk 250 0 (-1) (-1) (-1), 
   Node.mk 251 0 (-1) (-1) (-1), Node.mk 252 0 (-1) (-1) (-1), Node.mk 253 0 (-1) (-1) (-1), 
   Node.mk 254 0 (-1) (-1) (-1), Node.mk 255 0 (-1) (-1) (-1), Node.mk 0 1 (-1) (-1) (-1), 
   Node.mk 1 1 (-1) (-1) (-1), Node.mk 2 1 (-1) (-1) (-1), Node.mk 3 1 (-1) (-1) (-1), 
   Node.mk 4 1 (-1) (-1) (-1), Node.mk 5 1 (-1) (-1) (-1), Node.mk 6 1 (-1) (-1) (-1), 
   Node.mk 7 1 (-1) (-1) (-1), Node.mk 8 1 (-1) (-1) (-1), Node.mk 9 1 (-1) (-1) (-1), 
   Node.mk 10 1 (-1) (-1) (-1), Node.mk 11 1 (-1) (-1) (-1), Node.mk 12 1 (-1) (-1) (-1), 
   Node.mk 13 1 (-1) (-1) (-1), Node.mk 14 1 (-1) (-1) (-1), Node.mk 15 1 (-1) (-1) (-1), 
   Node.mk 16 1 (-1) (-1) (-1), Node.mk 17 1 (-1) (-1) (-1), Node.mk 18 1 (-1) (-1) (-1), 
   Node.mk 19 1 (-1) (-1) (-1), Node.mk 20 1 (-1) (-1) (-1), Node.mk 21 1 (-1) (-1) (-1), 
   Node.mk 22 1 (-1) (-1) (-1), Node.mk 23 1 (-1) (-1) (-1), Node.mk 24 1 (-1) (-1) (-1), 
   Node.mk 25 1 (-1) (-1) (-1), Node.mk 26 1 (-1) (-1) (-1), Node.mk 27 1 (-1) (-1) (-1), 
   Node.mk 28 1 (-1) (-1) (-1), Node.mk 29 1 (-1) (-1) (-1), Node.mk 30 1 (-1) (-1) (-1), 
   Node.mk 31 1 (-1) (-1) (-1), Node.mk 32 1 (-1) (-1) (-1), Node.mk 33 1 (-1) (-1) (-1), 
   Node.mk 34 1 (-1) (-1) (-1), Node.mk 35 1 (-1) (-1) (-1), Node.mk 36 1 (-1) (-1) (-1), 
   Node.mk 37 1 (-1) (-1) (-1), Node.mk 38 1 (-1) (-1) (-1), Node.mk 39 1 (-1) (-1) (-1), 
   Node.mk 40 1 (-1) (-1) (-1), Node.mk 41 1 (-1) (-1) (-1), Node.mk 42 1 (-1) (-1) (-1), 
   Node.mk 43 1 (-1) (-1) (-1), Node.mk 44 1 (-1) (-1) (-1), Node.mk 45 1 (-1) (-1) (-1), 
   Node.mk 46 1 (-1) (-1) (-1), Node.mk 47 1 (-1) (-1) (-1), Node.mk 48 1 (-1) (-1) (-1), 
   Node.mk 49 1 (-1) (-1) (-1), Node.mk 50 1 (-1) (-1) (-1), Node.mk 51 1 (-1) (-1) (-1), 
   Node.mk 52 1 (-1) (-1) (-1), Node.mk 53 1 (-1) (-1) (-1), Node.mk 54 1 (-1) (-1) (-1), 
   Node.mk 55 1 (-1) (-1) (-1), Node.mk 56 1 (-1) (-1) (-1), Node.mk 57 1 (-1) (-1) (-1), 
   Node.mk 58 1 (-1) (-1) (-1), Node.mk 59 1 (-1) (-1) (-1), Node.mk 60 1 (-1) (-1) (-1), 
   Node.mk 61 1 (-1) (-1) (-1), Node.mk 62 1 (-1) (-1) (-1), Node.mk 63 1 (-1) (-1) (-1), 
   Node.mk 64 1 (-1) (-1) (-1), Node.mk 65 1 (-1) (-1) (-1), Node.mk 66 1 (-1) (-1) (-1), 
   Node.mk 67 1 (-1) (-1) (-1), Node.mk 68 1 (-1) (-1) (-1), Node.mk 69 1 (-1) (-1) (-1), 
   Node.mk 70 1 (-1) (-1) (-1), Node.mk 71 1 (-1) (-1) (-1), Node.mk 72 1 (-1) (-1) (-1), 
   Node.mk 73 1 (-1) (-1) (-1), Node.mk 74 1 (-1) (-1) (-1), Node.mk 75 1 (-1) (-1) (-1), 
   Node.mk 76 1 (-1) (-1) (-1), Node.mk 77 1 (-1) (-1) (-1), Node.mk 78 1 (-1) (-1) (-1), 
   Node.mk 79 1 (-1) (-1) (-1), Node.mk 80 1 (-1) (-1) (-1), Node.mk 81 1 (-1) (-1) (-1), 
   Node.mk 82 1 (-1) (-1) (-1), Node.mk 83 1 (-1) (-1) (-1), Node.mk 84 1 (-1) (-1) (-1), 
   Node.mk 85 1 (-1) (-1) (-1), Node.mk 86 1 (-1) (-1) (-1), Node.mk 87 1 (-1) (-1) (-1), 
   Node.mk 88 1 (-1) (-1) (-1), Node.mk 89 1 (-1) (-1) (-1), Node.mk 90 1 (-1) (-1) (-1), 
   Node.mk 91 1 (-1) (-1) (-1), Node.mk 92 1 (-1) (-1) (-1), Node.mk 93 1 (-1) (-1) (-1), 
   Node.mk 94 1 (-1) (-1) (-1), Node.mk 95 1 (-1) (-1) (-1), Node.mk 96 1 (-1) (-1) (-1), 
   Node.mk 97 1 (-1) (-1) (-1), Node.mk 98 1 (-1) (-1) (-1), Node.mk 99 1 (-1) (-1) (-1), 
   Node.mk 100 1 (-1) (-1) (-1), Node.mk 101 1 (-1) (-1) (-1), Node.mk 102 1 (-1) (-1) (-1), 
   Node.mk 103 1 (-1) (-1) (-1), Node.mk 104 1 (-1) (-1) (-1), Node.mk 105 1 (-1) (-1) (-1), 
   Node.mk 106 1 (-1) (-1) (-1), Node.mk 107 1 (-1) (-1) (-1), Node.mk 108 1 (-1) (-1) (-1), 
   Node.mk 109 1 (-1) (-1) (-1), Node.mk 110 1 (-1) (-1) (-1), Node.mk 111 1 (-1) (-1) (-1), 
   Node.mk 112 1 (-1) (-1) (-1), Node.mk 113 1 (-1) (-1) (-1), Node.mk 114 1 (-1) (-1) (-1), 
   Node.mk 115 1 (-1) (-1) (-1), Node.mk 116 1 (-1) (-1) (-1), Node.mk 117 1 (-1) (-1) (-1), 
   Node.mk 118 1 (-1) (-1) (-1), Node.mk 119 1 (-1) (-1) (-1), Node.mk 120 1 (-1) (-1) (-1), 
   Node.mk 121 1 (-1) (-1) (-1), Node.mk 122 1 (-1) (-1) (-1), Node.mk 123 1 (-1) (-1) (-1), 
   Node.mk 124 1 (-1) (-1) (-1), Node.mk 125 1 (-1) (-1) (-1), Node.mk 126 1 (-1) (-1) (-1), 
   Node.mk 127 1 (-1) (-1) (-1), Node.mk 128 1 (-1) (-1) (-1), Node.mk 129 1 (-1) (-1) (-1), 
   Node.mk 130 1 (-1) (-1) (-1), Node.mk 131 1 (-1) (-1) (-1), Node.mk 132 1 (-1) (-1) (-1), 
   Node.mk 133 1 (-1) (-1) (-1), Node.mk 134 1 (-1) (-1) (-1), Node.mk 135 1 (-1) (-1) (-1), 
   Node.mk 136 1 (-1) (-1) (-1), Node.mk 137 1 (-1) (-1) (-1), Node.mk 138 1 (-1) (-1) (-1), 
   Node.mk 139 1 (-1) (-1) (-1), Node.mk 140 1 (-1) (-1) (-1), Node.mk 141 1 (-1) (-1) (-1), 
   Node.mk 142 1 (-1) (-1) (-1), Node.mk 143 1 (-1) (-1) (-1), Node.mk 144 1 (-1) (-1) (-1), 
   Node.mk 145 1 (-1) (-1) (-1), Node.mk 146 1 (-1) (-1) (-1), Node.mk 147 1 (-1) (-1) (-1), 
   Node.mk 148 1 (-1) (-1) (-1), Node.mk 149 1 (-1) (-1) (-1), Node.mk 150 1 (-1) (-1) (-1), 
   Node.mk 151 1 (-1) (-1) (-1), Node.mk 152 1 (-1) (-1) (-1), Node.mk 153 1 (-1) (-1) (-1), 
   Node.mk 154 1 (-1) (-1) (-1), Node.mk 155 1 (-1) (-1) (-1), Node.mk 156 1 (-1) (-1) (-1), 
   Node.mk 157 1 (-1) (-1) (-1), Node.mk 158 1 (-1) (-1) (-1), Node.mk 159 1 (-1) (-1) (-1), 
   Node.mk 160 1 (-1) (-1) (-1), Node.mk 161 1 (-1) (-1) (-1), Node.mk 162 1 (-1) (-1) (-1), 
   Node.mk 163 1 (-1) (-1) (-1), Node.mk 164 1 (-1) (-1) (-1), Node.mk 165 1 (-1) (-1) (-1), 
   Node.mk 166 1 (-1) (-1) (-1), Node.mk 167 1 (-1) (-1) (-1), Node.mk 168 1 (-1) (-1) (-1), 
   Node.mk 169 1 (-1) (-1) (-1), Node.mk 170 1 (-1) (-1) (-1), Node.mk 171 1 (-1) (-1) (-1), 
   Node.mk 200 1215 (-1) (-1) (-1)]

def cnA1 : List Node :=
  [Node.mk 0 1 (-1) (-1) (-1), Node.mk 1 1 (-1) (-1) (-1), Node.mk 2 1 (-1) (-1) (-1), 
   Node.mk 3 1 (-1) (-1) (-1), Node.mk 4 1 (-1) (-1) (-1), Node.mk 5 1 (-1) (-1) (-1), 
   Node.mk 6 1 (-1) (-1) (-1), Node.mk 7 1 (-1) (-1) (-1), Node.mk 8 1 (-1) (-1) (-1), 
   Node.mk 9 1 (-1) (-1) (-1), Node.mk 10 1 (-1) (-1) (-1), Node.mk 11 1 (-1) (-1) (-1), 
   Node.mk 12 1 (-1) (-1) (-1), Node.mk 13 1 (-1) (-1) (-1), Node.mk 14 1 (-1) (-1) (-1), 
   Node.mk 15 1 (-1) (-1) (-1), Node.mk 16 1 (-1) (-1) (-1), Node.mk 17 1 (-1) (-1) (-1), 
   Node.mk 18 1 (-1) (-1) (-1), Node.mk 19 1 (-1) (-1) (-1), Node.mk 20 1 (-1) (-1) (-1), 
   Node.mk 21 1 (-1) (-1) (-1), Node.mk 22 1 (-1) (-1) (-1), Node.mk 23 1 (-1) (-1) (-1), 
   Node.mk 24 1 (-1) (-1) (-1), Node.mk 25 1 (-1) (-1) (-1), Node.mk 26 1 (-1) (-1) (-1), 
   Node.mk 27 1 (-1) (-1) (-1), Node.mk 28 1 (-1) (-1) (-1), Node.mk 29 1 (-1) (-1) (-1), 
   Node.mk 30 1 (-1) (-1) (-1), Node.mk 31 1 (-1) (-1) (-1)]

def cnA2 : List Node :=
  [Node.mk 32 1 (-1) (-1) (-1), Node.mk 33 1 (-1) (-1) (-1), Node.mk 34 1 (-1) (-1) (-1), 
   Node.mk 35 1 (-1) (-1) (-1), Node.mk 36 1 (-1) (-1) (-1), Node.mk 37 1 (-1) (-1) (-1), 
   Node.mk 38 1 (-1) (-1) (-1), Node.mk 39 1 (-1) (-1) (-1), Node.mk 40 1 (-1) (-1) (-1), 
   Node.mk 41 1 (-1) (-1) (-1), Node.mk 42 1 (-1) (-1) (-1), Node.mk 43 1 (-1) (-1) (-1), 
   Node.mk 44 1 (-1) (-1) (-1), Node.mk 45 1 (-1) (-1) (-1), Node.mk 46 1 (-1) (-1) (-1), 
   Node.mk 47 1 (-1) (-1) (-1), Node.mk 48 1 (-1) (-1) (-1), Node.mk 49 1 (-1) (-1) (-1), 
   Node.mk 50 1 (-1) (-1) (-1), Node.mk 51 1 (-1) (-1) (-1), Node.mk 52 1 (-1) (-1) (-1), 
   Node.mk 53 1 (-1) (-1) (-1), Node.mk 54 1 (-1) (-1) (-1), Node.mk 55 1 (-1) (-1) (-1), 
   Node.mk 56 1 (-1) (-1) (-1), Node.mk 57 1 (-1) (-1) (-1), Node.mk 58 1 (-1) (-1) (-1), 
   Node.mk 59 1 (-1) (-1) (-1), Node.mk 60 1 (-1) (-1) (-1), Node.mk 61 1 (-1) (-1) (-1), 
   Node.mk 62 1 (-1) (-1) (-1), Node.mk 63 1 (-1) (-1) (-1)]

def cnA3 : List Node :=
  [Node.mk 64 1 (-1) (-1) (-1), Node.mk 65 1 (-1) (-1) (-1), Node.mk 66 1 (-1) (-1) (-1), 
   Node.mk 67 1 (-1) (-1) (-1), Node.mk 68 1 (-1) (-1) (-1), Node.mk 69 1 (-1) (-1) (-1), 
   Node.mk 70 1 (-1) (-1) (-1), Node.mk 71 1 (-1) (-1) (-1), Node.mk 72 1 (-1) (-1) (-1), 
   Node.mk 73 1 (-1) (-1) (-1), Node.mk 74 1 (-1) (-1) (-1), Node.mk 75 1 (-1) (-1) (-1), 
   Node.mk 76 1 (-1) (-1) (-1), Node.mk 77 1 (-1) (-1) (-1), Node.mk 78 1 (-1) (-1) (-1), 
   Node.mk 79 1 (-1) (-1) (-1), Node.mk 80 1 (-1) (-1) (-1), Node.mk 81 1 (-1) (-1) (-1), 
   Node.mk 82 1 (-1) (-1) (-1), Node.mk 83 1 (-1) (-1) (-1), Node.mk 84 1 (-1) (-1) (-1), 
   Node.mk 85 1 (-1) (-1) (-1), Node.mk 86 1 (-1) (-1) (-1), Node.mk 87 1 (-1) (-1) (-1), 
   Node.mk 88 1 (-1) (-1) (-1), Node.mk 89 1 (-1) (-1) (-1), Node.mk 90 1 (-1) (-1) (-1), 
   Node.mk 91 1 (-1) (-1) (-1), Node.mk 92 1 (-1) (-1) (-1), Node.mk 93 1 (-1) (-1) (-1), 
   Node.mk 94 1 (-1) (-1) (-1), Node.mk 95 1 (-1) (-1) (-1)]

def cnA4 : List Node :=
  [Node.mk 96 1 (-1) (-1) (-1), Node.mk 97 1 (-1) (-1) (-1), Node.mk 98 1 (-1) (-1) (-1), 
   Node.mk 99 1 (-1) (-1) (-1), Node.mk 100 1 (-1) (-1) (-1), Node.mk 101 1 (-1) (-1) (-1), 
   Node.mk 102 1 (-1) (-1) (-1), Node.mk 103 1 (-1) (-1) (-1), Node.mk 104 1 (-1) (-1) (-1), 
   Node.mk 105 1 (-1) (-1) (-1), Node.mk 106 1 (-1) (-1) (-1), Node.mk 107 1 (-1) (-1) (-1), 
   Node.mk 108 1 (-1) (-1) (-1), Node.mk 109 1 (-1) (-1) (-1), Node.mk 110 1 (-1) (-1) (-1), 
   Node.mk 111 1 (-1) (-1) (-1), Node.mk 112 1 (-1) (-1) (-1), Node.mk 113 1 (-1) (-1) (-1), 
   Node.mk 114 1 (-1) (-1) (-1), Node.mk 115 1 (-1) (-1) (-1), Node.mk 116 1 (-1) (-1) (-1), 
   Node.mk 117 1 (-1) (-1) (-1), Node.mk 118 1 (-1) (-1) (-1), Node.mk 119 1 (-1) (-1) (-1), 
   Node.mk 120 1 (-1) (-1) (-1), Node.mk 121 1 (-1) (-1) (-1), Node.mk 122 1 (-1) (-1) (-1), 
   Node.mk 123 1 (-1) (-1) (-1), Node.mk 124 1 (-1) (-1) (-1), Node.mk 125 1 (-1) (-1) (-1), 
   Node.mk 126 1 (-1) (-1) (-1), Node.mk 127 1 (-1) (-1) (-1)]

def cnA5 : List Node :=
  [Node.mk 128 1 (-1) (-1) (-1), Node.mk 129 1 (-1) (-1) (-1), Node.mk 130 1 (-1) (-1) (-1), 
   Node.mk 131 1 (-1) (-1) (-1), Node.mk 132 1 (-1) (-1) (-1), Node.mk 133 1 (-1) (-1) (-1), 
   Node.mk 134 1 (-1) (-1) (-1), Node.mk 135 1 (-1) (-1) (-1), Node.mk 136 1 (-1) (-1) (-1), 
   Node.mk 137 1 (-1) (-1) (-1), Node.mk 138 1 (-1) (-1) (-1), Node.mk 139 1 (-1) (-1) (-1), 
   Node.mk 140 1 (-1) (-1) (-1), Node.mk 141 1 (-1) (-1) (-1), Node.mk 142 1 (-1) (-1) (-1), 
   Node.mk 143 1 (-1) (-1) (-1), Node.mk 144 1 (-1) (-1) (-1), Node.mk 145 1 (-1) (-1) (-1), 
   Node.mk 146 1 (-1) (-1) (-1), Node.mk 147 1 (-1) (-1) (-1), Node.mk 148 1 (-1) (-1) (-1), 
   Node.mk 149 1 (-1) (-1) (-1), Node.mk 150 1 (-1) (-1) (-1), Node.mk 151 1 (-1) (-1) (-1), 
   Node.mk 152 1 (-1) (-1) (-1), Node.mk 153 1 (-1) (-1) (-1), Node.mk 154 1 (-1) (-1) (-1), 
   Node.mk 155 1 (-1) (-1) (-1), Node.mk 156 1 (-1) (-1) (-1), Node.mk 157 1 (-1) (-1) (-1), 
   Node.mk 158 1 (-1) (-1) (-1), Node.mk 159 1 (-1) (-1) (-1)]

def cnA6 : List Node :=
  [Node.mk 160 1 (-1) (-1) (-1), Node.mk 161 1 (-1) (-1) (-1), Node.mk 162 1 (-1) (-1) (-1), 
   Node.mk 163 1 (-1) (-1) (-1), Node.mk 164 1 (-1) (-1) (-1), Node.mk 165 1 (-1) (-1) (-1), 
   Node.mk 166 1 (-1) (-1) (-1), Node.mk 167 1 (-1) (-1) (-1), Node.mk 168 1 (-1) (-1) (-1), 
   Node.mk 169 1 (-1) (-1) (-1), Node.mk 170 1 (-1) (-1) (-1), Node.mk 171 1 (-1) (-1) (-1), 
   Node.mk 172 0 (-1) (-1) (-1), Node.mk 173 0 (-1) (-1) (-1), Node.mk 174 0 (-1) (-1) (-1), 
   Node.mk 175 0 (-1) (-1) (-1), Node.mk 176 0 (-1) (-1) (-1), Node.mk 177 0 (-1) (-1) (-1), 
   Node.mk 178 0 (-1) (-1) (-1), Node.mk 179 0 (-1) (-1) (-1), Node.mk 180 0 (-1) (-1) (-1), 
   Node.mk 181 0 (-1) (-1) (-1), Node.mk 182 0 (-1) (-1) (-1), Node.mk 183 0 (-1) (-1) (-1), 
   Node.mk 184 0 (-1) (-1) (-1), Node.mk 185 0 (-1) (-1) (-1), Node.mk 186 0 (-1) (-1) (-1), 
   Node.mk 187 0 (-1) (-1) (-1), Node.mk 188 0 (-1) (-1) (-1), Node.mk 189 0 (-1) (-1) (-1), 
   Node.mk 190 0 (-1) (-1) (-1), Node.mk 191 0 (-1) (-1) (-1)]

def cnA7 : List Node :=
  [Node.mk 192 0 (-1) (-1) (-1), Node.mk 193 0 (-1) (-1) (-1), Node.mk 194 0 (-1) (-1) (-1), 
   Node.mk 195 0 (-1) (-1) (-1), Node.mk 196 0 (-1) (-1) (-1), Node.mk 197 0 (-1) (-1) (-1), 
   Node.mk 198 0 (-1) (-1) (-1), Node.mk 199 0 (-1) (-1) (-1), Node.mk 200 1215 (-1) (-1) (-1), 
   Node.mk 201 0 (-1) (-1) (-1), Node.mk 202 0 (-1) (-1) (-1), Node.mk 203 0 (-1) (-1) (-1), 
   Node.mk 204 0 (-1) (-1) (-1), Node.mk 205 0 (-1) (-1) (-1), Node.mk 206 0 (-1) (-1) (-1), 
   Node.mk 207 0 (-1) (-1) (-1), Node.mk 208 0 (-1) (-1) (-1), Node.mk 209 0 (-1) (-1) (-1), 
   Node.mk 210 0 (-1) (-1) (-1), Node.mk 211 0 (-1) (-1) (-1), Node.mk 212 0 (-1) (-1) (-1), 
   Node.mk 213 0 (-1) (-1) (-1), Node.mk 214 0 (-1) (-1) (-1), Node.mk 215 0 (-1) (-1) (-1), 
   Node.mk 216 0 (-1) (-1) (-1), Node.mk 217 0 (-1) (-1) (-1), Node.mk 218 0 (-1) (-1) (-1), 
   Node.mk 219 0 (-1) (-1) (-1), Node.mk 220 0 (-1) (-1) (-1), Node.mk 221 0 (-1) (-1) (-1), 
   Node.mk 222 0 (-1) (-1) (-1), Node.mk 223 0 (-1) (-1) (-1)]

def cnA8 : List Node :=
  [Node.mk 224 0 (-1) (-1) (-1), Node.mk 225 0 (-1) (-1) (-1), Node.mk 226 0 (-1) (-1) (-1), 
   Node.mk 227 0 (-1) (-1) (-1), Node.mk 228 0 (-1) (-1) (-1), Node.mk 229 0 (-1) (-1) (-1), 
   Node.mk 230 0 (-1) (-1) (-1), Node.mk 231 0 (-1) (-1) (-1), Node.mk 232 0 (-1) (-1) (-1), 
   Node.mk 233 0 (-1) (-1) (-1), Node.mk 234 0 (-1) (-1) (-1), Node.mk 235 0 (-1) (-1) (-1), 
   Node.mk 236 0 (-1) (-1) (-1), Node.mk 237 0 (-1) (-1) (-1), Node.mk 238 0 (-1) (-1) (-1), 
   Node.mk 239 0 (-1) (-1) (-1), Node.mk 240 0 (-1) (-1) (-1), Node.mk 241 0 (-1) (-1) (-1), 
   Node.mk 242 0 (-1) (-1) (-1), Node.mk 243 0 (-1) (-1) (-1), Node.mk 244 0 (-1) (-1) (-1), 
   Node.mk 245 0 (-1) (-1) (-1), Node.mk 246 0 (-1) (-1) (-1), Node.mk 247 0 (-1) (-1) (-1), 
   Node.mk 248 0 (-1) (-1) (-1), Node.mk 249 0 (-1) (-1) (-1), Node.mk 250 0 (-1) (-1) (-1), 
   Node.mk 251 0 (-1) (-1) (-1), Node.mk 252 0 (-1) (-1) (-1), Node.mk 253 0 (-1) (-1) (-1), 
   Node.mk 254 0 (-1) (-1) (-1), Node.mk 255 0 (-1) (-1) (-1)]


theorem insertionSort_eq_foldr (l : List Node) :
    List.insertionSort freqLE l = l.foldr (List.orderedInsert freqLE) [] := by
  induction l with
  | nil => rfl
  | cons a l ih => rw [List.insertionSort, List.foldr_cons, ih]

theorem cn_chunks : (List.range 256).map (fun v =>
      (⟨Int.ofNat v, if v < 172 then 1 else if v = 200 then 1215 else 0,
        -1, -1, -1⟩ : Node)) =
    cnA1 ++ (cnA2 ++ (cnA3 ++ (cnA4 ++ (cnA5 ++ (cnA6 ++ (cnA7 ++ cnA8)))))) := by
  decide

theorem sortStep8 : cnA8.foldr (List.orderedInsert freqLE) [] = sortS1 := by decide
theorem sortStep7 : cnA7.foldr (List.orderedInsert freqLE) sortS1 = sortS2 := by decide
theorem sortStep6 : cnA6.foldr (List.orderedInsert freqLE) sortS2 = sortS3 := by decide
theorem sortStep5 : cnA5.foldr (List.orderedInsert freqLE) sortS3 = sortS4 := by decide
theorem sortStep4 : cnA4.foldr (List.orderedInsert freqLE) sortS4 = sortS5 := by decide
theorem sortStep3 : cnA3.foldr (List.orderedInsert freqLE) sortS5 = sortS6 := by decide
theorem sortStep2 : cnA2.foldr (List.orderedInsert freqLE) sortS6 = sortS7 := by decide
theorem sortStep1 : cnA1.foldr (List.orderedInsert freqLE) sortS7 = sortS8 := by decide

theorem sort_bigB : List.insertionSort freqLE (countNodes bigB) = sortS8 := by
  rw [countNodes_bigB, insertionSort_eq_foldr, cn_chunks]
  rw [List.foldr_append, List.foldr_append, List.foldr_append, List.foldr_append,
    List.foldr_append, List.foldr_append, List.foldr_append]
  rw [sortStep8, sortStep7, sortStep6, sortStep5, sortStep4, sortStep3,
    sortStep2, sortStep1]

def bigNL : List Node :=
  [Node.mk 0 1 (-1) (-1) (-1), Node.mk 1 1 (-1) (-1) (-1), Node.mk 2 1 (-1) (-1) (-1), 
   Node.mk 3 1 (-1) (-1) (-1), Node.mk 4 1 (-1) (-1) (-1), Node.mk 5 1 (-1) (-1) (-1), 
   Node.mk 6 1 (-1) (-1) (-1), Node.mk 7 1 (-1) (-1) (-1), Node.mk 8 1 (-1) (-1) (-1), 
   Node.mk 9 1 (-1) (-1) (-1), Node.mk 10 1 (-1) (-1) (-1), Node.mk 11 1 (-1) (-1) (-1), 
   Node.mk 12 1 (-1) (-1) (-1), Node.mk 13 1 (-1) (-1) (-1), Node.mk 14 1 (-1) (-1) (-1), 
   Node.mk 15 1 (-1) (-1) (-1), Node.mk 16 1 (-1) (-1) (-1), Node.mk 17 1 (-1) (-1) (-1), 
   Node.mk 18 1 (-1) (-1) (-1), Node.mk 19 1 (-1) (-1) (-1), Node.mk 20 1 (-1) (-1) (-1), 
   Node.mk 21 1 (-1) (-1) (-1), Node.mk 22 1 (-1) (-1) (-1), Node.mk 23 1 (-1) (-1) (-1), 
   Node.mk 24 1 (-1) (-1) (-1), Node.mk 25 1 (-1) (-1) (-1), Node.mk 26 1 (-1) (-1) (-1), 
   Node.mk 27 1 (-1) (-1) (-1), Node.mk 28 1 (-1) (-1) (-1), Node.mk 29 1 (-1) (-1) (-1), 
   Node.mk 30 1 (-1) (-1) (-1), Node.mk 31 1 (-1) (-1) (-1), Node.mk 32 1 (-1) (-1) (-1), 
   Node.mk 33 1 (-1) (-1) (-1), Node.mk 34 1 (-1) (-1) (-1), Node.mk 35 1 (-1) (-1) (-1), 
   Node.mk 36 1 (-1) (-1) (-1), Node.mk 37 1 (-1) (-1) (-1), Node.mk 38 1 (-1) (-1) (-1), 
   Node.mk 39 1 (-1) (-1) (-1), Node.mk 40 1 (-1) (-1) (-1), Node.mk 41 1 (-1) (-1) (-1), 
   Node.mk 42 1 (-1) (-1) (-1), Node.mk 43 1 (-1) (-1) (-1), Node.mk 44 1 (-1) (-1) (-1), 
   Node.mk 45 1 (-1) (-1) (-1), Node.mk 46 1 (-1) (-1) (-1), Node.mk 47 1 (-1) (-1) (-1), 
   Node.mk 48 1 (-1) (-1) (-1), Node.mk 49 1 (-1) (-1) (-1), Node.mk 50 1 (-1) (-1) (-1), 
   Node.mk 51 1 (-1) (-1) (-1), Node.mk 52 1 (-1) (-1) (-1), Node.mk 53 1 (-1) (-1) (-1), 
   Node.mk 54 1 (-1) (-1) (-1), Node.mk 55 1 (-1) (-1) (-1), Node.mk 56 1 (-1) (-1) (-1), 
   Node.mk 57 1 (-1) (-1) (-1), Node.mk 58 1 (-1) (-1) (-1), Node.mk 59 1 (-1) (-1) (-1), 
   Node.mk 60 1 (-1) (-1) (-1), Node.mk 61 1 (-1) (-1) (-1), Node.mk 62 1 (-1) (-1) (-1), 
   Node.mk 63 1 (-1) (-1) (-1), Node.mk 64 1 (-1) (-1) (-1), Node.mk 65 1 (-1) (-1) (-1), 
   Node.mk 66 1 (-1) (-1) (-1), Node.mk 67 1 (-1) (-1) (-1), Node.mk 68 1 (-1) (-1) (-1), 
   Node.mk 69 1 (-1) (-1) (-1), Node.mk 70 1 (-1) (-1) (-1), Node.mk 71 1 (-1) (-1) (-1), 
   Node.mk 72 1 (-1) (-1) (-1), Node.mk 73 1 (-1) (-1) (-1), Node.mk 74 1 (-1) (-1) (-1), 
   Node.mk 75 1 (-1) (-1) (-1), Node.mk 76 1 (-1) (-1) (-1), Node.mk 77 1 (-1) (-1) (-1), 
   Node.mk 78 1 (-1) (-1) (-1), Node.mk 79 1 (-1) (-1) (-1), Node.mk 80 1 (-1) (-1) (-1), 
   Node.mk 81 1 (-1) (-1) (-1), Node.mk 82 1 (-1) (-1) (-1), Node.mk 83 1 (-1) (-1) (-1), 
   Node.mk 84 1 (-1) (-1) (-1), Node.mk 85 1 (-1) (-1) (-1), Node.mk 86 1 (-1) (-1) (-1), 
   Node.mk 87 1 (-1) (-1) (-1), Node.mk 88 1 (-1) (-1) (-1), Node.mk 89 1 (-1) (-1) (-1), 
   Node.mk 90 1 (-1) (-1) (-1), Node.mk 91 1 (-1) (-1) (-1), Node.mk 92 1 (-1) (-1) (-1), 
   Node.mk 93 1 (-1) (-1) (-1), Node.mk 94 1 (-1) (-1) (-1), Node.mk 95 1 (-1) (-1) (-1), 
   Node.mk 96 1 (-1) (-1) (-1), Node.mk 97 1 (-1) (-1) (-1), Node.mk 98 1 (-1) (-1) (-1), 
   Node.mk 99 1 (-1) (-1) (-1), Node.mk 100 1 (-1) (-1) (-1), Node.mk 101 1 (-1) (-1) (-1), 
   Node.mk 102 1 (-1) (-1) (-1), Node.mk 103 1 (-1) (-1) (-1), Node.mk 104 1 (-1) (-1) (-1), 
   Node.mk 105 1 (-1) (-1) (-1), Node.mk 106 1 (-1) (-1) (-1), Node.mk 107 1 (-1) (-1) (-1), 
   Node.mk 108 1 (-1) (-1) (-1), Node.mk 109 1 (-1) (-1) (-1), Node.mk 110 1 (-1) (-1) (-1), 
   Node.mk 111 1 (-1) (-1) (-1), Node.mk 112 1 (-1) (-1) (-1), Node.mk 113 1 (-1) (-1) (-1), 
   Node.mk 114 1 (-1) (-1) (-1), Node.mk 115 1 (-1) (-1) (-1), Node.mk 116 1 (-1) (-1) (-1), 
   Node.mk 117 1 (-1) (-1) (-1), Node.mk 118 1 (-1) (-1) (-1), Node.mk 119 1 (-1) (-1) (-1), 
   Node.mk 120 1 (-1) (-1) (-1), Node.mk 121 1 (-1) (-1) (-1), Node.mk 122 1 (-1) (-1) (-1), 
   Node.mk 123 1 (-1) (-1) (-1), Node.mk 124 1 (-1) (-1) (-1), Node.mk 125 1 (-1) (-1) (-1), 
   Node.mk 126 1 (-1) (-1) (-1), Node.mk 127 1 (-1) (-1) (-1), Node.mk 128 1 (-1) (-1) (-1), 
   Node.mk 129 1 (-1) (-1) (-1), Node.mk 130 1 (-1) (-1) (-1), Node.mk 131 1 (-1) (-1) (-1), 
   Node.mk 132 1 (-1) (-1) (-1), Node.mk 133 1 (-1) (-1) (-1), Node.mk 134 1 (-1) (-1) (-1), 
   Node.mk 135 1 (-1) (-1) (-1), Node.mk 136 1 (-1) (-1) (-1), Node.mk 137 1 (-1) (-1) (-1), 
   Node.mk 138 1 (-1) (-1) (-1), Node.mk 139 1 (-1) (-1) (-1), Node.mk 140 1 (-1) (-1) (-1), 
   Node.mk 141 1 (-1) (-1) (-1), Node.mk 142 1 (-1) (-1) (-1), Node.mk 143 1 (-1) (-1) (-1), 
   Node.mk 144 1 (-1) (-1) (-1), Node.mk 145 1 (-1) (-1) (-1), Node.mk 146 1 (-1) (-1) (-1), 
   Node.mk 147 1 (-1) (-1) (-1), Node.mk 148 1 (-1) (-1) (-1), Node.mk 149 1 (-1) (-1) (-1), 
   Node.mk 150 1 (-1) (-1) (-1), Node.mk 151 1 (-1) (-1) (-1), Node.mk 152 1 (-1) (-1) (-1), 
   Node.mk 153 1 (-1) (-1) (-1), Node.mk 154 1 (-1) (-1) (-1), Node.mk 155 1 (-1) (-1) (-1), 
   Node.mk 156 1 (-1) (-1) (-1), Node.mk 157 1 (-1) (-1) (-1), Node.mk 158 1 (-1) (-1) (-1), 
   Node.mk 159 1 (-1) (-1) (-1), Node.mk 160 1 (-1) (-1) (-1), Node.mk 161 1 (-1) (-1) (-1), 
   Node.mk 162 1 (-1) (-1) (-1), Node.mk 163 1 (-1) (-1) (-1), Node.mk 164 1 (-1) (-1) (-1), 
   Node.mk 165 1 (-1) (-1) (-1), Node.mk 166 1 (-1) (-1) (-1), Node.mk 167 1 (-1) (-1) (-1), 
   Node.mk 168 1 (-1) (-1) (-1), Node.mk 169 1 (-1) (-1) (-1), Node.mk 170 1 (-1) (-1) (-1), 
   Node.mk 171 1 (-1) (-1) (-1), Node.mk 200 1215 (-1) (-1) (-1)]

def bigTree : List Node :=
  [Node.mk 427 1387 (-1) 426 200, Node.mk 200 1215 0 (-1) (-1), Node.mk 426 172 0 423 425, 
   Node.mk 425 108 2 422 424, Node.mk 423 64 2 421 420, Node.mk 424 64 3 419 418, 
   Node.mk 422 44 3 407 417, Node.mk 418 32 5 415 414, Node.mk 419 32 5 413 412, 
   Node.mk 420 32 4 411 410, Node.mk 421 32 4 409 408, Node.mk 417 28 6 406 416, 
   Node.mk 407 16 6 404 403, Node.mk 408 16 10 402 401, Node.mk 409 16 10 400 399, 
   Node.mk 410 16 9 398 397, Node.mk 411 16 9 396 395, Node.mk 412 16 8 394 393, 
   Node.mk 413 16 8 392 391, Node.mk 414 16 7 390 389, Node.mk 415 16 7 388 387, 
   Node.mk 416 16 11 386 385, Node.mk 406 12 11 342 405, Node.mk 385 8 21 384 383, 
   Node.mk 386 8 21 382 381, Node.mk 387 8 20 380 379, Node.mk 388 8 20 378 377, 
   Node.mk 389 8 19 376 375, Node.mk 390 8 19 374 373, Node.mk 391 8 18 372 371, 
   Node.mk 392 8 18 370 369, Node.mk 393 8 17 368 367, Node.mk 394 8 17 366 365, 
   Node.mk 395 8 16 364 363, Node.mk 396 8 16 362 361, Node.mk 397 8 15 360 359, 
   Node.mk 398 8 15 358 357, Node.mk 399 8 14 356 355, Node.mk 400 8 14 354 353, 
   Node.mk 401 8 13 352 351, Node.mk 402 8 13 350 349, Node.mk 403 8 12 348 347, 
   Node.mk 404 8 12 346 345, Node.mk 405 8 22 344 343, Node.mk 342 4 22 341 340, 
   Node.mk 343 4 43 339 338, Node.mk 344 4 43 337 336, Node.mk 345 4 42 335 334, 
   Node.mk 346 4 42 333 332, Node.mk 347 4 41 331 330, Node.mk 348 4 41 329 328, 
   Node.mk 349 4 40 327 326, Node.mk 350 4 40 325 324, Node.mk 351 4 39 323 322, 
   Node.mk 352 4 39 321 320, Node.mk 353 4 38 319 318, Node.mk 354 4 38 317 316, 
   Node.mk 355 4 37 315 314, Node.mk 356 4 37 313 312, Node.mk 357 4 36 311 310, 
   Node.mk 358 4 36 309 308, Node.mk 359 4 35 307 306, Node.mk 360 4 35 305 304, 
   Node.mk 361 4 34 303 302, Node.mk 362 4 34 301 300, Node.mk 363 4 33 299 298, 
   Node.mk 364 4 33 297 296, Node.mk 365 4 32 295 294, Node.mk 366 4 32 293 292, 
   Node.mk 367 4 31 291 290, Node.mk 368 4 31 289 288, Node.mk 369 4 30 287 286, 
   Node.mk 370 4 30 285 284, Node.mk 371 4 29 283 282, Node.mk 372 4 29 281 280, 
   Node.mk 373 4 28 279 278, Node.mk 374 4 28 277 276, Node.mk 375 4 27 275 274, 
   Node.mk 376 4 27 273 272, Node.mk 377 4 26 271 270, Node.mk 378 4 26 269 268, 
   Node.mk 379 4 25 267 266, Node.mk 380 4 25 265 264, Node.mk 381 4 24 263 262, 
   Node.mk 382 4 24 261 260, Node.mk 383 4 23 259 258, Node.mk 384 4 23 257 256, 
   Node.mk 256 2 86 0 1, Node.mk 257 2 86 2 3, Node.mk 258 2 85 4 5, Node.mk 259 2 85 6 7, 
   Node.mk 260 2 84 8 9, Node.mk 261 2 84 10 11, Node.mk 262 2 83 12 13, 
   Node.mk 263 2 83 14 15, Node.mk 264 2 82 16 17, Node.mk 265 2 82 18 19, 
   Node.mk 266 2 81 20 21, Node.mk 267 2 81 22 23, Node.mk 268 2 80 24 25, 
   Node.mk 269 2 80 26 27, Node.mk 270 2 79 28 29, Node.mk 271 2 79 30 31, 
   Node.mk 272 2 78 32 33, Node.mk 273 2 78 34 35, Node.mk 274 2 77 36 37, 
   Node.mk 275 2 77 38 39, Node.mk 276 2 76 40 41, Node.mk 277 2 76 42 43, 
   Node.mk 278 2 75 44 45, Node.mk 279 2 75 46 47, Node.mk 280 2 74 48 49, 
   Node.mk 281 2 74 50 51, Node.mk 282 2 73 52 53, Node.mk 283 2 73 54 55, 
   Node.mk 284 2 72 56 57, Node.mk 285 2 72 58 59, Node.mk 286 2 71 60 61, 
   Node.mk 287 2 71 62 63, Node.mk 288 2 70 64 65, Node.mk 289 2 70 66 67, 
   Node.mk 290 2 69 68 69, Node.mk 291 2 69 70 71, Node.mk 292 2 68 72 73, 
   Node.mk 293 2 68 74 75, Node.mk 294 2 67 76 77, Node.mk 295 2 67 78 79, 
   Node.mk 296 2 66 80 81, Node.mk 297 2 66 82 83, Node.mk 298 2 65 84 85, 
   Node.mk 299 2 65 86 87, Node.mk 300 2 64 88 89, Node.mk 301 2 64 90 91, 
   Node.mk 302 2 63 92 93, Node.mk 303 2 63 94 95, Node.mk 304 2 62 96 97, 
   Node.mk 305 2 62 98 99, Node.mk 306 2 61 100 101, Node.mk 307 2 61 102 103, 
   Node.mk 308 2 60 104 105, Node.mk 309 2 60 106 107, Node.mk 310 2 59 108 109, 
   Node.mk 311 2 59 110 111, Node.mk 312 2 58 112 113, Node.mk 313 2 58 114 115, 
   Node.mk 314 2 57 116 117, Node.mk 315 2 57 118 119, Node.mk 316 2 56 120 121, 
   Node.mk 317 2 56 122 123, Node.mk 318 2 55 124 125, Node.mk 319 2 55 126 127, 
   Node.mk 320 2 54 128 129, Node.mk 321 2 54 130 131, Node.mk 322 2 53 132 133, 
   Node.mk 323 2 53 134 135, Node.mk 324 2 52 136 137, Node.mk 325 2 52 138 139, 
   Node.mk 326 2 51 140 141, Node.mk 327 2 51 142 143, Node.mk 328 2 50 144 145, 
   Node.mk 329 2 50 146 147, Node.mk 330 2 49 148 149, Node.mk 331 2 49 150 151, 
   Node.mk 332 2 48 152 153, Node.mk 333 2 48 154 155, Node.mk 334 2 47 156 157, 
   Node.mk 335 2 47 158 159, Node.mk 336 2 46 160 161, Node.mk 337 2 46 162 163, 
   Node.mk 338 2 45 164 165, Node.mk 339 2 45 166 167, Node.mk 340 2 44 168 169, 
   Node.mk 341 2 44 170 171, Node.mk 171 1 172 (-1) (-1), Node.mk 170 1 172 (-1) (-1), 
   Node.mk 169 1 171 (-1) (-1), Node.mk 168 1 171 (-1) (-1), Node.mk 167 1 170 (-1) (-1), 
   Node.mk 166 1 170 (-1) (-1), Node.mk 165 1 169 (-1) (-1), Node.mk 164 1 169 (-1) (-1), 
   Node.mk 163 1 168 (-1) (-1), Node.mk 162 1 168 (-1) (-1), Node.mk 161 1 167 (-1) (-1), 
   Node.mk 160 1 167 (-1) (-1), Node.mk 159 1 166 (-1) (-1), Node.mk 158 1 166 (-1) (-1), 
   Node.mk 157 1 165 (-1) (-1), Node.mk 156 1 165 (-1) (-1), Node.mk 155 1 164 (-1) (-1), 
   Node.mk 154 1 164 (-1) (-1), Node.mk 153 1 163 (-1) (-1), Node.mk 152 1 163 (-1) (-1), 
   Node.mk 151 1 162 (-1) (-1), Node.mk 150 1 162 (-1) (-1), Node.mk 149 1 161 (-1) (-1), 
   Node.mk 148 1 161 (-1) (-1), Node.mk 147 1 160 (-1) (-1), Node.mk 146 1 160 (-1) (-1), 
   Node.mk 145 1 159 (-1) (-1), Node.mk 144 1 159 (-1) (-1), Node.mk 143 1 158 (-1) (-1), 
   Node.mk 142 1 158 (-1) (-1), Node.mk 141 1 157 (-1) (-1), Node.mk 140 1 157 (-1) (-1), 
   Node.mk 139 1 156 (-1) (-1), Node.mk 138 1 156 (-1) (-1), Node.mk 137 1 155 (-1) (-1), 
   Node.mk 136 1 155 (-1) (-1), Node.mk 135 1 154 (-1) (-1), Node.mk 134 1 154 (-1) (-1), 
   Node.mk 133 1 153 (-1) (-1), Node.mk 132 1 153 (-1) (-1), Node.mk 131 1 152 (-1) (-1), 
   Node.mk 130 1 152 (-1) (-1), Node.mk 129 1 151 (-1) (-1), Node.mk 128 1 151 (-1) (-1), 
   Node.mk 127 1 150 (-1) (-1), Node.mk 126 1 150 (-1) (-1), Node.mk 125 1 149 (-1) (-1), 
   Node.mk 124 1 149 (-1) (-1), Node.mk 123 1 148 (-1) (-1), Node.mk 122 1 148 (-1) (-1), 
   Node.mk 121 1 147 (-1) (-1), Node.mk 120 1 147 (-1) (-1), Node.mk 119 1 146 (-1) (-1), 
   Node.mk 118 1 146 (-1) (-1), Node.mk 117 1 145 (-1) (-1), Node.mk 116 1 145 (-1) (-1), 
   Node.mk 115 1 144 (-1) (-1), Node.mk 114 1 144 (-1) (-1), Node.mk 113 1 143 (-1) (-1), 
   Node.mk 112 1 143 (-1) (-1), Node.mk 111 1 142 (-1) (-1), Node.mk 110 1 142 (-1) (-1), 
   Node.mk 109 1 141 (-1) (-1), Node.mk 108 1 141 (-1) (-1), Node.mk 107 1 140 (-1) (-1), 
   Node.mk 106 1 140 (-1) (-1), Node.mk 105 1 139 (-1) (-1), Node.mk 104 1 139 (-1) (-1), 
   Node.mk 103 1 138 (-1) (-1), Node.mk 102 1 138 (-1) (-1), Node.mk 101 1 137 (-1) (-1), 
   Node.mk 100 1 137 (-1) (-1), Node.mk 99 1 136 (-1) (-1), Node.mk 98 1 136 (-1) (-1), 
   Node.mk 97 1 135 (-1) (-1), Node.mk 96 1 135 (-1) (-1), Node.mk 95 1 134 (-1) (-1), 
   Node.mk 94 1 134 (-1) (-1), Node.mk 93 1 133 (-1) (-1), Node.mk 92 1 133 (-1) (-1), 
   Node.mk 91 1 132 (-1) (-1), Node.mk 90 1 132 (-1) (-1), Node.mk 89 1 131 (-1) (-1), 
   Node.mk 88 1 131 (-1) (-1), Node.mk 87 1 130 (-1) (-1), Node.mk 86 1 130 (-1) (-1), 
   Node.mk 85 1 129 (-1) (-1), Node.mk 84 1 129 (-1) (-1), Node.mk 83 1 128 (-1) (-1), 
   Node.mk 82 1 128 (-1) (-1), Node.mk 81 1 127 (-1) (-1), Node.mk 80 1 127 (-1) (-1), 
   Node.mk 79 1 126 (-1) (-1), Node.mk 78 1 126 (-1) (-1), Node.mk 77 1 125 (-1) (-1), 
   Node.mk 76 1 125 (-1) (-1), Node.mk 75 1 124 (-1) (-1), Node.mk 74 1 124 (-1) (-1), 
   Node.mk 73 1 123 (-1) (-1), Node.mk 72 1 123 (-1) (-1), Node.mk 71 1 122 (-1) (-1), 
   Node.mk 70 1 122 (-1) (-1), Node.mk 69 1 121 (-1) (-1), Node.mk 68 1 121 (-1) (-1), 
   Node.mk 67 1 120 (-1) (-1), Node.mk 66 1 120 (-1) (-1), Node.mk 65 1 119 (-1) (-1), 
   Node.mk 64 1 119 (-1) (-1), Node.mk 63 1 118 (-1) (-1), Node.mk 62 1 118 (-1) (-1), 
   Node.mk 61 1 117 (-1) (-1), Node.mk 60 1 117 (-1) (-1), Node.mk 59 1 116 (-1) (-1), 
   Node.mk 58 1 116 (-1) (-1), Node.mk 57 1 115 (-1) (-1), Node.mk 56 1 115 (-1) (-1), 
   Node.mk 55 1 114 (-1) (-1), Node.mk 54 1 114 (-1) (-1), Node.mk 53 1 113 (-1) (-1), 
   Node.mk 52 1 113 (-1) (-1), Node.mk 51 1 112 (-1) (-1), Node.mk 50 1 112 (-1) (-1), 
   Node.mk 49 1 111 (-1) (-1), Node.mk 48 1 111 (-1) (-1), Node.mk 47 1 110 (-1) (-1), 
   Node.mk 46 1 110 (-1) (-1), Node.mk 45 1 109 (-1) (-1), Node.mk 44 1 109 (-1) (-1), 
   Node.mk 43 1 108 (-1) (-1), Node.mk 42 1 108 (-1) (-1), Node.mk 41 1 107 (-1) (-1), 
   Node.mk 40 1 107 (-1) (-1), Node.mk 39 1 106 (-1) (-1), Node.mk 38 1 106 (-1) (-1), 
   Node.mk 37 1 105 (-1) (-1), Node.mk 36 1 105 (-1) (-1), Node.mk 35 1 104 (-1) (-1), 
   Node.mk 34 1 104 (-1) (-1), Node.mk 33 1 103 (-1) (-1), Node.mk 32 1 103 (-1) (-1), 
   Node.mk 31 1 102 (-1) (-1), Node.mk 30 1 102 (-1) (-1), Node.mk 29 1 101 (-1) (-1), 
   Node.mk 28 1 101 (-1) (-1), Node.mk 27 1 100 (-1) (-1), Node.mk 26 1 100 (-1) (-1), 
   Node.mk 25 1 99 (-1) (-1), Node.mk 24 1 99 (-1) (-1), Node.mk 23 1 98 (-1) (-1), 
   Node.mk 22 1 98 (-1) (-1), Node.mk 21 1 97 (-1) (-1), Node.mk 20 1 97 (-1) (-1), 
   Node.mk 19 1 96 (-1) (-1), Node.mk 18 1 96 (-1) (-1), Node.mk 17 1 95 (-1) (-1), 
   Node.mk 16 1 95 (-1) (-1), Node.mk 15 1 94 (-1) (-1), Node.mk 14 1 94 (-1) (-1), 
   Node.mk 13 1 93 (-1) (-1), Node.mk 12 1 93 (-1) (-1), Node.mk 11 1 92 (-1) (-1), 
   Node.mk 10 1 92 (-1) (-1), Node.mk 9 1 91 (-1) (-1), Node.mk 8 1 91 (-1) (-1), 
   Node.mk 7 1 90 (-1) (-1), Node.mk 6 1 90 (-1) (-1), Node.mk 5 1 89 (-1) (-1), 
   Node.mk 4 1 89 (-1) (-1), Node.mk 3 1 88 (-1) (-1), Node.mk 2 1 88 (-1) (-1), 
   Node.mk 1 1 87 (-1) (-1), Node.mk 0 1 87 (-1) (-1)]

def bigTbl : List Nat :=
  [0, 2, 1, 200, 0, 0, 0, 2, 1, 0, 3, 2, 0, 6, 5, 0, 3, 2, 0, 6, 5, 0, 13, 12, 0, 10, 9, 0, 7, 
   6, 0, 4, 3, 0, 11, 10, 0, 30, 29, 0, 27, 26, 0, 24, 23, 0, 21, 20, 0, 18, 17, 0, 15, 14, 0, 
   12, 11, 0, 9, 8, 0, 6, 5, 0, 3, 2, 0, 22, 21, 0, 63, 62, 0, 60, 59, 0, 57, 56, 0, 54, 53, 0, 
   51, 50, 0, 48, 47, 0, 45, 44, 0, 42, 41, 0, 39, 38, 0, 36, 35, 0, 33, 32, 0, 30, 29, 0, 27, 
   26, 0, 24, 23, 0, 21, 20, 0, 18, 17, 0, 15, 14, 0, 12, 11, 0, 9, 8, 0, 6, 5, 0, 3, 2, 0, 
   128, 127, 0, 125, 124, 0, 122, 121, 0, 119, 118, 0, 116, 115, 0, 113, 112, 0, 110, 109, 0, 
   107, 106, 0, 104, 103, 0, 101, 100, 0, 98, 97, 0, 95, 94, 0, 92, 91, 0, 89, 88, 0, 86, 85, 
   0, 83, 82, 0, 80, 79, 0, 77, 76, 0, 74, 73, 0, 71, 70, 0, 68, 67, 0, 65, 64, 0, 62, 61, 0, 
   59, 58, 0, 56, 55, 0, 53, 52, 0, 50, 49, 0, 47, 46, 0, 44, 43, 0, 41, 40, 0, 38, 37, 0, 35, 
   34, 0, 32, 31, 0, 29, 28, 0, 26, 25, 0, 23, 22, 0, 20, 19, 0, 17, 16, 0, 14, 13, 0, 11, 10, 
   0, 8, 7, 0, 5, 4, 0, 2, 1, 0, 1, 0, 0, 254, 253, 0, 251, 250, 0, 248, 247, 0, 245, 244, 0, 
   242, 241, 0, 239, 238, 0, 236, 235, 0, 233, 232, 0, 230, 229, 0, 227, 226, 0, 224, 223, 0, 
   221, 220, 0, 218, 217, 0, 215, 214, 0, 212, 211, 0, 209, 208, 0, 206, 205, 0, 203, 202, 0, 
   200, 199, 0, 197, 196, 0, 194, 193, 0, 191, 190, 0, 188, 187, 0, 185, 184, 0, 182, 181, 0, 
   179, 178, 0, 176, 175, 0, 173, 172, 0, 170, 169, 0, 167, 166, 0, 164, 163, 0, 161, 160, 0, 
   158, 157, 0, 155, 154, 0, 152, 151, 0, 149, 148, 0, 146, 145, 0, 143, 142, 0, 140, 139, 0, 
   137, 136, 0, 134, 133, 0, 131, 130, 0, 128, 127, 0, 125, 124, 0, 122, 121, 0, 119, 118, 0, 
   116, 115, 0, 113, 112, 0, 110, 109, 0, 107, 106, 0, 104, 103, 0, 101, 100, 0, 98, 97, 0, 95, 
   94, 0, 92, 91, 0, 89, 88, 0, 86, 85, 0, 83, 82, 0, 80, 79, 0, 77, 76, 0, 74, 73, 0, 71, 70, 
   0, 68, 67, 0, 65, 64, 0, 62, 61, 0, 59, 58, 0, 56, 55, 0, 53, 52, 0, 50, 49, 0, 47, 46, 0, 
   44, 43, 0, 41, 40, 0, 38, 37, 0, 35, 34, 0, 32, 31, 0, 29, 28, 0, 26, 25, 0, 23, 22, 0, 20, 
   19, 0, 17, 16, 0, 14, 13, 0, 11, 10, 0, 8, 7, 0, 5, 4, 0, 2, 1, 171, 0, 0, 170, 0, 0, 169, 
   0, 0, 168, 0, 0, 167, 0, 0, 166, 0, 0, 165, 0, 0, 164, 0, 0, 163, 0, 0, 162, 0, 0, 161, 0, 
   0, 160, 0, 0, 159, 0, 0, 158, 0, 0, 157, 0, 0, 156, 0, 0, 155, 0, 0, 154, 0, 0, 153, 0, 0, 
   152, 0, 0, 151, 0, 0, 150, 0, 0, 149, 0, 0, 148, 0, 0, 147, 0, 0, 146, 0, 0, 145, 0, 0, 144, 
   0, 0, 143, 0, 0, 142, 0, 0, 141, 0, 0, 140, 0, 0, 139, 0, 0, 138, 0, 0, 137, 0, 0, 136, 0, 
   0, 135, 0, 0, 134, 0, 0, 133, 0, 0, 132, 0, 0, 131, 0, 0, 130, 0, 0, 129, 0, 0, 128, 0, 0, 
   127, 0, 0, 126, 0, 0, 125, 0, 0, 124, 0, 0, 123, 0, 0, 122, 0, 0, 121, 0, 0, 120, 0, 0, 119, 
   0, 0, 118, 0, 0, 117, 0, 0, 116, 0, 0, 115, 0, 0, 114, 0, 0, 113, 0, 0, 112, 0, 0, 111, 0, 
   0, 110, 0, 0, 109, 0, 0, 108, 0, 0, 107, 0, 0, 106, 0, 0, 105, 0, 0, 104, 0, 0, 103, 0, 0, 
   102, 0, 0, 101, 0, 0, 100, 0, 0, 99, 0, 0, 98, 0, 0, 97, 0, 0, 96, 0, 0, 95, 0, 0, 94, 0, 0, 
   93, 0, 0, 92, 0, 0, 91, 0, 0, 90, 0, 0, 89, 0, 0, 88, 0, 0, 87, 0, 0, 86, 0, 0, 85, 0, 0, 
   84, 0, 0, 83, 0, 0, 82, 0, 0, 81, 0, 0, 80, 0, 0, 79, 0, 0, 78, 0, 0, 77, 0, 0, 76, 0, 0, 
   75, 0, 0, 74, 0, 0, 73, 0, 0, 72, 0, 0, 71, 0, 0, 70, 0, 0, 69, 0, 0, 68, 0, 0, 67, 0, 0, 
   66, 0, 0, 65, 0, 0, 64, 0, 0, 63, 0, 0, 62, 0, 0, 61, 0, 0, 60, 0, 0, 59, 0, 0, 58, 0, 0, 
   57, 0, 0, 56, 0, 0, 55, 0, 0, 54, 0, 0, 53, 0, 0, 52, 0, 0, 51, 0, 0, 50, 0, 0, 49, 0, 0, 
   48, 0, 0, 47, 0, 0, 46, 0, 0, 45, 0, 0, 44, 0, 0, 43, 0, 0, 42, 0, 0, 41, 0, 0, 40, 0, 0, 
   39, 0, 0, 38, 0, 0, 37, 0, 0, 36, 0, 0, 35, 0, 0, 34, 0, 0, 33, 0, 0, 32, 0, 0, 31, 0, 0, 
   30, 0, 0, 29, 0, 0, 28, 0, 0, 27, 0, 0, 26, 0, 0, 25, 0, 0, 24, 0, 0, 23, 0, 0, 22, 0, 0, 
   21, 0, 0, 20, 0, 0, 19, 0, 0, 18, 0, 0, 17, 0, 0, 16, 0, 0, 15, 0, 0, 14, 0, 0, 13, 0, 0, 
   12, 0, 0, 11, 0, 0, 10, 0, 0, 9, 0, 0, 8, 0, 0, 7, 0, 0, 6, 0, 0, 5, 0, 0, 4, 0, 0, 3, 0, 0, 
   2, 0, 0, 1, 0, 0, 0, 0, 0]


theorem bigNL_eq : build_node_list bigB = bigNL := by
  simp only [build_node_list, sort_bigB]
  decide


set_option maxHeartbeats 4000000 in
theorem bigTree_eq : build_node_tree bigB = bigTree := by
  simp only [build_node_tree, bigNL_eq]
  decide

set_option maxHeartbeats 4000000 in
theorem bigTbl_eq : decode_tree bigB = bigTbl := by
  simp only [decode_tree, bigTree_eq]
  decide

/-! ## The payload as a bit stream

`compress` writes single bits into the byte buffer; `bitAt` reads bit `k` of
a buffer in stream order (most significant bit of byte 0 first), matching
the decoder's descending bit mask. -/

/-- Bit `k` (MSB-first across bytes) of a byte buffer. -/
def bitAt (out : List Nat) (k : Nat) : Bool :=
  Nat.testBit (out.getD (k / 8) 0) (7 - k % 8)

/-- Leaf-to-root sequence of the is-right-child flags collected by the
encoder's walk (the bit emitted per step is `parent.right == value`). -/
def pathBits (tree : List Node) : Nat → Nat → List Bool
  | 0, _ => []
  | fuel + 1, idx =>
    let n := nodeAt tree idx
    if n.parent = -1 then []
    else ((nodeAt tree n.parent.toNat).right == n.value) ::
      pathBits tree fuel n.parent.toNat

/-- The Huffman code of arena slot `idx`, root-to-leaf (the reverse of the
walk order; the encoder compensates by writing backwards). -/
def codeOf (tree : List Node) (idx : Nat) : List Bool :=
  (pathBits tree tree.length idx).reverse

/-- The encoder cursor (`bytes`, `bits`) that will write stream position
`n - 1` next: the state of `compress`'s backward cursor with `n` bits still
to write. -/
def cursorOf (n : Nat) : Nat × Nat :=
  if n % 8 > 0 then (n / 8 + 1, 8 - n % 8) else (n / 8, 0)

theorem pathBits_length (tree : List Node) :
    ∀ fuel idx, (pathBits tree fuel idx).length = stepsToRoot tree fuel idx := by
  intro fuel
  induction fuel with
  | zero => intro idx; rfl
  | succ fuel ih =>
    intro idx
    simp only [pathBits, stepsToRoot, nodeAt]
    split
    · rfl
    · simp [ih, Nat.add_comm]

/-- `List.getD` through `List.set`. -/
theorem getD_set (l : List Nat) (i j : Nat) (a : Nat) :
    (l.set i a).getD j 0 = if i = j ∧ i < l.length then a else l.getD j 0 := by
  induction l generalizing i j with
  | nil => simp [List.set]
  | cons x xs ih =>
    cases i with
    | zero =>
      cases j <;> simp [List.set, List.getD]
    | succ i =>
      cases j with
      | zero => simp [List.set, List.getD]
      | succ j =>
        simp only [List.set, List.getD_cons_succ, ih, List.length_cons]
        by_cases h : i = j <;> simp [h]

theorem bitAt_replicate_zero (m k : Nat) : bitAt (List.replicate m 0) k = false := by
  unfold bitAt
  have : (List.replicate m 0).getD (k / 8) 0 = 0 := by
    rcases lt_or_le (k / 8) m with h | h
    · rw [List.getD_eq_getElem _ _ (by simpa using h)]
      simp
    · rw [List.getD_eq_default]
      simpa using h
  simp [this]

theorem cursorOf_fst (n : Nat) :
    (cursorOf n).1 = if n % 8 > 0 then n / 8 + 1 else n / 8 := by
  unfold cursorOf
  split
  · rfl
  · rfl

theorem cursorOf_snd (n : Nat) :
    (cursorOf n).2 = if n % 8 > 0 then 8 - n % 8 else 0 := by
  unfold cursorOf
  split
  · rfl
  · rfl

theorem cursorOf_byte (n : Nat) (h : 1 ≤ n) :
    (cursorOf n).1 - 1 = (n - 1) / 8 ∧ (cursorOf n).2 = 7 - (n - 1) % 8 := by
  rw [cursorOf_fst, cursorOf_snd]
  split_ifs <;> constructor <;> omega

theorem cursorOf_bits_lt (n : Nat) : (cursorOf n).2 < 8 := by
  rw [cursorOf_snd]
  split_ifs <;> omega

theorem cursorOf_pred_wrap (n : Nat) (h : 1 ≤ n) (hw : (cursorOf n).2 + 1 = 8) :
    cursorOf (n - 1) = ((cursorOf n).1 - 1, 0) := by
  rw [cursorOf_snd] at hw
  rw [Prod.ext_iff, cursorOf_fst, cursorOf_fst, cursorOf_snd]
  split_ifs at hw ⊢ <;> exact ⟨by omega, by omega⟩

theorem cursorOf_pred_nowrap (n : Nat) (h : 1 ≤ n)
    (hw : (cursorOf n).2 + 1 ≠ 8) :
    cursorOf (n - 1) = ((cursorOf n).1, (cursorOf n).2 + 1) := by
  rw [cursorOf_snd] at hw
  rw [Prod.ext_iff, cursorOf_fst, cursorOf_fst, cursorOf_snd, cursorOf_snd]
  split_ifs at hw ⊢ <;> exact ⟨by omega, by omega⟩

theorem bitAt_write (out : List Nat) (n : Nat) (h1 : 1 ≤ n)
    (h8 : n ≤ 8 * out.length) (k : Nat) :
    bitAt (out.set ((cursorOf n).1 - 1)
        ((out.getD ((cursorOf n).1 - 1) 0) ||| (1 <<< (cursorOf n).2))) k
      = if k = n - 1 then true else bitAt out k := by
  obtain ⟨hby, hbi⟩ := cursorOf_byte n h1
  rw [hby, hbi]
  have hlt : (n - 1) / 8 < out.length := by omega
  unfold bitAt
  rw [getD_set]
  by_cases hb : (n - 1) / 8 = k / 8
  · rw [if_pos ⟨hb, hlt⟩, Nat.one_shiftLeft, Nat.testBit_or]
    by_cases hk : k = n - 1
    · subst hk
      rw [if_pos rfl, Nat.testBit_two_pow_self]
      simp
    · have hne : (7 - (n - 1) % 8) ≠ (7 - k % 8) := fun he => hk (by omega)
      rw [if_neg hk, Nat.testBit_two_pow_of_ne hne, ← hb]
      simp
  · rw [if_neg (fun h => hb h.1)]
    rw [if_neg (fun hk => hb (by rw [hk]))]

theorem bytes_lt_of_set (out : List Nat) (i n : Nat)
    (hb : ∀ b ∈ out, b < 256) :
    ∀ b ∈ out.set i ((out.getD i 0) ||| (1 <<< (cursorOf n).2)), b < 256 := by
  intro b hbm
  rcases List.mem_or_eq_of_mem_set hbm with h | h
  · exact hb b h
  · subst h
    have h1 : out.getD i 0 < 256 := by
      rcases lt_or_le i out.length with h | h
      · rw [List.getD_eq_getElem _ _ h]
        exact hb _ (List.getElem_mem h)
      · rw [List.getD_eq_default]
        · norm_num
        · simpa using h
    have h2 : (1 <<< (cursorOf n).2) < 256 := by
      rw [Nat.one_shiftLeft]
      calc 2 ^ (cursorOf n).2 ≤ 2 ^ 7 :=
              Nat.pow_le_pow_right (by norm_num) (by have := cursorOf_bits_lt n; omega)
        _ < 256 := by norm_num
    have : (256 : Nat) = 2 ^ 8 := by norm_num
    rw [this] at h1 h2 ⊢
    exact Nat.or_lt_two_pow h1 h2

/-- What one leaf-to-root `encodeWalk` does to the buffer: starting at the
backward cursor with `n` bits still to write, it writes the walk's
`d = stepsToRoot` direction flags at stream positions `n-1` down to `n-d`
(so the reversed walk — the code, root-to-leaf — sits at `[n-d, n)` in
stream order), leaves every other bit alone, keeps the length, keeps bytes
below 256, and leaves the cursor at `cursorOf (n - d)`. -/
theorem encodeWalk_spec (tree : List Node) :
    ∀ (fuel idx : Nat) (out : List Nat) (n : Nat),
      stepsToRoot tree fuel idx ≤ n → n ≤ 8 * out.length →
      (∀ k, n - stepsToRoot tree fuel idx ≤ k → k < n → bitAt out k = false) →
      (encodeWalk tree fuel idx out (cursorOf n).1 (cursorOf n).2).2 =
          cursorOf (n - stepsToRoot tree fuel idx) ∧
      (encodeWalk tree fuel idx out (cursorOf n).1 (cursorOf n).2).1.length =
          out.length ∧
      ((∀ b ∈ out, b < 256) →
        ∀ b ∈ (encodeWalk tree fuel idx out (cursorOf n).1 (cursorOf n).2).1,
          b < 256) ∧
      (∀ k, bitAt (encodeWalk tree fuel idx out (cursorOf n).1 (cursorOf n).2).1 k =
        if n - stepsToRoot tree fuel idx ≤ k ∧ k < n
        then (pathBits tree fuel idx).getD (n - 1 - k) false
        else bitAt out k) := by
  intro fuel
  induction fuel with
  | zero =>
    intro idx out n _ _ _
    simp only [encodeWalk, stepsToRoot, Nat.sub_zero]
    refine ⟨by trivial, by trivial, fun h => h, fun k => ?_⟩
    rw [if_neg (by omega)]
  | succ fuel ih =>
    intro idx out n hd h8 hz
    by_cases hpar : (tree.getD idx defaultNode).parent = -1
    · simp only [encodeWalk, stepsToRoot, nodeAt, hpar, if_pos rfl, if_true,
        Nat.sub_zero]
      refine ⟨by trivial, by trivial, fun h => h, fun k => ?_⟩
      rw [if_neg (by omega)]
    · have hstep : stepsToRoot tree (fuel + 1) idx =
          1 + stepsToRoot tree fuel (tree.getD idx defaultNode).parent.toNat := by
        simp only [stepsToRoot]
        rw [if_neg hpar]
      have hpath : pathBits tree (fuel + 1) idx =
          ((tree.getD ((tree.getD idx defaultNode).parent.toNat) defaultNode).right
              == (tree.getD idx defaultNode).value) ::
            pathBits tree fuel ((tree.getD idx defaultNode).parent.toNat) := by
        simp only [pathBits, nodeAt]
        rw [if_neg hpar]
      have h1n : 1 ≤ n := by
        rw [hstep] at hd
        omega
      set j := (tree.getD idx defaultNode).parent.toNat with hj
      set Dir : Bool := ((tree.getD j defaultNode).right ==
        (tree.getD idx defaultNode).value) with hDir
      set d' := stepsToRoot tree fuel j with hd'
      set out' : List Nat :=
        if (tree.getD j defaultNode).right = (tree.getD idx defaultNode).value
        then out.set ((cursorOf n).1 - 1)
          ((out.getD ((cursorOf n).1 - 1) 0) ||| (1 <<< (cursorOf n).2))
        else out with hout'
      have hdn : stepsToRoot tree (fuel + 1) idx = 1 + d' := hstep
      have hlen' : out'.length = out.length := by
        rw [hout']
        split
        · simp
        · rfl
      have hbit' : ∀ k, bitAt out' k =
          if k = n - 1 then Dir else bitAt out k := by
        intro k
        rw [hout']
        by_cases hdir : (tree.getD j defaultNode).right =
            (tree.getD idx defaultNode).value
        · rw [if_pos hdir, bitAt_write out n h1n h8 k]
          have hDt : Dir = true := by
            rw [hDir, beq_iff_eq]
            exact hdir
          rw [hDt]
        · rw [if_neg hdir]
          have hDf : Dir = false := by
            rw [hDir, beq_eq_false_iff_ne]
            exact hdir
          by_cases hk : k = n - 1
          · rw [if_pos hk, hDf, hk]
            exact hz (n - 1) (by omega) (by omega)
          · rw [if_neg hk]
      have hb' : (∀ b ∈ out, b < 256) → ∀ b ∈ out', b < 256 := by
        intro hb
        rw [hout']
        split
        · exact bytes_lt_of_set out _ n hb
        · exact hb
      have hunf : encodeWalk tree (fuel + 1) idx out (cursorOf n).1 (cursorOf n).2
          = encodeWalk tree fuel j out' (cursorOf (n - 1)).1 (cursorOf (n - 1)).2 := by
        simp only [encodeWalk]
        rw [if_neg hpar]
        by_cases hw : (cursorOf n).2 + 1 = 8
        · rw [if_pos hw, cursorOf_pred_wrap n h1n hw]
        · rw [if_neg hw, cursorOf_pred_nowrap n h1n hw]
      have hrec := ih j out' (n - 1)
        (by rw [hstep] at hd; omega)
        (by rw [hlen']; omega)
        (by
          intro k hk1 hk2
          rw [hbit' k, if_neg (by omega)]
          exact hz k (by rw [hdn] at *; omega) (by omega))
      obtain ⟨ihc, ihl, ihb, ihbits⟩ := hrec
      rw [hunf, hdn]
      refine ⟨?_, ?_, ?_, ?_⟩
      · rw [ihc]
        congr 1
        omega
      · rw [ihl, hlen']
      · intro hb
        exact ihb (hb' hb)
      · intro k
        rw [ihbits k, hpath]
        by_cases hk1 : n - 1 - d' ≤ k ∧ k < n - 1
        · rw [if_pos hk1, if_pos (by omega)]
          have : n - 1 - k = (n - 1 - 1 - k) + 1 := by omega
          rw [this, List.getD_cons_succ]
        · rw [if_neg hk1, hbit' k]
          by_cases hk2 : k = n - 1
          · rw [if_pos hk2, if_pos (by omega), hk2]
            have : n - 1 - (n - 1) = 0 := by omega
            rw [this, List.getD_cons_zero]
          · rw [if_neg hk2, if_neg (by omega)]

theorem getD_reverse (l : List Bool) (i : Nat) (h : i < l.length) :
    l.reverse.getD i false = l.getD (l.length - 1 - i) false := by
  rw [List.getD_eq_getElem _ _ (by simpa using h),
    List.getD_eq_getElem _ _ (by omega), List.getElem_reverse]

theorem flatten_codes_length (tree : List Node) (r : List Nat) :
    ((r.reverse.map fun c => codeOf tree (leafIdxOf tree c)).flatten).length =
      depthSum tree r := by
  rw [List.length_flatten, List.map_map, depthSum]
  have : (List.map (List.length ∘ fun c => codeOf tree (leafIdxOf tree c))
      r.reverse).sum =
      (List.map (fun c => depthOf tree (leafIdxOf tree c)) r.reverse).sum := by
    congr 1
    apply List.map_congr_left
    intro c _
    simp only [Function.comp, codeOf, List.length_reverse, pathBits_length]
    rfl
  rw [this, List.map_reverse, List.sum_reverse]

/-- The backward compression fold over a symbol list `r` (the input in
reverse order): it fills stream positions `[n - depthSum r, n)` with the
concatenation of the codes of `r.reverse` (the input in its original order),
touching nothing else. -/
theorem encode_fold_spec (tree : List Node) :
    ∀ (r : List Nat) (out : List Nat) (n : Nat),
      depthSum tree r ≤ n → n ≤ 8 * out.length →
      (∀ k, n - depthSum tree r ≤ k → k < n → bitAt out k = false) →
      (r.foldl (fun st c =>
          encodeWalk tree tree.length (leafIdxOf tree c) st.1 st.2.1 st.2.2)
          (out, cursorOf n)).2 = cursorOf (n - depthSum tree r) ∧
      (r.foldl (fun st c =>
          encodeWalk tree tree.length (leafIdxOf tree c) st.1 st.2.1 st.2.2)
          (out, cursorOf n)).1.length = out.length ∧
      ((∀ b ∈ out, b < 256) →
        ∀ b ∈ (r.foldl (fun st c =>
          encodeWalk tree tree.length (leafIdxOf tree c) st.1 st.2.1 st.2.2)
          (out, cursorOf n)).1, b < 256) ∧
      (∀ k, bitAt (r.foldl (fun st c =>
          encodeWalk tree tree.length (leafIdxOf tree c) st.1 st.2.1 st.2.2)
          (out, cursorOf n)).1 k =
        if n - depthSum tree r ≤ k ∧ k < n
        then ((r.reverse.map fun c => codeOf tree (leafIdxOf tree c)).flatten).getD
          (k - (n - depthSum tree r)) false
        else bitAt out k) := by
  intro r
  induction r with
  | nil =>
    intro out n _ _ _
    simp only [List.foldl_nil, depthSum, List.map_nil, List.sum_nil, Nat.sub_zero]
    refine ⟨by trivial, by trivial, fun h => h, fun k => ?_⟩
    rw [if_neg (by omega)]
  | cons c r' ih =>
    intro out n hd h8 hz
    have hDsum : depthSum tree (c :: r') =
        depthOf tree (leafIdxOf tree c) + depthSum tree r' := by
      simp [depthSum]
    set d0 := depthOf tree (leafIdxOf tree c) with hd0
    set ds' := depthSum tree r' with hds'
    have hd0' : stepsToRoot tree tree.length (leafIdxOf tree c) = d0 := rfl
    rw [hDsum] at hd hz
    obtain ⟨ec, el, eb, ebits⟩ := encodeWalk_spec tree tree.length
      (leafIdxOf tree c) out n (by rw [hd0']; omega) h8
      (fun k hk1 hk2 => hz k (by rw [hd0'] at hk1; omega) hk2)
    rw [hd0'] at ec ebits
    set E := encodeWalk tree tree.length (leafIdxOf tree c) out
      (cursorOf n).1 (cursorOf n).2 with hEdef
    have hEsplit : E = (E.1, cursorOf (n - d0)) := by
      rw [← ec]
    simp only [List.foldl_cons]
    rw [← hEdef, hEsplit]
    obtain ⟨ic, il, ib, ibits⟩ := ih E.1 (n - d0)
      (by omega)
      (by rw [el]; omega)
      (by
        intro k hk1 hk2
        rw [ebits k, if_neg (by omega)]
        exact hz k (by omega) (by omega))
    have hflat : ((c :: r').reverse.map
          (fun c => codeOf tree (leafIdxOf tree c))).flatten =
        ((r'.reverse.map (fun c => codeOf tree (leafIdxOf tree c))).flatten)
          ++ codeOf tree (leafIdxOf tree c) := by
      rw [List.reverse_cons, List.map_append, List.flatten_append]
      simp
    have hflen : ((r'.reverse.map
        (fun c => codeOf tree (leafIdxOf tree c))).flatten).length = ds' :=
      flatten_codes_length tree r'
    refine ⟨?_, ?_, ?_, ?_⟩
    · rw [ic, hDsum]
      congr 1
      omega
    · rw [il, el]
    · intro hb
      exact ib (eb hb)
    · intro k
      rw [ibits k, hflat, hDsum]
      by_cases hA : n - d0 - ds' ≤ k ∧ k < n - d0
      · rw [if_pos hA, if_pos (by omega)]
        rw [List.getD_append _ _ _ _ (by rw [hflen]; omega)]
        congr 1
        omega
      · rw [if_neg hA, ebits k]
        by_cases hB : n - d0 ≤ k ∧ k < n
        · rw [if_pos hB, if_pos (by omega),
            List.getD_append_right _ _ _ _ (by rw [hflen]; omega)]
          rw [codeOf, getD_reverse _ _ (by rw [pathBits_length, hd0']; omega),
            pathBits_length, hd0']
          congr 1
          omega
        · rw [if_neg hB, if_neg (by omega)]

theorem depthSum_reverse (tree : List Node) (l : List Nat) :
    depthSum tree l.reverse = depthSum tree l := by
  rw [depthSum, depthSum, List.map_reverse, List.sum_reverse]

theorem totalBits_eq_depthSum (data : List Nat) :
    totalBits data = depthSum (build_node_tree data) data := rfl

theorem compress_eq_fold (data : List Nat) :
    compress data =
      (data.reverse.foldl (fun st c =>
        encodeWalk (build_node_tree data) (build_node_tree data).length
          (leafIdxOf (build_node_tree data) c) st.1 st.2.1 st.2.2)
        (List.replicate (totalBits data / 8 + 1) 0,
          cursorOf (totalBits data))).1 := by
  simp only [compress, compressed_size_info_closed]
  have h1 : ((if totalBits data % 8 > 0
      then (totalBits data / 8 + 1, 8 - totalBits data % 8)
      else (totalBits data / 8 + 1 - 1, 0) : Nat × Nat)) =
      cursorOf (totalBits data) := by
    unfold cursorOf
    by_cases h : totalBits data % 8 > 0
    · rw [if_pos h, if_pos h]
    · rw [if_neg h, if_neg h]
      have h2 : totalBits data / 8 + 1 - 1 = totalBits data / 8 := by omega
      rw [h2]
  rw [h1, Prod.mk.eta]

/-- The payload is exactly the concatenated Huffman codes of the input, in
order, packed MSB-first: `compress` has `total_bits/8 + 1` bytes, each below
256; bit `k` of the stream is bit `k` of the flattened code sequence for
`k < total_bits`, and the trailing slack bits are zero. -/
theorem compress_spec (data : List Nat) :
    (compress data).length = totalBits data / 8 + 1 ∧
    (∀ b ∈ compress data, b < 256) ∧
    (∀ k, bitAt (compress data) k =
      if k < totalBits data
      then ((data.map fun c =>
          codeOf (build_node_tree data) (leafIdxOf (build_node_tree data) c)).flatten).getD
          k false
      else false) := by
  obtain ⟨fc, fl, fb, fbits⟩ := encode_fold_spec (build_node_tree data)
    data.reverse (List.replicate (totalBits data / 8 + 1) 0) (totalBits data)
    (by rw [depthSum_reverse, ← totalBits_eq_depthSum])
    (by rw [List.length_replicate]; omega)
    (fun k _ _ => bitAt_replicate_zero _ k)
  have hds0 : depthSum (build_node_tree data) data.reverse = totalBits data := by
    rw [depthSum_reverse, ← totalBits_eq_depthSum]
  rw [hds0] at fc fbits
  refine ⟨?_, ?_, ?_⟩
  · rw [compress_eq_fold, fl, List.length_replicate]
  · rw [compress_eq_fold]
    exact fb (fun b hb => by
      rw [List.eq_of_mem_replicate hb]
      norm_num)
  · intro k
    rw [compress_eq_fold, fbits k, List.reverse_reverse]
    by_cases hk : k < totalBits data
    · rw [if_pos ⟨by omega, hk⟩, if_pos hk]
      congr 1
      omega
    · rw [if_neg (by omega), if_neg hk]
      exact bitAt_replicate_zero _ k

/-! ## Reading the serialized decode table -/

theorem flatMap_three_length (g : Nat → List Nat) (hg : ∀ i, (g i).length = 3) :
    ∀ Tn, ((List.range Tn).flatMap g).length = 3 * Tn := by
  intro Tn
  induction Tn with
  | zero => rfl
  | succ Tn ih =>
    rw [List.range_succ, List.flatMap_append, List.length_append, ih]
    simp [hg Tn]
    omega

theorem flatMap_three_getD (g : Nat → List Nat) (hg : ∀ i, (g i).length = 3) :
    ∀ Tn i k, i < Tn → k < 3 →
      ((List.range Tn).flatMap g).getD (3 * i + k) 0 = (g i).getD k 0 := by
  intro Tn
  induction Tn with
  | zero => intro i k h; omega
  | succ Tn ih =>
    intro i k hi hk
    rw [List.range_succ, List.flatMap_append]
    rcases Nat.lt_or_ge i Tn with h | h
    · rw [List.getD_append _ _ _ _ (by rw [flatMap_three_length g hg]; omega)]
      exact ih i k h hk
    · have hieq : i = Tn := by omega
      subst hieq
      rw [List.getD_append_right _ _ _ _
        (by rw [flatMap_three_length g hg]; omega)]
      rw [flatMap_three_length g hg]
      simp only [List.flatMap_cons, List.flatMap_nil, List.append_nil]
      congr 1
      omega

/-- The three bytes of table entry `i`. -/
theorem decode_tree_getD (data : List Nat) (i k : Nat)
    (hi : i < (build_node_tree data).length) (hk : k < 3) :
    (decode_tree data).getD (3 * i + k) 0 =
      [if (nodeAt (build_node_tree data) i).value ≤ 255
        then (nodeAt (build_node_tree data) i).value.toNat else 0,
       if findChild (build_node_tree data) i
            (nodeAt (build_node_tree data) i).left < (build_node_tree data).length
        then (findChild (build_node_tree data) i
            (nodeAt (build_node_tree data) i).left - i) % 256 else 0,
       if findChild (build_node_tree data) i
            (nodeAt (build_node_tree data) i).right < (build_node_tree data).length
        then (findChild (build_node_tree data) i
            (nodeAt (build_node_tree data) i).right - i) % 256 else 0].getD k 0 := by
  simp only [decode_tree, nodeAt]
  refine flatMap_three_getD _ ?_ _ i k hi hk
  intro m
  rfl

theorem decode_tree_length (data : List Nat) :
    (decode_tree data).length = 3 * (build_node_tree data).length := by
  simp only [decode_tree]
  refine flatMap_three_length _ ?_ _
  intro m
  rfl

/-- Value-distinctness makes arena indexing by value injective. -/
theorem value_inj (tree : List Node) (hnd : (tree.map Node.value).Nodup)
    (i j : Nat) (hi : i < tree.length) (hj : j < tree.length)
    (hv : (nodeAt tree i).value = (nodeAt tree j).value) : i = j := by
  have hmi : i < (tree.map Node.value).length := by simpa using hi
  have hmj : j < (tree.map Node.value).length := by simpa using hj
  have hvv : (tree.map Node.value).get ⟨i, hmi⟩
      = (tree.map Node.value).get ⟨j, hmj⟩ := by
    rw [List.get_eq_getElem, List.get_eq_getElem, List.getElem_map,
      List.getElem_map]
    rw [nodeAt, nodeAt, List.getD_eq_getElem _ _ hi,
      List.getD_eq_getElem _ _ hj] at hv
    exact hv
  have hfe := (List.Nodup.get_inj_iff hnd).1 hvv
  exact congrArg Fin.val hfe

/-- `findChild` finds exactly the (unique, by value-distinctness) slot above
`i` holding the child value. -/
theorem findChild_eq (tree : List Node)
    (hnd : (tree.map Node.value).Nodup) (i j : Nat) (v : Int)
    (hij : i < j) (hj : j < tree.length) (hv : (nodeAt tree j).value = v) :
    findChild tree i v = j := by
  have hv' : tree[j].value = v := by
    rw [nodeAt, List.getD_eq_getElem _ _ hj] at hv
    exact hv
  unfold findChild
  have hfind : (tree.drop (i + 1)).findIdx? (fun m => m.value == v)
      = some (j - (i + 1)) := by
    rw [List.findIdx?_eq_some_iff_getElem]
    refine ⟨by rw [List.length_drop]; omega, ?_, ?_⟩
    · simp only [List.getElem_drop, beq_iff_eq]
      have hidx : i + 1 + (j - (i + 1)) = j := by omega
      simp only [hidx]
      exact hv'
    · intro m hm
      simp only [List.getElem_drop, beq_iff_eq]
      intro hcontra
      have hlt : i + 1 + m < tree.length := by omega
      have heq : (nodeAt tree (i + 1 + m)).value = (nodeAt tree j).value := by
        rw [nodeAt, nodeAt, List.getD_eq_getElem _ _ hlt,
          List.getD_eq_getElem _ _ hj, hcontra]
        exact hv'.symm
      have := value_inj tree hnd _ _ hlt hj heq
      omega
  rw [hfind]
  show i + 1 + (j - (i + 1)) = j
  omega

/-- No slot carries a negative value, so searching for the `-1` child
sentinel of a leaf fails and `findChild` returns the arena length. -/
theorem findChild_neg (tree : List Node)
    (hvnn : ∀ m, m < tree.length → 0 ≤ (nodeAt tree m).value)
    (i : Nat) (v : Int) (hv : v < 0) : findChild tree i v = tree.length := by
  unfold findChild
  have hnone : (tree.drop (i + 1)).findIdx? (fun m => m.value == v) = none := by
    rw [List.findIdx?_eq_none_iff]
    intro x hx
    obtain ⟨m, hm, hxm⟩ := List.mem_iff_getElem.1 (List.mem_of_mem_drop hx)
    have h0 : 0 ≤ x.value := by
      have := hvnn m hm
      rwa [nodeAt, List.getD_eq_getElem _ _ hm, hxm] at this
    simp only [beq_eq_false_iff_ne]
    intro hxe
    rw [hxe] at h0
    omega
  rw [hnone]

/-- All child-index distances of the arena fit the one-byte table slots: no
offset is truncated by the `% 256`.  (This fails once the input has about
130 distinct byte values or more, see the `bigB` counterexample.) -/
def offsetsFit (tree : List Node) : Prop :=
  ∀ i, i < tree.length →
    (findChild tree i (nodeAt tree i).left < tree.length →
      findChild tree i (nodeAt tree i).left - i < 256) ∧
    (findChild tree i (nodeAt tree i).right < tree.length →
      findChild tree i (nodeAt tree i).right - i < 256)

instance (tree : List Node) : Decidable (offsetsFit tree) := by
  unfold offsetsFit
  infer_instance

/-- Table bytes of a leaf entry: the byte value and two zero offsets. -/
theorem tbl_leaf (data : List Nat) {L N : Nat}
    (W : WfTree (build_node_tree data) L N) (i : Nat)
    (hi : i < (build_node_tree data).length)
    (hval : (nodeAt (build_node_tree data) i).value ≤ 255) :
    (decode_tree data).getD (3 * i) 0 =
        (nodeAt (build_node_tree data) i).value.toNat ∧
    (decode_tree data).getD (3 * i + 1) 0 = 0 ∧
    (decode_tree data).getD (3 * i + 2) 0 = 0 := by
  obtain ⟨hl, hr⟩ := W.leafIff i hi hval
  have h0 := decode_tree_getD data i 0 hi (by norm_num)
  have h1 := decode_tree_getD data i 1 hi (by norm_num)
  have h2 := decode_tree_getD data i 2 hi (by norm_num)
  rw [hl] at h1
  rw [hr] at h2
  rw [findChild_neg _ W.vnn i (-1) (by norm_num)] at h1 h2
  rw [Nat.add_zero] at h0
  refine ⟨?_, ?_, ?_⟩
  · rw [h0]
    simp only [List.getD_cons_zero, if_pos hval]
  · rw [h1]
    simp only [List.getD_cons_succ, List.getD_cons_zero, lt_self_iff_false,
      if_false]
  · rw [h2]
    simp only [List.getD_cons_succ, List.getD_cons_zero, lt_self_iff_false,
      if_false]

/-- Table bytes of an internal entry under `offsetsFit`: positive in-range
distances to the two child slots. -/
theorem tbl_internal (data : List Nat) {L N : Nat}
    (W : WfTree (build_node_tree data) L N)
    (hfit : offsetsFit (build_node_tree data)) (i : Nat)
    (hi : i < (build_node_tree data).length)
    (hval : 256 ≤ (nodeAt (build_node_tree data) i).value) :
    ∃ jl jr, i < jl ∧ jl < (build_node_tree data).length ∧
      i < jr ∧ jr < (build_node_tree data).length ∧
      (nodeAt (build_node_tree data) jl).value =
        (nodeAt (build_node_tree data) i).left ∧
      (nodeAt (build_node_tree data) jr).value =
        (nodeAt (build_node_tree data) i).right ∧
      (decode_tree data).getD (3 * i + 1) 0 = jl - i ∧
      (decode_tree data).getD (3 * i + 2) 0 = jr - i := by
  obtain ⟨jl, jr, hijl, hjl, hijr, hjr, hne, hvl, hvr, hfr⟩ :=
    W.childLink i hi hval
  have hfl : findChild (build_node_tree data) i
      (nodeAt (build_node_tree data) i).left = jl :=
    findChild_eq _ W.nodupV i jl _ hijl hjl hvl
  have hfr' : findChild (build_node_tree data) i
      (nodeAt (build_node_tree data) i).right = jr :=
    findChild_eq _ W.nodupV i jr _ hijr hjr hvr
  have hgetD1 : ∀ (a b c : Nat), ([a, b, c].getD 1 0) = b := fun _ _ _ => rfl
  have hgetD2 : ∀ (a b c : Nat), ([a, b, c].getD 2 0) = c := fun _ _ _ => rfl
  obtain ⟨hhl, hhr⟩ := hfit i hi
  rw [hfl] at hhl
  rw [hfr'] at hhr
  refine ⟨jl, jr, hijl, hjl, hijr, hjr, hvl, hvr, ?_, ?_⟩
  · have h1 := decode_tree_getD data i 1 hi (by norm_num)
    rw [hfl, hgetD1] at h1
    rw [h1, if_pos hjl]
    exact Nat.mod_eq_of_lt (hhl hjl)
  · have h2 := decode_tree_getD data i 2 hi (by norm_num)
    rw [hfr', hgetD2] at h2
    rw [h2, if_pos hjr]
    exact Nat.mod_eq_of_lt (hhr hjr)

/-! ## Following codes through the table -/

/-- The decoder's move: from entry `i`, bit `b` selects the right (`true`)
or left (`false`) child slot. -/
def childOf (tree : List Node) (i : Nat) (b : Bool) : Nat :=
  if b then findChild tree i (nodeAt tree i).right
  else findChild tree i (nodeAt tree i).left

/-- Iterated decoder moves along a bit string. -/
def descend (tree : List Node) : List Bool → Nat → Nat
  | [], i => i
  | b :: cs, i => descend tree cs (childOf tree i b)

theorem descend_append (tree : List Node) :
    ∀ (cs : List Bool) (b : Bool) (i : Nat),
      descend tree (cs ++ [b]) i = childOf tree (descend tree cs i) b := by
  intro cs
  induction cs with
  | nil => intro b i; rfl
  | cons c cs ih =>
    intro b i
    rw [List.cons_append]
    exact ih b (childOf tree i c)

theorem pathBits_fuel {tree : List Node} {L N : Nat} (W : WfTree tree L N) :
    ∀ s, s < tree.length → ∀ f1 f2, s + 1 ≤ f1 → s + 1 ≤ f2 →
      pathBits tree f1 s = pathBits tree f2 s := by
  intro s
  induction s using Nat.strong_induction_on with
  | _ s ih =>
    intro hs f1 f2 h1 h2
    match f1, h1, f2, h2 with
    | f1 + 1, h1, f2 + 1, h2 =>
      simp only [pathBits]
      by_cases hpar : (nodeAt tree s).parent = -1
      · rw [if_pos hpar, if_pos hpar]
      · rw [if_neg hpar, if_neg hpar]
        rcases Nat.eq_zero_or_pos s with rfl | hpos
        · exact absurd W.rootPar hpar
        obtain ⟨j, hjs, hpj, _⟩ := W.parentLink s hpos hs
        have hjn : (nodeAt tree s).parent.toNat = j := by
          rw [hpj]
          simp
        rw [hjn, ih j hjs (by omega) f1 f2 (by omega) (by omega)]

/-- The root is an internal node (its synthetic value is at least `0x100`):
were it a leaf, slot 1 could not have a parent. -/
theorem root_internal {tree : List Node} {L N : Nat} (W : WfTree tree L N)
    (hlen : 2 ≤ tree.length) : 256 ≤ (nodeAt tree 0).value := by
  by_contra h
  push_neg at h
  obtain ⟨hl, hr⟩ := W.leafIff 0 (by omega) (by omega)
  obtain ⟨j, hj1, hpj, hcl⟩ := W.parentLink 1 (by norm_num) (by omega)
  have hj0 : j = 0 := by omega
  subst hj0
  have hv1 : 0 ≤ (nodeAt tree 1).value := W.vnn 1 (by omega)
  rcases hcl with hc | hc
  · rw [hl] at hc
    omega
  · rw [hr] at hc
    omega

/-- A slot that claims a non-negative value is internal. -/
theorem claimant_internal {tree : List Node} {L N : Nat} (W : WfTree tree L N)
    (j : Nat) (hj : j < tree.length) (v : Int) (hv : 0 ≤ v)
    (hcl : Claims (nodeAt tree j) v) : 256 ≤ (nodeAt tree j).value := by
  by_contra h
  push_neg at h
  obtain ⟨hl, hr⟩ := W.leafIff j hj (by omega)
  rcases hcl with hc | hc
  · rw [hl] at hc
    omega
  · rw [hr] at hc
    omega

/-- Decomposition of a non-root slot's code: its parent's code followed by
the direction bit. -/
theorem codeOf_decomp {tree : List Node} {L N : Nat} (W : WfTree tree L N)
    (s : Nat) (hpos : 0 < s) (hs : s < tree.length) :
    ∃ j, j < s ∧ (nodeAt tree s).parent = (j : Int) ∧
      Claims (nodeAt tree j) (nodeAt tree s).value ∧
      codeOf tree s = codeOf tree j ++
        [((nodeAt tree j).right == (nodeAt tree s).value)] := by
  obtain ⟨j, hjs, hpj, hcl⟩ := W.parentLink s hpos hs
  refine ⟨j, hjs, hpj, hcl, ?_⟩
  have hlen1 : tree.length = (tree.length - 1) + 1 := by omega
  have hpar : ¬ (nodeAt tree s).parent = -1 := by
    rw [hpj]
    omega
  have hjn : (nodeAt tree s).parent.toNat = j := by
    rw [hpj]
    simp
  have hunf : pathBits tree tree.length s =
      ((nodeAt tree j).right == (nodeAt tree s).value) ::
        pathBits tree (tree.length - 1) j := by
    rw [hlen1]
    simp only [pathBits]
    rw [if_neg hpar, hjn]
    have h11 : tree.length - 1 + 1 - 1 = tree.length - 1 := by omega
    rw [h11]
  rw [codeOf, hunf, List.reverse_cons, codeOf]
  congr 1
  rw [pathBits_fuel W j (by omega) (tree.length - 1) tree.length (by omega)
    (by omega)]

/-- Following its own code from the root reaches each slot; every proper
prefix of the code parks at an internal slot. -/
theorem descend_code {tree : List Node} {L N : Nat} (W : WfTree tree L N) :
    ∀ s, s < tree.length →
      descend tree (codeOf tree s) 0 = s ∧
      ∀ jj, jj ≤ (codeOf tree s).length →
        descend tree ((codeOf tree s).take jj) 0 < tree.length ∧
        (jj < (codeOf tree s).length →
          256 ≤ (nodeAt tree (descend tree ((codeOf tree s).take jj) 0)).value) := by
  intro s
  induction s using Nat.strong_induction_on with
  | _ s ih =>
    intro hs
    by_cases hpar : (nodeAt tree s).parent = -1
    · have hs0 : s = 0 := by
        by_contra hne
        obtain ⟨j, _, hpj, _⟩ := W.parentLink s (by omega) hs
        rw [hpj] at hpar
        omega
      subst hs0
      have hcode : codeOf tree 0 = [] := by
        rw [codeOf]
        have hlen1 : tree.length = (tree.length - 1) + 1 := by omega
        rw [hlen1]
        simp only [pathBits]
        rw [if_pos hpar]
        rfl
      rw [hcode]
      refine ⟨rfl, ?_⟩
      intro jj hjj
      simp only [List.length_nil] at hjj
      have hjj0 : jj = 0 := by omega
      subst hjj0
      refine ⟨by simpa using hs, ?_⟩
      intro h
      simp at h
    · have hpos : 0 < s := by
        by_contra hne
        have hs0 : s = 0 := by omega
        subst hs0
        exact hpar W.rootPar
      obtain ⟨j, hjs, hpj, hcl, hdec⟩ := codeOf_decomp W s hpos hs
      have hjlen : j < tree.length := by omega
      obtain ⟨ihd, ihp⟩ := ih j hjs hjlen
      have hvs : 0 ≤ (nodeAt tree s).value := W.vnn s hs
      have hchild : childOf tree j
          ((nodeAt tree j).right == (nodeAt tree s).value) = s := by
        by_cases hd : (nodeAt tree j).right = (nodeAt tree s).value
        · have hb : ((nodeAt tree j).right == (nodeAt tree s).value) = true := by
            rw [beq_iff_eq]
            exact hd
          rw [hb, childOf, if_pos rfl]
          exact findChild_eq _ W.nodupV j s _ hjs hs hd.symm
        · have hb : ((nodeAt tree j).right == (nodeAt tree s).value) = false := by
            rw [beq_eq_false_iff_ne]
            exact hd
          rw [hb, childOf, if_neg (by simp)]
          have hleft : (nodeAt tree j).left = (nodeAt tree s).value := by
            rcases hcl with hc | hc
            · exact hc
            · exact absurd hc hd
          exact findChild_eq _ W.nodupV j s _ hjs hs hleft.symm
      refine ⟨?_, ?_⟩
      · rw [hdec, descend_append, ihd, hchild]
      · intro jj hjj
        rw [hdec] at hjj ⊢
        rw [List.length_append, List.length_cons, List.length_nil] at hjj
        rcases Nat.lt_or_ge jj ((codeOf tree j).length + 1) with hlt | hge
        · rcases Nat.lt_or_ge jj ((codeOf tree j).length) with hlt2 | hge2
          · rw [List.take_append_of_le_length (by omega)]
            obtain ⟨hp1, hp2⟩ := ihp jj (by omega)
            exact ⟨hp1, fun _ => hp2 hlt2⟩
          · have hjj_eq : jj = (codeOf tree j).length := by omega
            subst hjj_eq
            rw [List.take_append_of_le_length (le_refl _), List.take_length]
            refine ⟨?_, fun _ => ?_⟩
            · rw [ihd]
              exact hjlen
            · rw [ihd]
              exact claimant_internal W j hjlen _ hvs hcl
        · have hjj_eq : jj = (codeOf tree j).length + 1 := by omega
          subst hjj_eq
          have htk : ((codeOf tree j) ++
              [((nodeAt tree j).right == (nodeAt tree s).value)]).take
                ((codeOf tree j).length + 1) =
              (codeOf tree j) ++
                [((nodeAt tree j).right == (nodeAt tree s).value)] := by
            apply List.take_of_length_le
            rw [List.length_append, List.length_cons, List.length_nil]
          rw [htk, descend_append, ihd, hchild]
          refine ⟨hs, fun h => ?_⟩
          rw [List.length_append, List.length_cons, List.length_nil] at h
          omega

/-- One iteration of the decoder's do-while, phrased on stream positions:
with the cursor at bit `q`, the walk moves by the table offset selected by
bit `q` and advances the cursor to `q + 1`, stopping if the new entry's left
offset is zero. -/
theorem decodeWalk_step (bytes table : List Nat) (f node q : Nat) :
    decodeWalk bytes table (f + 1) node (q / 8) (2 ^ (7 - q % 8)) =
      (if table.getD ((node + (if bitAt bytes q then table.getD (node * 3 + 2) 0
            else table.getD (node * 3 + 1) 0)) * 3 + 1) 0 = 0
       then (node + (if bitAt bytes q then table.getD (node * 3 + 2) 0
            else table.getD (node * 3 + 1) 0), (q + 1) / 8, 2 ^ (7 - (q + 1) % 8))
       else decodeWalk bytes table f
         (node + (if bitAt bytes q then table.getD (node * 3 + 2) 0
            else table.getD (node * 3 + 1) 0)) ((q + 1) / 8)
         (2 ^ (7 - (q + 1) % 8))) := by
  simp only [decodeWalk]
  have hoff : (if bytes.getD (q / 8) 0 &&& 2 ^ (7 - q % 8) ≠ 0
      then table.getD (node * 3 + 2) 0 else table.getD (node * 3 + 1) 0) =
      (if bitAt bytes q then table.getD (node * 3 + 2) 0
       else table.getD (node * 3 + 1) 0) := by
    apply if_congr ?_ rfl rfl
    rw [bitAt, Nat.and_two_pow]
    cases h : (bytes.getD (q / 8) 0).testBit (7 - q % 8)
    · simp
    · simp
  have hpb : (if (2 : Nat) ^ (7 - q % 8) / 2 = 0 then (q / 8 + 1, 128)
      else (q / 8, 2 ^ (7 - q % 8) / 2)) = (((q + 1) / 8 : Nat),
        ((2 : Nat) ^ (7 - (q + 1) % 8))) := by
    by_cases h7 : q % 8 = 7
    · have e0 : 7 - q % 8 = 0 := by omega
      have e1 : (q + 1) / 8 = q / 8 + 1 := by omega
      have e2 : (q + 1) % 8 = 0 := by omega
      rw [e0, e1, e2]
      norm_num
    · have e2 : 7 - q % 8 = (7 - (q + 1) % 8) + 1 := by omega
      have e3 : (2 : Nat) ^ ((7 - (q + 1) % 8) + 1) / 2 = 2 ^ (7 - (q + 1) % 8) := by
        rw [pow_succ]
        exact Nat.mul_div_cancel _ (by norm_num)
      have e1 : (q + 1) / 8 = q / 8 := by omega
      rw [e2, e3, e1, if_neg (Nat.pos_iff_ne_zero.1 (Nat.pow_pos (by norm_num)))]
  rw [hoff, hpb]

/-- The decoder's table walk follows a root-to-leaf code: reading the bits
`cs` from position `q` of the payload, the walk started at the internal
entry `i` with `descend cs i = s` a leaf reaches exactly `s`, with the
cursor moved past the code. -/
theorem decodeWalk_code (data : List Nat) {L N : Nat}
    (W : WfTree (build_node_tree data) L N)
    (hfit : offsetsFit (build_node_tree data)) (bytes : List Nat) :
    ∀ (cs : List Bool) (f i s q : Nat),
      1 ≤ cs.length → cs.length ≤ f →
      i < (build_node_tree data).length →
      256 ≤ (nodeAt (build_node_tree data) i).value →
      descend (build_node_tree data) cs i = s →
      (∀ jj, 0 < jj → jj < cs.length →
        descend (build_node_tree data) (cs.take jj) i <
            (build_node_tree data).length ∧
          256 ≤ (nodeAt (build_node_tree data)
            (descend (build_node_tree data) (cs.take jj) i)).value) →
      s < (build_node_tree data).length →
      (nodeAt (build_node_tree data) s).value ≤ 255 →
      (∀ m, m < cs.length → bitAt bytes (q + m) = cs.getD m false) →
      decodeWalk bytes (decode_tree data) f i (q / 8) (2 ^ (7 - q % 8)) =
        (s, (q + cs.length) / 8, 2 ^ (7 - (q + cs.length) % 8)) := by
  intro cs
  induction cs with
  | nil =>
    intro f i s q h1
    simp at h1
  | cons b cs' ih =>
    intro f i s q h1 hf hi hint hdesc hmid hs hleaf hbits
    match f, hf with
    | f + 1, hf =>
      rw [decodeWalk_step]
      have hb0 : bitAt bytes q = b := by
        have := hbits 0 (by simp)
        simpa using this
      rw [hb0]
      obtain ⟨jl, jr, hijl, hjl, hijr, hjr, hvl, hvr, htl, htr⟩ :=
        tbl_internal data W hfit i hi hint
      have htl' : (decode_tree data).getD (i * 3 + 1) 0 = jl - i := by
        rw [Nat.mul_comm]
        exact htl
      have htr' : (decode_tree data).getD (i * 3 + 2) 0 = jr - i := by
        rw [Nat.mul_comm]
        exact htr
      have hfl : findChild (build_node_tree data) i
          (nodeAt (build_node_tree data) i).left = jl :=
        findChild_eq _ W.nodupV i jl _ hijl hjl hvl
      have hfr : findChild (build_node_tree data) i
          (nodeAt (build_node_tree data) i).right = jr :=
        findChild_eq _ W.nodupV i jr _ hijr hjr hvr
      have hchild : i + (if b then (decode_tree data).getD (i * 3 + 2) 0
          else (decode_tree data).getD (i * 3 + 1) 0) =
          childOf (build_node_tree data) i b := by
        cases b
        · rw [if_neg (by simp), htl', childOf, if_neg (by simp), hfl]
          omega
        · rw [if_pos rfl, htr', childOf, if_pos rfl, hfr]
          omega
      rw [hchild]
      cases cs' with
      | nil =>
        have hds : childOf (build_node_tree data) i b = s := by
          rw [← hdesc]
          rfl
        rw [hds]
        have hstop : (decode_tree data).getD (s * 3 + 1) 0 = 0 := by
          rw [Nat.mul_comm]
          exact (tbl_leaf data W s hs hleaf).2.1
        rw [if_pos hstop]
        simp
      | cons b2 cs'' =>
        have hi1 : descend (build_node_tree data) ((b :: b2 :: cs'').take 1) i =
            childOf (build_node_tree data) i b := rfl
        obtain ⟨hi1len, hi1int⟩ := hmid 1 (by norm_num) (by simp)
        rw [hi1] at hi1len hi1int
        obtain ⟨jl1, jr1, hijl1, hjl1, _, _, hvl1, _, htl1, _⟩ :=
          tbl_internal data W hfit _ hi1len hi1int
        have hstop : ¬ ((decode_tree data).getD
            (childOf (build_node_tree data) i b * 3 + 1) 0 = 0) := by
          rw [Nat.mul_comm, htl1]
          omega
        rw [if_neg hstop]
        have hrec := ih f (childOf (build_node_tree data) i b) s (q + 1)
          (by simp) (by simp at hf ⊢; omega) hi1len hi1int
          (by rw [← hdesc]; rfl)
          (by
            intro jj hjj1 hjj2
            have := hmid (jj + 1) (by omega) (by simp at hjj2 ⊢; omega)
            have htk : ((b :: b2 :: cs'').take (jj + 1)) =
                b :: ((b2 :: cs'').take jj) := rfl
            rw [htk] at this
            exact this)
          hs hleaf
          (by
            intro m hm
            have := hbits (m + 1) (by simp at hm ⊢; omega)
            have harith : q + (m + 1) = q + 1 + m := by omega
            rw [harith] at this
            simpa using this)
        rw [hrec]
        have harith : q + 1 + (b2 :: cs'').length = q + (b :: b2 :: cs'').length := by
          simp
          omega
        rw [harith]

/-! ## Gluing the encoder and the decoder together -/

theorem codeOf_length (tree : List Node) (idx : Nat) :
    (codeOf tree idx).length = depthOf tree idx := by
  rw [codeOf, List.length_reverse, pathBits_length, depthOf]

theorem depthSum_append2 (tree : List Node) (a b : List Nat) :
    depthSum tree (a ++ b) = depthSum tree a + depthSum tree b := by
  simp [depthSum]

theorem depthSum_take_succ (tree : List Node) (l : List Nat) (m : Nat)
    (hm : m < l.length) :
    depthSum tree (l.take (m + 1)) =
      depthSum tree (l.take m) + depthOf tree (leafIdxOf tree (l.getD m 0)) := by
  have ht : l.take (m + 1) = l.take m ++ [l.getD m 0] := by
    rw [List.take_succ, List.getElem?_eq_getElem hm,
      List.getD_eq_getElem _ _ hm]
    rfl
  rw [ht, depthSum_append2]
  simp [depthSum]

/-- Indexing the concatenated code stream: bit `t` of symbol `m`'s code sits
at stream position `depthSum (take m) + t`. -/
theorem flatten_codes_getD (tree : List Node) :
    ∀ (l : List Nat) (m t : Nat), m < l.length →
      t < (codeOf tree (leafIdxOf tree (l.getD m 0))).length →
      ((l.map fun c => codeOf tree (leafIdxOf tree c)).flatten).getD
          (depthSum tree (l.take m) + t) false
        = (codeOf tree (leafIdxOf tree (l.getD m 0))).getD t false := by
  intro l
  induction l with
  | nil =>
    intro m t hm
    simp at hm
  | cons c l ih =>
    intro m t hm ht
    cases m with
    | zero =>
      rw [List.map_cons, List.flatten_cons]
      have hds0 : depthSum tree ((c :: l).take 0) = 0 := by
        simp [depthSum]
      rw [hds0, Nat.zero_add]
      exact List.getD_append _ _ _ _ (by simpa using ht)
    | succ m =>
      have hm' : m < l.length := by simpa using hm
      have htk : (c :: l).take (m + 1 + 1) = c :: l.take (m + 1) := rfl
      have hds : depthSum tree ((c :: l).take (m + 1)) =
          depthOf tree (leafIdxOf tree c) + depthSum tree (l.take m) := by
        have h1 : (c :: l).take (m + 1) = c :: l.take m := rfl
        rw [h1]
        simp [depthSum]
      rw [List.map_cons, List.flatten_cons, hds]
      have hcl : (codeOf tree (leafIdxOf tree c)).length =
          depthOf tree (leafIdxOf tree c) := codeOf_length tree _
      rw [Nat.add_assoc,
        List.getD_append_right _ _ _ _ (by rw [hcl]; omega), hcl,
        Nat.add_sub_cancel_left]
      exact ih m t hm' (by simpa using ht)

theorem leafIdxOf_def (tree : List Node) (c : Nat) :
    leafIdxOf tree c = tree.findIdx fun n => n.value == (c : Int) := rfl

theorem findIdx_value (tree : List Node) (c : Nat)
    (hlt : tree.findIdx (fun n => n.value == (c : Int)) < tree.length) :
    (nodeAt tree (tree.findIdx fun n => n.value == (c : Int))).value =
      (c : Int) := by
  have hp := List.findIdx_getElem (p := fun n : Node => n.value == (c : Int))
    (w := hlt)
  simp only [beq_iff_eq] at hp
  rw [nodeAt, List.getD_eq_getElem _ _ hlt, hp]

theorem depthSum_take_le (tree : List Node) (l : List Nat) (m : Nat) :
    depthSum tree (l.take m) ≤ depthSum tree l := by
  conv_rhs => rw [← List.take_append_drop m l]
  rw [depthSum_append2]
  omega

/-- The leaf-lookup of an occurring byte succeeds and lands on the slot
carrying that byte's value. -/
theorem leafIdx_spec (data : List Nat) (h256 : ∀ x ∈ data, x < 256)
    (c : Nat) (hc : c ∈ data) :
    leafIdxOf (build_node_tree data) c < (build_node_tree data).length ∧
      (nodeAt (build_node_tree data)
        (leafIdxOf (build_node_tree data) c)).value = ((c : Nat) : Int) := by
  rw [leafIdxOf_def]
  obtain ⟨i, hi, hv⟩ := leaf_present data h256 c hc
  have hex : ∃ x ∈ build_node_tree data,
      (fun n => n.value == (c : Int)) x = true := by
    refine ⟨nodeAt (build_node_tree data) i, ?_, ?_⟩
    · rw [nodeAt, List.getD_eq_getElem _ _ hi]
      exact List.getElem_mem hi
    · simp only [beq_iff_eq]
      rw [hv]
      rfl
  have hlt : (build_node_tree data).findIdx
      (fun n => n.value == (c : Int)) < (build_node_tree data).length :=
    List.findIdx_lt_length_of_exists hex
  refine ⟨hlt, ?_⟩
  rw [findIdx_value (build_node_tree data) c hlt]

/-- Any non-root slot has positive depth. -/
theorem depth_pos {tree : List Node} {L N : Nat} (W : WfTree tree L N)
    (s : Nat) (h0 : 0 < s) (hs : s < tree.length) : 1 ≤ depthOf tree s := by
  obtain ⟨j, hjs, hpj, _⟩ := W.parentLink s h0 hs
  have hpar : ¬ (nodeAt tree s).parent = -1 := by
    rw [hpj]
    omega
  have hlen1 : tree.length = (tree.length - 1) + 1 := by omega
  rw [depthOf, hlen1, stepsToRoot]
  simp only [nodeAt] at hpar ⊢
  rw [if_neg hpar]
  omega

/-- The size walk from slot `s` takes at most `s` steps: parents sit at
strictly smaller indices. -/
theorem stepsToRoot_le {tree : List Node} {L N : Nat} (W : WfTree tree L N) :
    ∀ s, s < tree.length → ∀ f, s + 1 ≤ f → stepsToRoot tree f s ≤ s := by
  intro s
  induction s using Nat.strong_induction_on with
  | _ s ih =>
    intro hs f hf
    match f, hf with
    | f + 1, hf =>
      rw [stepsToRoot]
      by_cases hpar : (tree.getD s defaultNode).parent = -1
      · rw [if_pos hpar]
        omega
      · rw [if_neg hpar]
        have hspos : 0 < s := by
          by_contra h0
          have hs0 : s = 0 := by omega
          rw [hs0] at hpar
          exact hpar W.rootPar
        obtain ⟨j, hjs, hpj, _⟩ := W.parentLink s hspos hs
        have hjn : (tree.getD s defaultNode).parent.toNat = j := by
          have : (nodeAt tree s).parent = (j : Int) := hpj
          rw [nodeAt] at this
          rw [this]
          simp
        rw [hjn]
        have := ih j hjs (by omega) f (by omega)
        omega

theorem depthOf_le {tree : List Node} {L N : Nat} (W : WfTree tree L N)
    (s : Nat) (hs : s < tree.length) : depthOf tree s ≤ s :=
  stepsToRoot_le W s hs tree.length (by omega)

/-! ### The stored object in compressed mode -/

theorem storage_compressed (data : List Nat) (hcomp : 0 < bytes_saved data) :
    storage data = compress data ++ decode_tree data := by
  simp [storage, hcomp]

theorem compress_length (data : List Nat) :
    (compress data).length = totalBits data / 8 + 1 :=
  (compress_spec data).1

theorem objOf_stored (data : List Nat) : (objOf data).stored = storage data := by
  simp [objOf]

theorem objOf_paySize (data : List Nat) :
    (objOf data).paySize = totalBits data / 8 + 1 := by
  simp [objOf, compressed_size_info_closed]

theorem objOf_lastBits (data : List Nat) :
    (objOf data).lastBits = totalBits data % 8 := by
  simp [objOf, compressed_size_info_closed]

theorem objOf_isCompressed (data : List Nat) (hcomp : 0 < bytes_saved data) :
    (objOf data).isCompressed = true := by
  simp [objOf, hcomp]

theorem objOf_table (data : List Nat) (hcomp : 0 < bytes_saved data) :
    (objOf data).table = decode_tree data := by
  have h1 : (objOf data).table =
      (storage data).drop (compressed_size_info data).1 := by
    simp [objOf]
  rw [h1, storage_compressed data hcomp, compressed_size_info_closed]
  have h2 : ((totalBits data / 8 + 1, totalBits data % 8) : Nat × Nat).1
      = (compress data).length := by
    rw [compress_length]
  rw [h2]
  exact List.drop_left _ _

/-- Within the payload, a bit of the stored array is the corresponding bit
of the flattened code stream. -/
theorem storage_bitAt (data : List Nat) (hcomp : 0 < bytes_saved data)
    (k : Nat) (hk : k < totalBits data) :
    bitAt (storage data) k =
      ((data.map fun c => codeOf (build_node_tree data)
        (leafIdxOf (build_node_tree data) c)).flatten).getD k false := by
  rw [storage_compressed data hcomp]
  have hkb : k / 8 < (compress data).length := by
    rw [compress_length]
    have h1 : k / 8 ≤ totalBits data / 8 := Nat.div_le_div_right (le_of_lt hk)
    omega
  have hby : (compress data ++ decode_tree data).getD (k / 8) 0
      = (compress data).getD (k / 8) 0 := List.getD_append _ _ _ _ hkb
  have hcs := (compress_spec data).2.2 k
  rw [if_pos hk] at hcs
  show Nat.testBit ((compress data ++ decode_tree data).getD (k / 8) 0)
      (7 - k % 8) = _
  rw [hby]
  exact hcs

/-- A cursor strictly inside the payload is never the end cursor. -/
theorem not_end_cursor (data : List Nat) (hcomp : 0 < bytes_saved data)
    (q : Nat) (hq : q < totalBits data) :
    ¬ (q / 8 = endPos (objOf data) ∧
        2 ^ (7 - q % 8) = endBit (objOf data)) := by
  rintro ⟨h1, h2⟩
  rw [endPos, if_pos (objOf_isCompressed data hcomp), objOf_paySize] at h1
  rw [endBit, if_pos (objOf_isCompressed data hcomp), objOf_lastBits] at h2
  have h3 : 7 - q % 8 = 7 - totalBits data % 8 :=
    Nat.pow_right_injective (by norm_num) h2
  omega

/-! ### One `get_next` call consumes exactly one symbol -/

/-- `get_next` at the cursor that has consumed the codes of the first `m`
symbols: the table walk follows symbol `m`'s code, lands on its leaf, loads
its byte value and leaves the cursor after the code. -/
theorem getNext_step (data : List Nat) {L N : Nat}
    (W : WfTree (build_node_tree data) L N)
    (hfit : offsetsFit (build_node_tree data))
    (h256 : ∀ x ∈ data, x < 256) (hcomp : 0 < bytes_saved data)
    (m : Nat) (hm : m < data.length) (x : Int) :
    getNext (objOf data)
        ⟨depthSum (build_node_tree data) (data.take m) / 8,
         2 ^ (7 - depthSum (build_node_tree data) (data.take m) % 8), x⟩ =
      ⟨depthSum (build_node_tree data) (data.take (m + 1)) / 8,
       2 ^ (7 - depthSum (build_node_tree data) (data.take (m + 1)) % 8),
       Int.ofNat (data.getD m 0)⟩ := by
  have hc : data.getD m 0 ∈ data := by
    rw [List.getD_eq_getElem _ _ hm]
    exact List.getElem_mem hm
  obtain ⟨hllt, hlval⟩ := leafIdx_spec data h256 (data.getD m 0) hc
  have hclt : data.getD m 0 < 256 := h256 _ hc
  have hlen2 : 2 ≤ (build_node_tree data).length := by
    have := W.len
    have := W.hL
    omega
  have hroot : 256 ≤ (nodeAt (build_node_tree data) 0).value :=
    root_internal W hlen2
  have hlpos : 0 < leafIdxOf (build_node_tree data) (data.getD m 0) := by
    by_contra h0
    have h00 : leafIdxOf (build_node_tree data) (data.getD m 0) = 0 := by omega
    rw [h00] at hlval
    rw [hlval] at hroot
    omega
  have hleafv : (nodeAt (build_node_tree data)
      (leafIdxOf (build_node_tree data) (data.getD m 0))).value ≤ 255 := by
    rw [hlval]
    omega
  have hcl : (codeOf (build_node_tree data)
      (leafIdxOf (build_node_tree data) (data.getD m 0))).length =
      depthOf (build_node_tree data)
        (leafIdxOf (build_node_tree data) (data.getD m 0)) :=
    codeOf_length _ _
  have hdpos : 1 ≤ depthOf (build_node_tree data)
      (leafIdxOf (build_node_tree data) (data.getD m 0)) :=
    depth_pos W _ hlpos hllt
  have hsucc := depthSum_take_succ (build_node_tree data) data m hm
  have hqtb : depthSum (build_node_tree data) (data.take (m + 1)) ≤
      totalBits data := by
    rw [totalBits_eq_depthSum]
    exact depthSum_take_le _ _ _
  have hqlt : depthSum (build_node_tree data) (data.take m) < totalBits data := by
    omega
  have hdesc := descend_code W _ hllt
  have hfuel : (codeOf (build_node_tree data)
      (leafIdxOf (build_node_tree data) (data.getD m 0))).length ≤
      8 * (objOf data).stored.length + 16 := by
    have hst_len : (objOf data).stored.length =
        (compress data).length + (decode_tree data).length := by
      rw [objOf_stored, storage_compressed data hcomp, List.length_append]
    have htbl_len : (decode_tree data).length =
        3 * (build_node_tree data).length := decode_tree_length data
    have hdl := depthOf_le W _ hllt
    omega
  have hw := decodeWalk_code data W hfit (objOf data).stored
    (codeOf (build_node_tree data)
      (leafIdxOf (build_node_tree data) (data.getD m 0)))
    (8 * (objOf data).stored.length + 16) 0
    (leafIdxOf (build_node_tree data) (data.getD m 0))
    (depthSum (build_node_tree data) (data.take m))
    (by omega) hfuel (by omega) hroot (hdesc.1)
    (by
      intro jj hjj0 hjjl
      obtain ⟨ha, hb⟩ := hdesc.2 jj (le_of_lt hjjl)
      exact ⟨ha, hb hjjl⟩)
    hllt hleafv
    (by
      intro mm hmm
      rw [objOf_stored]
      rw [storage_bitAt data hcomp _ (by omega)]
      exact flatten_codes_getD (build_node_tree data) data m mm hm
        (by omega))
  have htbv := (tbl_leaf data W _ hllt hleafv).1
  have hmulc : leafIdxOf (build_node_tree data) (data.getD m 0) * 3 =
      3 * leafIdxOf (build_node_tree data) (data.getD m 0) := by omega
  have hcur : ((decode_tree data).getD
      (leafIdxOf (build_node_tree data) (data.getD m 0) * 3) 0 : Int) =
      Int.ofNat (data.getD m 0) := by
    rw [hmulc, htbv, hlval]
    rfl
  have hq1 : depthSum (build_node_tree data) (data.take m) +
      (codeOf (build_node_tree data)
        (leafIdxOf (build_node_tree data) (data.getD m 0))).length =
      depthSum (build_node_tree data) (data.take (m + 1)) := by
    omega
  rw [getNext, if_neg (not_end_cursor data hcomp _ hqlt),
    objOf_isCompressed data hcomp, if_pos rfl, objOf_table data hcomp, hw]
  simp only [hq1, hcur]

/-! ### Running the decoder over all symbols -/

theorem drop_cons_getD (l : List Nat) (m : Nat) (hm : m < l.length) :
    l.drop m = l.getD m 0 :: l.drop (m + 1) := by
  rw [List.getD_eq_getElem _ _ hm]
  exact List.drop_eq_getElem_cons hm

/-- Iterating `get_next` from the state that has just produced symbol `m`
yields the remaining input bytes verbatim. -/
theorem decodeOut_run (data : List Nat) {L N : Nat}
    (W : WfTree (build_node_tree data) L N)
    (hfit : offsetsFit (build_node_tree data))
    (h256 : ∀ x ∈ data, x < 256) (hcomp : 0 < bytes_saved data) :
    ∀ (k m : Nat), m + k + 1 = data.length →
      decodeOut (objOf data) (k + 1)
          ⟨depthSum (build_node_tree data) (data.take (m + 1)) / 8,
           2 ^ (7 - depthSum (build_node_tree data) (data.take (m + 1)) % 8),
           Int.ofNat (data.getD m 0)⟩ =
        (data.drop m).map Int.ofNat := by
  intro k
  induction k with
  | zero =>
    intro m hm
    rw [decodeOut, decodeOut]
    rw [drop_cons_getD data m (by omega), List.drop_eq_nil_of_le (by omega)]
    rfl
  | succ k ih =>
    intro m hm
    rw [decodeOut]
    rw [getNext_step data W hfit h256 hcomp (m + 1) (by omega) _]
    rw [ih (m + 1) (by omega)]
    rw [drop_cons_getD data m (by omega), List.map_cons]

/-- Round trip in compressed mode (assuming the offsets fit, see `bigB` for
the failure without that assumption). -/
theorem decodeAll_eq_of_fit (data : List Nat) {L N : Nat}
    (W : WfTree (build_node_tree data) L N)
    (hfit : offsetsFit (build_node_tree data))
    (h256 : ∀ x ∈ data, x < 256) (hcomp : 0 < bytes_saved data)
    (hne : data ≠ []) :
    decodeAll data = data.map Int.ofNat := by
  have hlen : 0 < data.length := List.length_pos.2 hne
  have hd0 : depthSum (build_node_tree data) (data.take 0) = 0 := by
    simp [depthSum]
  have hbegin : beginDecoder (objOf data) =
      ⟨depthSum (build_node_tree data) (data.take 1) / 8,
       2 ^ (7 - depthSum (build_node_tree data) (data.take 1) % 8),
       Int.ofNat (data.getD 0 0)⟩ := by
    rw [beginDecoder]
    have h := getNext_step data W hfit h256 hcomp 0 hlen (-1)
    rw [hd0] at h
    exact h
  rw [decodeAll, hbegin]
  have hlen1 : data.length = (data.length - 1) + 1 := by omega
  rw [hlen1, decodeOut_run data W hfit h256 hcomp (data.length - 1) 0
    (by omega), List.drop_zero]

/-! ### Iterating the decoder -/

/-- Iterated `get_next`. -/
def advance (o : HuffObj) : Nat → Decoder → Decoder
  | 0, d => d
  | n + 1, d => advance o n (getNext o d)

theorem advance_succ_back (o : HuffObj) :
    ∀ n d, advance o (n + 1) d = getNext o (advance o n d) := by
  intro n
  induction n with
  | zero => intro d; rfl
  | succ n ih =>
    intro d
    rw [show advance o (n + 1 + 1) d = advance o (n + 1) (getNext o d) from
      rfl, ih, show advance o (n + 1) d = advance o n (getNext o d) from rfl]

/-- The end-cursor check makes `get_next` a pure no-op on the position. -/
theorem getNext_at_end (o : HuffObj) (d : Decoder) (h1 : d.pos = endPos o)
    (h2 : d.bit = endBit o) : getNext o d = ⟨d.pos, d.bit, -1⟩ := by
  rw [getNext, if_pos ⟨h1, h2⟩]

theorem getNext_at_end_state (o : HuffObj) (x : Int) :
    getNext o ⟨endPos o, endBit o, x⟩ = ⟨endPos o, endBit o, -1⟩ := by
  rw [getNext, if_pos ⟨rfl, rfl⟩]

/-! ## The all-zero input: decode, exhaustion and table structure hold there
too, via the closed-form arena of `build_node_tree_all_zero` -/

theorem az_tree_length (data : List Nat) (hne : data ≠ [])
    (hz : ∀ c ∈ data, c = 0) : (build_node_tree data).length = 3 := by
  rw [build_node_tree_all_zero data hne hz]
  rfl

/-- The decode table of an all-zero input: the root at slot 0 points to the
value-0 leaf at distance 1 on both sides (the padding node has the same
value 0 and value search takes the first hit), and both leaf entries carry
zero offsets. -/
theorem az_table (data : List Nat) (hne : data ≠ [])
    (hz : ∀ c ∈ data, c = 0) :
    decode_tree data = [0, 1, 1, 0, 0, 0, 0, 0, 0] := by
  simp only [decode_tree, build_node_tree_all_zero data hne hz]
  rfl

theorem az_depth (data : List Nat) (hne : data ≠ [])
    (hz : ∀ c ∈ data, c = 0) :
    ∀ c ∈ data, depthOf (build_node_tree data)
      (leafIdxOf (build_node_tree data) c) = 1 := by
  intro c hc
  rw [hz c hc, build_node_tree_all_zero data hne hz]
  rfl

theorem depthSum_all_one (tree : List Node) :
    ∀ l : List Nat, (∀ c ∈ l, depthOf tree (leafIdxOf tree c) = 1) →
      depthSum tree l = l.length := by
  intro l
  induction l with
  | nil => intro _; rfl
  | cons c l ih =>
    intro h
    have h1 : depthSum tree (c :: l) =
        depthOf tree (leafIdxOf tree c) + depthSum tree l := by
      simp [depthSum]
    rw [h1, h c (by simp), ih (fun x hx => h x (by simp [hx])),
      List.length_cons]
    omega

theorem az_totalBits (data : List Nat) (hne : data ≠ [])
    (hz : ∀ c ∈ data, c = 0) : totalBits data = data.length := by
  rw [totalBits_eq_depthSum,
    depthSum_all_one (build_node_tree data) data (az_depth data hne hz)]

/-- One decoder step on the all-zero table: both offsets of the root entry
are 1, so any payload bit moves the walk to the leaf at slot 1 and stops. -/
theorem az_getNext_step (data : List Nat) (hne : data ≠ [])
    (hz : ∀ c ∈ data, c = 0) (hcomp : 0 < bytes_saved data)
    (m : Nat) (hm : m < data.length) (x : Int) :
    getNext (objOf data) ⟨m / 8, 2 ^ (7 - m % 8), x⟩ =
      ⟨(m + 1) / 8, 2 ^ (7 - (m + 1) % 8), Int.ofNat 0⟩ := by
  have hmtb : m < totalBits data := by
    rw [az_totalBits data hne hz]
    omega
  have hstep := decodeWalk_step (objOf data).stored
    ([0, 1, 1, 0, 0, 0, 0, 0, 0] : List Nat)
    (8 * (objOf data).stored.length + 15) 0 m
  have t1 : ([0, 1, 1, 0, 0, 0, 0, 0, 0] : List Nat).getD (0 * 3 + 1) 0 = 1 :=
    rfl
  have t2 : ([0, 1, 1, 0, 0, 0, 0, 0, 0] : List Nat).getD (0 * 3 + 2) 0 = 1 :=
    rfl
  have hc0 : ([0, 1, 1, 0, 0, 0, 0, 0, 0] : List Nat).getD
      ((0 + 1) * 3 + 1) 0 = 0 := rfl
  rw [t1, t2, ite_self, if_pos hc0] at hstep
  rw [getNext, if_neg (not_end_cursor data hcomp m hmtb),
    objOf_isCompressed data hcomp, if_pos rfl, objOf_table data hcomp,
    az_table data hne hz,
    show 8 * (objOf data).stored.length + 16 =
      (8 * (objOf data).stored.length + 15) + 1 from by omega, hstep]
  rfl

theorem az_decodeOut_run (data : List Nat) (hne : data ≠ [])
    (hz : ∀ c ∈ data, c = 0) (hcomp : 0 < bytes_saved data) :
    ∀ (k m : Nat), m + k + 1 = data.length →
      decodeOut (objOf data) (k + 1)
          ⟨(m + 1) / 8, 2 ^ (7 - (m + 1) % 8), Int.ofNat 0⟩ =
        (data.drop m).map Int.ofNat := by
  intro k
  induction k with
  | zero =>
    intro m hm
    have h0 : data.getD m 0 = 0 := by
      rw [List.getD_eq_getElem _ _ (by omega)]
      exact hz _ (List.getElem_mem _)
    rw [decodeOut, decodeOut, drop_cons_getD data m (by omega),
      List.drop_eq_nil_of_le (by omega), h0]
    rfl
  | succ k ih =>
    intro m hm
    have h0 : data.getD m 0 = 0 := by
      rw [List.getD_eq_getElem _ _ (by omega)]
      exact hz _ (List.getElem_mem _)
    rw [decodeOut, az_getNext_step data hne hz hcomp (m + 1) (by omega) _,
      ih (m + 1) (by omega), drop_cons_getD data m (by omega), List.map_cons,
      h0]

/-- Round trip on a compressed all-zero input. -/
theorem az_decodeAll (data : List Nat) (hne : data ≠ [])
    (hz : ∀ c ∈ data, c = 0) (hcomp : 0 < bytes_saved data) :
    decodeAll data = data.map Int.ofNat := by
  have hlen : 0 < data.length := List.length_pos.2 hne
  have hbegin : beginDecoder (objOf data) =
      ⟨(0 + 1) / 8, 2 ^ (7 - (0 + 1) % 8), Int.ofNat 0⟩ := by
    rw [beginDecoder]
    exact az_getNext_step data hne hz hcomp 0 hlen (-1)
  rw [decodeAll, hbegin,
    show data.length = (data.length - 1) + 1 from by omega,
    az_decodeOut_run data hne hz hcomp (data.length - 1) 0 (by omega),
    List.drop_zero]

theorem az_advance_run (data : List Nat) (hne : data ≠ [])
    (hz : ∀ c ∈ data, c = 0) (hcomp : 0 < bytes_saved data) :
    ∀ (k m : Nat), 1 ≤ m → m + k ≤ data.length →
      advance (objOf data) k ⟨m / 8, 2 ^ (7 - m % 8), Int.ofNat 0⟩ =
        ⟨(m + k) / 8, 2 ^ (7 - (m + k) % 8), Int.ofNat 0⟩ := by
  intro k
  induction k with
  | zero =>
    intro m h1 h2
    simp [advance]
  | succ k ih =>
    intro m h1 h2
    rw [advance, az_getNext_step data hne hz hcomp m (by omega) _]
    have hr := ih (m + 1) (by omega) (by omega)
    rw [show m + 1 + k = m + (k + 1) from by omega] at hr
    exact hr

/-- After all symbols of a compressed all-zero input the cursor is exactly
the end cursor. -/
theorem az_advance_all (data : List Nat) (hne : data ≠ [])
    (hz : ∀ c ∈ data, c = 0) (hcomp : 0 < bytes_saved data) :
    advance (objOf data) data.length ⟨0, 128, -1⟩ =
      ⟨endPos (objOf data), endBit (objOf data), Int.ofNat 0⟩ := by
  have hlen : 0 < data.length := List.length_pos.2 hne
  have hg : getNext (objOf data) ⟨0, 128, -1⟩ =
      ⟨1 / 8, 2 ^ (7 - 1 % 8), Int.ofNat 0⟩ :=
    az_getNext_step data hne hz hcomp 0 hlen (-1)
  have hdec : advance (objOf data) data.length ⟨0, 128, -1⟩ =
      advance (objOf data) (data.length - 1)
        (getNext (objOf data) ⟨0, 128, -1⟩) := by
    conv_lhs => rw [show data.length = (data.length - 1) + 1 from by omega]
    rfl
  rw [hdec, hg, az_advance_run data hne hz hcomp (data.length - 1) 1
    (by omega) (by omega),
    show 1 + (data.length - 1) = data.length from by omega]
  have hep : endPos (objOf data) = totalBits data / 8 := by
    rw [endPos, if_pos (objOf_isCompressed data hcomp), objOf_paySize]
    omega
  have heb : endBit (objOf data) = 2 ^ (7 - totalBits data % 8) := by
    rw [endBit, if_pos (objOf_isCompressed data hcomp), objOf_lastBits]
  rw [hep, heb, az_totalBits data hne hz]

theorem az_value_facts (data : List Nat) (hne : data ≠ [])
    (hz : ∀ c ∈ data, c = 0) :
    (nodeAt (build_node_tree data) 0).value = 256 ∧
    (nodeAt (build_node_tree data) 1).value = 0 ∧
    (nodeAt (build_node_tree data) 2).value = 0 ∧
    (nodeAt (build_node_tree data) 0).parent = -1 ∧
    (nodeAt (build_node_tree data) 1).parent = ((0 : Nat) : Int) ∧
    (nodeAt (build_node_tree data) 2).parent = ((0 : Nat) : Int) ∧
    depthOf (build_node_tree data) 0 = 0 ∧
    depthOf (build_node_tree data) 1 = 1 ∧
    depthOf (build_node_tree data) 2 = 1 := by
  rw [build_node_tree_all_zero data hne hz]
  exact ⟨rfl, rfl, rfl, rfl, rfl, rfl, rfl, rfl, rfl⟩

/-- The leaf-iff property of the decode table on an all-zero input. -/
theorem az_leaf_iff (data : List Nat) (hne : data ≠ [])
    (hz : ∀ c ∈ data, c = 0) :
    ∀ i, i < (build_node_tree data).length →
      (((decode_tree data).getD (3 * i + 1) 0 = 0) ↔
        ((decode_tree data).getD (3 * i + 2) 0 = 0)) ∧
      (((decode_tree data).getD (3 * i + 1) 0 = 0) ↔
        (nodeAt (build_node_tree data) i).value ≤ 255) := by
  obtain ⟨v0, v1, v2, _, _, _, _, _, _⟩ := az_value_facts data hne hz
  intro i hi
  rw [az_tree_length data hne hz] at hi
  rw [az_table data hne hz]
  interval_cases i
  · refine ⟨by norm_num, ?_⟩
    rw [v0]
    constructor
    · intro h
      norm_num at h
    · intro h
      omega
  · refine ⟨by norm_num, ?_⟩
    rw [v1]
    constructor
    · intro h
      norm_num
    · intro h
      norm_num
  · refine ⟨by norm_num, ?_⟩
    rw [v2]
    constructor
    · intro h
      norm_num
    · intro h
      norm_num

/-- The termination bundle on an all-zero input. -/
theorem az_termination (data : List Nat) (hne : data ≠ [])
    (hz : ∀ c ∈ data, c = 0) :
    (∀ i, 0 < i → i < (build_node_tree data).length →
      ∃ j, j < i ∧ (nodeAt (build_node_tree data) i).parent = (j : Int)) ∧
    (nodeAt (build_node_tree data) 0).parent = -1 ∧
    (∀ i, i < (build_node_tree data).length →
      depthOf (build_node_tree data) i ≤ i) ∧
    (∀ i, i < (build_node_tree data).length →
      256 ≤ (nodeAt (build_node_tree data) i).value →
      0 < (decode_tree data).getD (3 * i + 1) 0 ∧
      0 < (decode_tree data).getD (3 * i + 2) 0) ∧
    (∀ c ∈ data, depthOf (build_node_tree data)
        (leafIdxOf (build_node_tree data) c) ≤
      2 * (build_node_list data).length - 2) := by
  obtain ⟨v0, v1, v2, p0, p1, p2, d0, d1, d2⟩ := az_value_facts data hne hz
  refine ⟨?_, p0, ?_, ?_, ?_⟩
  · intro i h0i hi
    rw [az_tree_length data hne hz] at hi
    interval_cases i
    · exact ⟨0, Nat.zero_lt_one, p1⟩
    · exact ⟨0, by norm_num, p2⟩
  · intro i hi
    rw [az_tree_length data hne hz] at hi
    interval_cases i
    · omega
    · omega
    · omega
  · intro i hi hv
    rw [az_tree_length data hne hz] at hi
    rw [az_table data hne hz]
    interval_cases i
    · norm_num
    · rw [v1] at hv
      omega
    · rw [v2] at hv
      omega
  · intro c hc
    rw [az_depth data hne hz c hc, build_node_list_all_zero data hne hz]
    norm_num

/-! ## Claim C1: the round trip -/

/-- **C1, amended.**  Decoding reproduces the input byte-for-byte for every
non-empty input whose tree's child-index distances all fit the one-byte
table slots (`offsetsFit`); this covers both modes and the all-zero input.
Without `offsetsFit` the table is silently corrupted and the round trip
fails, see `c1_counterexample`. -/
theorem c1_roundtrip_with_fitting_offsets (data : List Nat) (hne : data ≠ [])
    (h256 : ∀ x ∈ data, x < 256)
    (hfit : offsetsFit (build_node_tree data)) :
    decodeAll data = data.map Int.ofNat := by
  by_cases hcomp : 0 < bytes_saved data
  · by_cases h0 : ∃ x ∈ data, x ≠ 0
    · exact decodeAll_eq_of_fit data
        (tree_wf data h256 (build_node_list_nodup data h256 h0)) hfit h256
        hcomp hne
    · push_neg at h0
      exact az_decodeAll data hne h0 hcomp
  · have h0' : bytes_saved data = 0 := by omega
    have hnc : ¬ (bytes_saved data > 0) := by omega
    have hst : storage data = data := by simp [storage, hnc]
    have hC : (objOf data).isCompressed = false := by simp [objOf, h0']
    have hS : (objOf data).stored = data := by simp [objOf, hst]
    have hR : (objOf data).rawLen = data.length := rfl
    have h := decodeOut_fallback data (objOf data) hS hC hR data.length 0 (-1)
      (by omega)
    simpa [decodeAll, beginDecoder] using h

/-- Witness for the amended C1 on a concrete compressed-mode input. -/
theorem c1_roundtrip_witness :
    (List.replicate 12 97 ≠ ([] : List Nat) ∧
      (∀ x ∈ List.replicate 12 97, x < 256) ∧
      offsetsFit (build_node_tree (List.replicate 12 97)) ∧
      0 < bytes_saved (List.replicate 12 97)) ∧
    decodeAll (List.replicate 12 97) =
      (List.replicate 12 97).map Int.ofNat :=
  ⟨by decide, c1_roundtrip_with_fitting_offsets (List.replicate 12 97)
    (by decide) (by decide) (by decide)⟩

/-! ## Claim C7: exhaustion of the decoder -/


theorem advance_run (data : List Nat) {L N : Nat}
    (W : WfTree (build_node_tree data) L N)
    (hfit : offsetsFit (build_node_tree data))
    (h256 : ∀ x ∈ data, x < 256) (hcomp : 0 < bytes_saved data) :
    ∀ (k m : Nat), 1 ≤ m → m + k ≤ data.length →
      advance (objOf data) k
          ⟨depthSum (build_node_tree data) (data.take m) / 8,
           2 ^ (7 - depthSum (build_node_tree data) (data.take m) % 8),
           Int.ofNat (data.getD (m - 1) 0)⟩ =
        ⟨depthSum (build_node_tree data) (data.take (m + k)) / 8,
         2 ^ (7 - depthSum (build_node_tree data) (data.take (m + k)) % 8),
         Int.ofNat (data.getD (m + k - 1) 0)⟩ := by
  intro k
  induction k with
  | zero =>
    intro m h1 h2
    simp [advance]
  | succ k ih =>
    intro m h1 h2
    rw [advance, getNext_step data W hfit h256 hcomp m (by omega) _]
    have hr := ih (m + 1) (by omega) (by omega)
    have harith : m + 1 + k = m + (k + 1) := by omega
    rw [harith] at hr
    exact hr

/-- The cursor state after the decoder has produced every input symbol: it
sits exactly on the end cursor. -/
theorem advance_all (data : List Nat) {L N : Nat}
    (W : WfTree (build_node_tree data) L N)
    (hfit : offsetsFit (build_node_tree data))
    (h256 : ∀ x ∈ data, x < 256) (hcomp : 0 < bytes_saved data)
    (hne : data ≠ []) :
    advance (objOf data) data.length ⟨0, 128, -1⟩ =
      ⟨endPos (objOf data), endBit (objOf data),
       Int.ofNat (data.getD (data.length - 1) 0)⟩ := by
  have hlen : 0 < data.length := List.length_pos.2 hne
  have hd0 : depthSum (build_node_tree data) (data.take 0) = 0 := by
    simp [depthSum]
  have hstep0 := getNext_step data W hfit h256 hcomp 0 hlen (-1)
  rw [hd0] at hstep0
  have hg : getNext (objOf data) ⟨0, 128, -1⟩ =
      ⟨depthSum (build_node_tree data) (data.take 1) / 8,
       2 ^ (7 - depthSum (build_node_tree data) (data.take 1) % 8),
       Int.ofNat (data.getD 0 0)⟩ := hstep0
  have hlen1 : data.length = (data.length - 1) + 1 := by omega
  have hdec : advance (objOf data) data.length ⟨0, 128, -1⟩ =
      advance (objOf data) (data.length - 1)
        (getNext (objOf data) ⟨0, 128, -1⟩) := by
    conv_lhs => rw [hlen1]
    rfl
  rw [hdec, hg]
  have hr := advance_run data W hfit h256 hcomp (data.length - 1) 1
    (by omega) (by omega)
  have hr2 : advance (objOf data) (data.length - 1)
      ⟨depthSum (build_node_tree data) (data.take 1) / 8,
       2 ^ (7 - depthSum (build_node_tree data) (data.take 1) % 8),
       Int.ofNat (data.getD 0 0)⟩ =
      ⟨depthSum (build_node_tree data)
          (data.take (1 + (data.length - 1))) / 8,
       2 ^ (7 - depthSum (build_node_tree data)
          (data.take (1 + (data.length - 1))) % 8),
       Int.ofNat (data.getD (1 + (data.length - 1) - 1) 0)⟩ := hr
  rw [hr2]
  have h1k : 1 + (data.length - 1) = data.length := by omega
  rw [h1k, List.take_length]
  have hep : endPos (objOf data) = totalBits data / 8 := by
    rw [endPos, if_pos (objOf_isCompressed data hcomp), objOf_paySize]
    omega
  have heb : endBit (objOf data) = 2 ^ (7 - totalBits data % 8) := by
    rw [endBit, if_pos (objOf_isCompressed data hcomp), objOf_lastBits]
  rw [hep, heb, totalBits_eq_depthSum]

/-- **C7, amended.**  The `part_000` decoder's end-cursor check makes every
advance at the end cursor a no-op producing the `-1` sentinel, and in
compressed mode (all-zero inputs included) the cursor reaches exactly the
end cursor after producing all `length S` symbols, so every later advance
yields the sentinel.  (The
`decode_info` decoder of `src/consteval_huffman.hpp` has *no* such check and
walks past the end, see `c7_counterexample`.) -/
theorem c7_amended_exhaustion (data : List Nat)
    (h256 : ∀ x ∈ data, x < 256)
    (hfit : offsetsFit (build_node_tree data)) :
    (∀ (o : HuffObj) (d : Decoder), d.pos = endPos o → d.bit = endBit o →
      getNext o d = ⟨d.pos, d.bit, -1⟩) ∧
    (0 < bytes_saved data → data ≠ [] →
      (advance (objOf data) data.length ⟨0, 128, -1⟩).pos =
          endPos (objOf data) ∧
      (advance (objOf data) data.length ⟨0, 128, -1⟩).bit =
          endBit (objOf data) ∧
      ∀ j, 1 ≤ j →
        advance (objOf data) (data.length + j) ⟨0, 128, -1⟩ =
          ⟨endPos (objOf data), endBit (objOf data), -1⟩) := by
  refine ⟨getNext_at_end, ?_⟩
  intro hcomp hne
  have hex : ∃ y : Int,
      advance (objOf data) data.length ⟨0, 128, -1⟩ =
        ⟨endPos (objOf data), endBit (objOf data), y⟩ := by
    by_cases h0 : ∃ x ∈ data, x ≠ 0
    · exact ⟨_, advance_all data
        (tree_wf data h256 (build_node_list_nodup data h256 h0)) hfit h256
        hcomp hne⟩
    · push_neg at h0
      exact ⟨_, az_advance_all data hne h0 hcomp⟩
  obtain ⟨y, hall⟩ := hex
  refine ⟨by rw [hall], by rw [hall], ?_⟩
  intro j
  induction j with
  | zero =>
    intro h
    omega
  | succ j ihj =>
    intro _
    by_cases hj0 : j = 0
    · subst hj0
      rw [advance_succ_back, hall]
      exact getNext_at_end_state (objOf data) _
    · rw [show data.length + (j + 1) = data.length + j + 1 from by omega,
        advance_succ_back, ihj (by omega)]
      exact getNext_at_end_state (objOf data) _

/-- Witness for the amended C7 on a concrete compressed-mode input. -/
theorem c7_amended_witness :
    ((∀ x ∈ List.replicate 16 65, x < 256) ∧
      offsetsFit (build_node_tree (List.replicate 16 65)) ∧
      0 < bytes_saved (List.replicate 16 65) ∧
      List.replicate 16 65 ≠ ([] : List Nat)) ∧
    (∀ (o : HuffObj) (d : Decoder), d.pos = endPos o → d.bit = endBit o →
      getNext o d = ⟨d.pos, d.bit, -1⟩) ∧
    (0 < bytes_saved (List.replicate 16 65) →
      List.replicate 16 65 ≠ ([] : List Nat) →
      (advance (objOf (List.replicate 16 65)) (List.replicate 16 65).length
          ⟨0, 128, -1⟩).pos = endPos (objOf (List.replicate 16 65)) ∧
      (advance (objOf (List.replicate 16 65)) (List.replicate 16 65).length
          ⟨0, 128, -1⟩).bit = endBit (objOf (List.replicate 16 65)) ∧
      ∀ j, 1 ≤ j →
        advance (objOf (List.replicate 16 65))
            ((List.replicate 16 65).length + j) ⟨0, 128, -1⟩ =
          ⟨endPos (objOf (List.replicate 16 65)),
           endBit (objOf (List.replicate 16 65)), -1⟩) :=
  ⟨by decide, c7_amended_exhaustion (List.replicate 16 65) (by decide)
    (by decide)⟩

/-! ## Claim C8: the leaf test of the decode table -/

/-- **C8, amended.**  In the decode table of any input whose child
distances fit the one-byte slots (all-zero and empty inputs included), an
entry's left offset is zero iff its right offset is zero iff the entry is a
leaf — so the decoder's left-offset test detects exactly the leaves.  Truncation can forge a zero
offset on an internal entry, see `c8_counterexample`. -/
theorem c8_amended_leaf_iff (data : List Nat)
    (h256 : ∀ x ∈ data, x < 256)
    (hfit : offsetsFit (build_node_tree data)) :
    ∀ i, i < (build_node_tree data).length →
      (((decode_tree data).getD (3 * i + 1) 0 = 0) ↔
        ((decode_tree data).getD (3 * i + 2) 0 = 0)) ∧
      (((decode_tree data).getD (3 * i + 1) 0 = 0) ↔
        (nodeAt (build_node_tree data) i).value ≤ 255) := by
  by_cases h0 : ∃ x ∈ data, x ≠ 0
  case neg =>
    push_neg at h0
    by_cases hemp : data = []
    · subst hemp
      intro i hi
      have h3 : (build_node_tree ([] : List Nat)).length = 3 := by decide
      rw [h3] at hi
      interval_cases i <;> exact ⟨by decide, by decide⟩
    · exact az_leaf_iff data hemp h0
  case pos =>
  have W := tree_wf data h256 (build_node_list_nodup data h256 h0)
  intro i hi
  by_cases hv : (nodeAt (build_node_tree data) i).value ≤ 255
  · obtain ⟨_, h1, h2⟩ := tbl_leaf data W i hi hv
    exact ⟨by rw [h1, h2], by rw [h1]; exact ⟨fun _ => hv, fun _ => rfl⟩⟩
  · have hvnn := W.vnn i hi
    have hv' : 256 ≤ (nodeAt (build_node_tree data) i).value := by omega
    obtain ⟨jl, jr, hijl, hjl, hijr, hjr, _, _, htl, htr⟩ :=
      tbl_internal data W hfit i hi hv'
    rw [htl, htr]
    refine ⟨⟨fun h => by omega, fun h => by omega⟩,
      ⟨fun h => by omega, fun h => absurd h hv⟩⟩

/-- Witness for the amended C8 on a concrete compressed-mode input. -/
theorem c8_amended_witness :
    ((∀ x ∈ List.replicate 13 66, x < 256) ∧
      offsetsFit (build_node_tree (List.replicate 13 66)) ∧
      0 < (build_node_tree (List.replicate 13 66)).length) ∧
    ((((decode_tree (List.replicate 13 66)).getD (3 * 0 + 1) 0 = 0) ↔
        ((decode_tree (List.replicate 13 66)).getD (3 * 0 + 2) 0 = 0)) ∧
      (((decode_tree (List.replicate 13 66)).getD (3 * 0 + 1) 0 = 0) ↔
        (nodeAt (build_node_tree (List.replicate 13 66)) 0).value ≤ 255)) :=
  ⟨by decide, c8_amended_leaf_iff (List.replicate 13 66) (by decide)
    (by decide) 0 (by decide)⟩

/-! ## Claim C10: termination of the walks -/

/-- **C10, amended.**  Upward walks terminate on every input: each non-root
slot's parent link points to a strictly smaller index, the root's parent is
the `-1` sentinel, and slot `i`'s walk takes at most `i` steps.  Downward walks in
the decoder terminate when the offsets fit: internal entries carry strictly
positive offsets, and each symbol is produced after at most `2L - 2` bit
reads.  A truncated table breaks the positive-offset property, see
`c10_counterexample`. -/
theorem c10_amended_termination (data : List Nat)
    (h256 : ∀ x ∈ data, x < 256)
    (hfit : offsetsFit (build_node_tree data)) :
    (∀ i, 0 < i → i < (build_node_tree data).length →
      ∃ j, j < i ∧ (nodeAt (build_node_tree data) i).parent = (j : Int)) ∧
    (nodeAt (build_node_tree data) 0).parent = -1 ∧
    (∀ i, i < (build_node_tree data).length →
      depthOf (build_node_tree data) i ≤ i) ∧
    (∀ i, i < (build_node_tree data).length →
      256 ≤ (nodeAt (build_node_tree data) i).value →
      0 < (decode_tree data).getD (3 * i + 1) 0 ∧
      0 < (decode_tree data).getD (3 * i + 2) 0) ∧
    (∀ c ∈ data, depthOf (build_node_tree data)
        (leafIdxOf (build_node_tree data) c) ≤
      2 * (build_node_list data).length - 2) := by
  by_cases h0 : ∃ x ∈ data, x ≠ 0
  case neg =>
    push_neg at h0
    by_cases hemp : data = []
    · subst hemp
      refine ⟨?_, by decide, ?_, ?_, ?_⟩
      · intro i h0i hi
        have h3 : (build_node_tree ([] : List Nat)).length = 3 := by decide
        rw [h3] at hi
        interval_cases i
        · exact ⟨0, Nat.zero_lt_one, by decide⟩
        · exact ⟨0, by norm_num, by decide⟩
      · intro i hi
        have h3 : (build_node_tree ([] : List Nat)).length = 3 := by decide
        rw [h3] at hi
        interval_cases i <;> decide
      · intro i hi
        have h3 : (build_node_tree ([] : List Nat)).length = 3 := by decide
        rw [h3] at hi
        interval_cases i <;> decide
      · intro c hc
        exact absurd hc (List.not_mem_nil c)
    · exact az_termination data hemp h0
  case pos =>
  have W := tree_wf data h256 (build_node_list_nodup data h256 h0)
  refine ⟨?_, W.rootPar, ?_, ?_, ?_⟩
  · intro i h0i hi
    obtain ⟨j, hj, hpj, _⟩ := W.parentLink i h0i hi
    exact ⟨j, hj, hpj⟩
  · intro i hi
    exact depthOf_le W i hi
  · intro i hi hv
    obtain ⟨jl, jr, hijl, _, hijr, _, _, _, htl, htr⟩ :=
      tbl_internal data W hfit i hi hv
    rw [htl, htr]
    omega
  · intro c hc
    obtain ⟨hlt, _⟩ := leafIdx_spec data h256 c hc
    have h1 := depthOf_le W _ hlt
    have h2 := W.len
    have h3 := W.hL
    omega

/-- Witness for the amended C10 on a concrete compressed-mode input. -/
theorem c10_amended_witness :
    ((∀ x ∈ List.replicate 14 67, x < 256) ∧
      offsetsFit (build_node_tree (List.replicate 14 67))) ∧
    ((∀ i, 0 < i → i < (build_node_tree (List.replicate 14 67)).length →
      ∃ j, j < i ∧
        (nodeAt (build_node_tree (List.replicate 14 67)) i).parent =
          (j : Int)) ∧
    (nodeAt (build_node_tree (List.replicate 14 67)) 0).parent = -1 ∧
    (∀ i, i < (build_node_tree (List.replicate 14 67)).length →
      depthOf (build_node_tree (List.replicate 14 67)) i ≤ i) ∧
    (∀ i, i < (build_node_tree (List.replicate 14 67)).length →
      256 ≤ (nodeAt (build_node_tree (List.replicate 14 67)) i).value →
      0 < (decode_tree (List.replicate 14 67)).getD (3 * i + 1) 0 ∧
      0 < (decode_tree (List.replicate 14 67)).getD (3 * i + 2) 0) ∧
    (∀ c ∈ List.replicate 14 67,
      depthOf (build_node_tree (List.replicate 14 67))
          (leafIdxOf (build_node_tree (List.replicate 14 67)) c) ≤
        2 * (build_node_list (List.replicate 14 67)).length - 2)) :=
  ⟨by decide, c10_amended_termination (List.replicate 14 67) (by decide)
    (by decide)⟩

/-! ## The `bigB` counterexample: decoding the truncated table -/

theorem bigB_length : bigB.length = 1387 := by
  simp [bigB]

theorem depthSum_replicate (tree : List Node) (n c : Nat) :
    depthSum tree (List.replicate n c) =
      n * depthOf tree (leafIdxOf tree c) := by
  simp [depthSum, List.map_replicate, List.sum_replicate]

set_option maxHeartbeats 4000000 in
theorem totalBits_bigB : totalBits bigB = 2679 := by
  rw [totalBits_eq_depthSum, bigTree_eq,
    show bigB = List.range 172 ++ List.replicate 1215 200 from rfl,
    depthSum_append2, depthSum_replicate]
  have h1 : depthSum bigTree (List.range 172) = 1464 := by decide
  have h2 : depthOf bigTree (leafIdxOf bigTree 200) = 1 := by decide
  rw [h1, h2]

theorem csi_bigB : compressed_size_info bigB = (335, 7) := by
  rw [compressed_size_info_closed, totalBits_bigB]

theorem treeCount_bigB : tree_count bigB = 345 := by
  rw [tree_count, bigNL_eq]
  decide

theorem bytes_saved_bigB : bytes_saved bigB = 17 := by
  rw [bytes_saved, uncompressed_size, compressed_size, csi_bigB,
    treeCount_bigB, bigB_length]
  decide

theorem bigB_compressed : 0 < bytes_saved bigB := by
  rw [bytes_saved_bigB]
  norm_num

theorem compress_bigB_length : (compress bigB).length = 335 := by
  rw [compress_length, totalBits_bigB]

set_option maxHeartbeats 1000000 in
theorem code0_eq : codeOf bigTree (leafIdxOf bigTree 0) =
    [false, true, false, true, true, true, false, true, false] := by decide

set_option maxHeartbeats 1000000 in
theorem code1_eq : codeOf bigTree (leafIdxOf bigTree 1) =
    [false, true, false, true, true, true, false, true, true] := by decide

/-- The first 18 bits of the payload stream are the codes of symbols 0
and 1. -/
theorem compress_bits_bigB : ∀ k, k < 18 →
    bitAt (compress bigB) k =
      [false, true, false, true, true, true, false, true, false,
       false, true, false, true, true, true, false, true, true].getD k false := by
  intro k hk
  have hcs := (compress_spec bigB).2.2 k
  rw [if_pos (by rw [totalBits_bigB]; omega)] at hcs
  rw [hcs]
  have hb00 : bigB.getD 0 0 = 0 := by decide
  have hb10 : bigB.getD 1 0 = 1 := by decide
  rcases Nat.lt_or_ge k 9 with h9 | h9
  · have hlen : k < (codeOf (build_node_tree bigB)
        (leafIdxOf (build_node_tree bigB) (bigB.getD 0 0))).length := by
      rw [bigTree_eq, hb00, code0_eq]
      simpa using h9
    have h := flatten_codes_getD (build_node_tree bigB) bigB 0 k
      (by rw [bigB_length]; omega) hlen
    have hz : depthSum (build_node_tree bigB) (bigB.take 0) = 0 := by
      simp [depthSum]
    rw [hz, Nat.zero_add] at h
    rw [h, bigTree_eq, hb00, code0_eq]
    interval_cases k <;> rfl
  · have hlen : k - 9 < (codeOf (build_node_tree bigB)
        (leafIdxOf (build_node_tree bigB) (bigB.getD 1 0))).length := by
      rw [bigTree_eq, hb10, code1_eq]
      simp
      omega
    have h := flatten_codes_getD (build_node_tree bigB) bigB 1 (k - 9)
      (by rw [bigB_length]; omega) hlen
    have hd1 : depthSum (build_node_tree bigB) (bigB.take 1) = 9 := by
      rw [bigTree_eq]
      decide
    rw [hd1] at h
    rw [show (9 : Nat) + (k - 9) = k from by omega] at h
    rw [h, bigTree_eq, hb10, code1_eq]
    interval_cases k <;> rfl

theorem compress_byte0 : (compress bigB).getD 0 0 = 93 := by
  have hlen : 0 < (compress bigB).length := by
    rw [compress_bigB_length]
    norm_num
  have hmem : (compress bigB).getD 0 0 ∈ compress bigB := by
    rw [List.getD_eq_getElem _ _ hlen]
    exact List.getElem_mem hlen
  have hlt : (compress bigB).getD 0 0 < 256 := (compress_spec bigB).2.1 _ hmem
  apply Nat.eq_of_testBit_eq
  intro j
  rcases Nat.lt_or_ge j 8 with hj | hj
  · have e1 : (7 - j) / 8 = 0 := by omega
    have e2 : 7 - (7 - j) % 8 = j := by omega
    have hb : bitAt (compress bigB) (7 - j) =
        Nat.testBit ((compress bigB).getD 0 0) j := by
      rw [bitAt, e1, e2]
    rw [← hb, compress_bits_bigB (7 - j) (by omega)]
    interval_cases j <;> decide
  · have h1 : (compress bigB).getD 0 0 < 2 ^ j :=
      lt_of_lt_of_le hlt (le_trans (by norm_num)
        (Nat.pow_le_pow_right (by norm_num) hj))
    rw [Nat.testBit_lt_two_pow h1,
      Nat.testBit_lt_two_pow (lt_of_lt_of_le (by norm_num : (93:Nat) < 256)
        (le_trans (by norm_num) (Nat.pow_le_pow_right (by norm_num) hj)))]

theorem compress_byte1 : (compress bigB).getD 1 0 = 46 := by
  have hlen : 1 < (compress bigB).length := by
    rw [compress_bigB_length]
    norm_num
  have hmem : (compress bigB).getD 1 0 ∈ compress bigB := by
    rw [List.getD_eq_getElem _ _ hlen]
    exact List.getElem_mem hlen
  have hlt : (compress bigB).getD 1 0 < 256 := (compress_spec bigB).2.1 _ hmem
  apply Nat.eq_of_testBit_eq
  intro j
  rcases Nat.lt_or_ge j 8 with hj | hj
  · have e1 : (15 - j) / 8 = 1 := by omega
    have e2 : 7 - (15 - j) % 8 = j := by omega
    have hb : bitAt (compress bigB) (15 - j) =
        Nat.testBit ((compress bigB).getD 1 0) j := by
      rw [bitAt, e1, e2]
    rw [← hb, compress_bits_bigB (15 - j) (by omega)]
    interval_cases j <;> decide
  · have h1 : (compress bigB).getD 1 0 < 2 ^ j :=
      lt_of_lt_of_le hlt (le_trans (by norm_num)
        (Nat.pow_le_pow_right (by norm_num) hj))
    rw [Nat.testBit_lt_two_pow h1,
      Nat.testBit_lt_two_pow (lt_of_lt_of_le (by norm_num : (46:Nat) < 256)
        (le_trans (by norm_num) (Nat.pow_le_pow_right (by norm_num) hj)))]

theorem storage_byte0 : (storage bigB).getD 0 0 = 93 := by
  rw [storage_compressed bigB bigB_compressed,
    List.getD_append _ _ _ _ (by rw [compress_bigB_length]; norm_num),
    compress_byte0]

theorem storage_byte1 : (storage bigB).getD 1 0 = 46 := by
  rw [storage_compressed bigB bigB_compressed,
    List.getD_append _ _ _ _ (by rw [compress_bigB_length]; norm_num),
    compress_byte1]


theorem bigB_bit0 : bitAt (storage bigB) 0 = false := by
  rw [bitAt]
  have h : Nat.testBit ((storage bigB).getD 0 0) 7 = false := by
    rw [storage_byte0]
    decide
  exact h


theorem bigB_bit1 : bitAt (storage bigB) 1 = true := by
  rw [bitAt]
  have h : Nat.testBit ((storage bigB).getD 0 0) 6 = true := by
    rw [storage_byte0]
    decide
  exact h


theorem bigB_bit2 : bitAt (storage bigB) 2 = false := by
  rw [bitAt]
  have h : Nat.testBit ((storage bigB).getD 0 0) 5 = false := by
    rw [storage_byte0]
    decide
  exact h


theorem bigB_bit3 : bitAt (storage bigB) 3 = true := by
  rw [bitAt]
  have h : Nat.testBit ((storage bigB).getD 0 0) 4 = true := by
    rw [storage_byte0]
    decide
  exact h


theorem bigB_bit4 : bitAt (storage bigB) 4 = true := by
  rw [bitAt]
  have h : Nat.testBit ((storage bigB).getD 0 0) 3 = true := by
    rw [storage_byte0]
    decide
  exact h


theorem bigB_bit5 : bitAt (storage bigB) 5 = true := by
  rw [bitAt]
  have h : Nat.testBit ((storage bigB).getD 0 0) 2 = true := by
    rw [storage_byte0]
    decide
  exact h


theorem bigB_bit6 : bitAt (storage bigB) 6 = false := by
  rw [bitAt]
  have h : Nat.testBit ((storage bigB).getD 0 0) 1 = false := by
    rw [storage_byte0]
    decide
  exact h


theorem bigB_bit7 : bitAt (storage bigB) 7 = true := by
  rw [bitAt]
  have h : Nat.testBit ((storage bigB).getD 0 0) 0 = true := by
    rw [storage_byte0]
    decide
  exact h


theorem bigB_bit8 : bitAt (storage bigB) 8 = false := by
  rw [bitAt]
  have h : Nat.testBit ((storage bigB).getD 1 0) 7 = false := by
    rw [storage_byte1]
    decide
  exact h


theorem bigB_bit9 : bitAt (storage bigB) 9 = false := by
  rw [bitAt]
  have h : Nat.testBit ((storage bigB).getD 1 0) 6 = false := by
    rw [storage_byte1]
    decide
  exact h


set_option maxHeartbeats 1000000 in
theorem bigB_walk0 : decodeWalk (storage bigB) bigTbl 10976 0 0 128 =
    decodeWalk (storage bigB) bigTbl 10975 2 0 64 := by
  have h2 : decodeWalk (storage bigB) bigTbl 10976 0 0 128 =
      (if bigTbl.getD ((0 + (if bitAt (storage bigB) 0
            then bigTbl.getD (0 * 3 + 2) 0
            else bigTbl.getD (0 * 3 + 1) 0)) * 3 + 1) 0 = 0
       then (0 + (if bitAt (storage bigB) 0
            then bigTbl.getD (0 * 3 + 2) 0
            else bigTbl.getD (0 * 3 + 1) 0), 0, 64)
       else decodeWalk (storage bigB) bigTbl 10975
         (0 + (if bitAt (storage bigB) 0
            then bigTbl.getD (0 * 3 + 2) 0
            else bigTbl.getD (0 * 3 + 1) 0)) 0 64) :=
    decodeWalk_step (storage bigB) bigTbl 10975 0 0
  have t1 : bigTbl.getD (0 * 3 + 1) 0 = 2 := by decide
  have t2 : bigTbl.getD ((0 + 2) * 3 + 1) 0 = 2 := by decide
  rw [h2, bigB_bit0, if_neg Bool.false_ne_true, t1, t2, if_neg (by norm_num)]


set_option maxHeartbeats 1000000 in
theorem bigB_walk1 : decodeWalk (storage bigB) bigTbl 10975 2 0 64 =
    decodeWalk (storage bigB) bigTbl 10974 3 0 32 := by
  have h2 : decodeWalk (storage bigB) bigTbl 10975 2 0 64 =
      (if bigTbl.getD ((2 + (if bitAt (storage bigB) 1
            then bigTbl.getD (2 * 3 + 2) 0
            else bigTbl.getD (2 * 3 + 1) 0)) * 3 + 1) 0 = 0
       then (2 + (if bitAt (storage bigB) 1
            then bigTbl.getD (2 * 3 + 2) 0
            else bigTbl.getD (2 * 3 + 1) 0), 0, 32)
       else decodeWalk (storage bigB) bigTbl 10974
         (2 + (if bitAt (storage bigB) 1
            then bigTbl.getD (2 * 3 + 2) 0
            else bigTbl.getD (2 * 3 + 1) 0)) 0 32) :=
    decodeWalk_step (storage bigB) bigTbl 10974 2 1
  have t1 : bigTbl.getD (2 * 3 + 2) 0 = 1 := by decide
  have t2 : bigTbl.getD ((2 + 1) * 3 + 1) 0 = 3 := by decide
  rw [h2, bigB_bit1, if_pos rfl, t1, t2, if_neg (by norm_num)]


set_option maxHeartbeats 1000000 in
theorem bigB_walk2 : decodeWalk (storage bigB) bigTbl 10974 3 0 32 =
    decodeWalk (storage bigB) bigTbl 10973 6 0 16 := by
  have h2 : decodeWalk (storage bigB) bigTbl 10974 3 0 32 =
      (if bigTbl.getD ((3 + (if bitAt (storage bigB) 2
            then bigTbl.getD (3 * 3 + 2) 0
            else bigTbl.getD (3 * 3 + 1) 0)) * 3 + 1) 0 = 0
       then (3 + (if bitAt (storage bigB) 2
            then bigTbl.getD (3 * 3 + 2) 0
            else bigTbl.getD (3 * 3 + 1) 0), 0, 16)
       else decodeWalk (storage bigB) bigTbl 10973
         (3 + (if bitAt (storage bigB) 2
            then bigTbl.getD (3 * 3 + 2) 0
            else bigTbl.getD (3 * 3 + 1) 0)) 0 16) :=
    decodeWalk_step (storage bigB) bigTbl 10973 3 2
  have t1 : bigTbl.getD (3 * 3 + 1) 0 = 3 := by decide
  have t2 : bigTbl.getD ((3 + 3) * 3 + 1) 0 = 6 := by decide
  rw [h2, bigB_bit2, if_neg Bool.false_ne_true, t1, t2, if_neg (by norm_num)]


set_option maxHeartbeats 1000000 in
theorem bigB_walk3 : decodeWalk (storage bigB) bigTbl 10973 6 0 16 =
    decodeWalk (storage bigB) bigTbl 10972 11 0 8 := by
  have h2 : decodeWalk (storage bigB) bigTbl 10973 6 0 16 =
      (if bigTbl.getD ((6 + (if bitAt (storage bigB) 3
            then bigTbl.getD (6 * 3 + 2) 0
            else bigTbl.getD (6 * 3 + 1) 0)) * 3 + 1) 0 = 0
       then (6 + (if bitAt (storage bigB) 3
            then bigTbl.getD (6 * 3 + 2) 0
            else bigTbl.getD (6 * 3 + 1) 0), 0, 8)
       else decodeWalk (storage bigB) bigTbl 10972
         (6 + (if bitAt (storage bigB) 3
            then bigTbl.getD (6 * 3 + 2) 0
            else bigTbl.getD (6 * 3 + 1) 0)) 0 8) :=
    decodeWalk_step (storage bigB) bigTbl 10972 6 3
  have t1 : bigTbl.getD (6 * 3 + 2) 0 = 5 := by decide
  have t2 : bigTbl.getD ((6 + 5) * 3 + 1) 0 = 11 := by decide
  rw [h2, bigB_bit3, if_pos rfl, t1, t2, if_neg (by norm_num)]


set_option maxHeartbeats 1000000 in
theorem bigB_walk4 : decodeWalk (storage bigB) bigTbl 10972 11 0 8 =
    decodeWalk (storage bigB) bigTbl 10971 21 0 4 := by
  have h2 : decodeWalk (storage bigB) bigTbl 10972 11 0 8 =
      (if bigTbl.getD ((11 + (if bitAt (storage bigB) 4
            then bigTbl.getD (11 * 3 + 2) 0
            else bigTbl.getD (11 * 3 + 1) 0)) * 3 + 1) 0 = 0
       then (11 + (if bitAt (storage bigB) 4
            then bigTbl.getD (11 * 3 + 2) 0
            else bigTbl.getD (11 * 3 + 1) 0), 0, 4)
       else decodeWalk (storage bigB) bigTbl 10971
         (11 + (if bitAt (storage bigB) 4
            then bigTbl.getD (11 * 3 + 2) 0
            else bigTbl.getD (11 * 3 + 1) 0)) 0 4) :=
    decodeWalk_step (storage bigB) bigTbl 10971 11 4
  have t1 : bigTbl.getD (11 * 3 + 2) 0 = 10 := by decide
  have t2 : bigTbl.getD ((11 + 10) * 3 + 1) 0 = 3 := by decide
  rw [h2, bigB_bit4, if_pos rfl, t1, t2, if_neg (by norm_num)]


set_option maxHeartbeats 1000000 in
theorem bigB_walk5 : decodeWalk (storage bigB) bigTbl 10971 21 0 4 =
    decodeWalk (storage bigB) bigTbl 10970 23 0 2 := by
  have h2 : decodeWalk (storage bigB) bigTbl 10971 21 0 4 =
      (if bigTbl.getD ((21 + (if bitAt (storage bigB) 5
            then bigTbl.getD (21 * 3 + 2) 0
            else bigTbl.getD (21 * 3 + 1) 0)) * 3 + 1) 0 = 0
       then (21 + (if bitAt (storage bigB) 5
            then bigTbl.getD (21 * 3 + 2) 0
            else bigTbl.getD (21 * 3 + 1) 0), 0, 2)
       else decodeWalk (storage bigB) bigTbl 10970
         (21 + (if bitAt (storage bigB) 5
            then bigTbl.getD (21 * 3 + 2) 0
            else bigTbl.getD (21 * 3 + 1) 0)) 0 2) :=
    decodeWalk_step (storage bigB) bigTbl 10970 21 5
  have t1 : bigTbl.getD (21 * 3 + 2) 0 = 2 := by decide
  have t2 : bigTbl.getD ((21 + 2) * 3 + 1) 0 = 63 := by decide
  rw [h2, bigB_bit5, if_pos rfl, t1, t2, if_neg (by norm_num)]


set_option maxHeartbeats 1000000 in
theorem bigB_walk6 : decodeWalk (storage bigB) bigTbl 10970 23 0 2 =
    decodeWalk (storage bigB) bigTbl 10969 86 0 1 := by
  have h2 : decodeWalk (storage bigB) bigTbl 10970 23 0 2 =
      (if bigTbl.getD ((23 + (if bitAt (storage bigB) 6
            then bigTbl.getD (23 * 3 + 2) 0
            else bigTbl.getD (23 * 3 + 1) 0)) * 3 + 1) 0 = 0
       then (23 + (if bitAt (storage bigB) 6
            then bigTbl.getD (23 * 3 + 2) 0
            else bigTbl.getD (23 * 3 + 1) 0), 0, 1)
       else decodeWalk (storage bigB) bigTbl 10969
         (23 + (if bitAt (storage bigB) 6
            then bigTbl.getD (23 * 3 + 2) 0
            else bigTbl.getD (23 * 3 + 1) 0)) 0 1) :=
    decodeWalk_step (storage bigB) bigTbl 10969 23 6
  have t1 : bigTbl.getD (23 * 3 + 1) 0 = 63 := by decide
  have t2 : bigTbl.getD ((23 + 63) * 3 + 1) 0 = 2 := by decide
  rw [h2, bigB_bit6, if_neg Bool.false_ne_true, t1, t2, if_neg (by norm_num)]


set_option maxHeartbeats 1000000 in
theorem bigB_walk7 : decodeWalk (storage bigB) bigTbl 10969 86 0 1 =
    decodeWalk (storage bigB) bigTbl 10968 87 1 128 := by
  have h2 : decodeWalk (storage bigB) bigTbl 10969 86 0 1 =
      (if bigTbl.getD ((86 + (if bitAt (storage bigB) 7
            then bigTbl.getD (86 * 3 + 2) 0
            else bigTbl.getD (86 * 3 + 1) 0)) * 3 + 1) 0 = 0
       then (86 + (if bitAt (storage bigB) 7
            then bigTbl.getD (86 * 3 + 2) 0
            else bigTbl.getD (86 * 3 + 1) 0), 1, 128)
       else decodeWalk (storage bigB) bigTbl 10968
         (86 + (if bitAt (storage bigB) 7
            then bigTbl.getD (86 * 3 + 2) 0
            else bigTbl.getD (86 * 3 + 1) 0)) 1 128) :=
    decodeWalk_step (storage bigB) bigTbl 10968 86 7
  have t1 : bigTbl.getD (86 * 3 + 2) 0 = 1 := by decide
  have t2 : bigTbl.getD ((86 + 1) * 3 + 1) 0 = 1 := by decide
  rw [h2, bigB_bit7, if_pos rfl, t1, t2, if_neg (by norm_num)]


set_option maxHeartbeats 1000000 in
theorem bigB_walk8 : decodeWalk (storage bigB) bigTbl 10968 87 1 128 =
    decodeWalk (storage bigB) bigTbl 10967 88 1 64 := by
  have h2 : decodeWalk (storage bigB) bigTbl 10968 87 1 128 =
      (if bigTbl.getD ((87 + (if bitAt (storage bigB) 8
            then bigTbl.getD (87 * 3 + 2) 0
            else bigTbl.getD (87 * 3 + 1) 0)) * 3 + 1) 0 = 0
       then (87 + (if bitAt (storage bigB) 8
            then bigTbl.getD (87 * 3 + 2) 0
            else bigTbl.getD (87 * 3 + 1) 0), 1, 64)
       else decodeWalk (storage bigB) bigTbl 10967
         (87 + (if bitAt (storage bigB) 8
            then bigTbl.getD (87 * 3 + 2) 0
            else bigTbl.getD (87 * 3 + 1) 0)) 1 64) :=
    decodeWalk_step (storage bigB) bigTbl 10967 87 8
  have t1 : bigTbl.getD (87 * 3 + 1) 0 = 1 := by decide
  have t2 : bigTbl.getD ((87 + 1) * 3 + 1) 0 = 254 := by decide
  rw [h2, bigB_bit8, if_neg Bool.false_ne_true, t1, t2, if_neg (by norm_num)]


set_option maxHeartbeats 1000000 in
theorem bigB_walk9 : decodeWalk (storage bigB) bigTbl 10967 88 1 64 =
    (342, 1, 32) := by
  have h2 : decodeWalk (storage bigB) bigTbl 10967 88 1 64 =
      (if bigTbl.getD ((88 + (if bitAt (storage bigB) 9
            then bigTbl.getD (88 * 3 + 2) 0
            else bigTbl.getD (88 * 3 + 1) 0)) * 3 + 1) 0 = 0
       then (88 + (if bitAt (storage bigB) 9
            then bigTbl.getD (88 * 3 + 2) 0
            else bigTbl.getD (88 * 3 + 1) 0), 1, 32)
       else decodeWalk (storage bigB) bigTbl 10966
         (88 + (if bitAt (storage bigB) 9
            then bigTbl.getD (88 * 3 + 2) 0
            else bigTbl.getD (88 * 3 + 1) 0)) 1 32) :=
    decodeWalk_step (storage bigB) bigTbl 10966 88 9
  have t1 : bigTbl.getD (88 * 3 + 1) 0 = 254 := by decide
  have t2 : bigTbl.getD ((88 + 254) * 3 + 1) 0 = 0 := by decide
  rw [h2, bigB_bit9, if_neg Bool.false_ne_true, t1, t2, if_pos rfl]


theorem bigB_walk : decodeWalk (storage bigB) (decode_tree bigB) 10976 0 0 128
    = (342, 1, 32) := by
  rw [bigTbl_eq, bigB_walk0, bigB_walk1, bigB_walk2, bigB_walk3, bigB_walk4,
    bigB_walk5, bigB_walk6, bigB_walk7, bigB_walk8, bigB_walk9]

theorem storage_bigB_length : (storage bigB).length = 1370 := by
  rw [storage_compressed bigB bigB_compressed, List.length_append,
    compress_bigB_length, decode_tree_length, bigTree_eq]
  decide

/-- The first symbol produced by the decoder on `bigB` is the byte `2`, not
the byte `0` that was compressed: the truncated offsets of entry 87 derail
the first walk. -/
theorem begin_bigB : beginDecoder (objOf bigB) = ⟨1, 32, (2 : Int)⟩ := by
  have hend : ¬ ((0 : Nat) = endPos (objOf bigB) ∧
      (128 : Nat) = endBit (objOf bigB)) := by
    intro h
    have h1 := h.1
    rw [endPos, if_pos (objOf_isCompressed bigB bigB_compressed),
      objOf_paySize, totalBits_bigB] at h1
    omega
  rw [beginDecoder, getNext, if_neg hend,
    objOf_isCompressed bigB bigB_compressed, if_pos rfl, objOf_stored,
    objOf_table bigB bigB_compressed, storage_bigB_length,
    show 8 * 1370 + 16 = 10976 from by norm_num, bigB_walk]
  have hval : (decode_tree bigB).getD (342 * 3) 0 = 2 := by
    rw [bigTbl_eq]
    decide
  simp only [hval]
  rfl

/-- **C1, counterexample.**  On `bigB` (bytes 0..171 once each, then 1215
copies of byte 200: 173 distinct values, so arena distances up to 257
overflow the one-byte table slots) the decoder does not reproduce the
input: the very first decoded symbol is 2 instead of 0. -/
theorem c1_counterexample : decodeAll bigB ≠ bigB.map Int.ofNat := by
  intro heq
  have hL : (decodeAll bigB).head? = some ((beginDecoder (objOf bigB)).cur) := by
    rw [decodeAll, bigB_length]
    rfl
  have hR : ((bigB.map Int.ofNat).head?) = some ((0 : Nat) : Int) := rfl
  rw [heq, hR, begin_bigB] at hL
  simp at hL

/-! ## Remaining counterexamples -/

/-- **C5.**  On `bigB` construction succeeds (the only construction check is
non-emptiness) even though entry 87 is internal with child slots at
distances 257 and 256: the one-byte table stores them truncated to 1 and 0.
No `TableOverflow`-style failure exists in the code. -/
theorem c5_silent_offset_truncation :
    construct bigB = .ok (storage bigB) ∧
    0 < bytes_saved bigB ∧
    256 ≤ (nodeAt (build_node_tree bigB) 87).value ∧
    findChild (build_node_tree bigB) 87
      (nodeAt (build_node_tree bigB) 87).left = 344 ∧
    findChild (build_node_tree bigB) 87
      (nodeAt (build_node_tree bigB) 87).right = 343 ∧
    (decode_tree bigB).getD (87 * 3 + 1) 0 = 1 ∧
    (decode_tree bigB).getD (87 * 3 + 2) 0 = 0 := by
  refine ⟨?_, bigB_compressed, ?_, ?_, ?_, ?_, ?_⟩
  · rw [construct, if_neg (by rw [bigB_length]; norm_num)]
  · rw [bigTree_eq]
    decide
  · rw [bigTree_eq]
    decide
  · rw [bigTree_eq]
    decide
  · rw [bigTbl_eq]
    decide
  · rw [bigTbl_eq]
    decide

/-- **C6.**  The tie order the spec's stable sort mandates on the bytes of
"abracadabra": the two frequency-1 symbols in 0..255 scan order (`c` before
`d`), then the two frequency-2 symbols (`b` before `r`), then `a`.  The
C++ code sorts with `std::sort`, which guarantees no stable tie order, and
the observed libstdc++ run orders the ties as `d, c, r, b, a` instead. -/
theorem c6_stable_order_reference :
    build_node_list [97, 98, 114, 97, 99, 97, 100, 97, 98, 114, 97] =
      [⟨99, 1, -1, -1, -1⟩, ⟨100, 1, -1, -1, -1⟩, ⟨98, 2, -1, -1, -1⟩,
       ⟨114, 2, -1, -1, -1⟩, ⟨97, 5, -1, -1, -1⟩] := by decide

/-- **C7, counterexample.**  The `decode_info::get_next` of
`src/consteval_huffman.hpp` has no end-cursor check: advancing the end
decoder of the 12-byte input `98...98` walks the table again, moves the bit
cursor past the payload's last used bit and produces the symbol 98 instead
of an end sentinel. -/
theorem c7_counterexample :
    infoGetNext (infoObjOf (List.replicate 12 98))
        (infoEndDecoder (infoObjOf (List.replicate 12 98))) =
      ⟨1, 4, (98 : Int)⟩ ∧
    (infoGetNext (infoObjOf (List.replicate 12 98))
        (infoEndDecoder (infoObjOf (List.replicate 12 98)))).cur ≠ -1 ∧
    infoGetNext (infoObjOf (List.replicate 12 98))
        (infoEndDecoder (infoObjOf (List.replicate 12 98))) ≠
      infoEndDecoder (infoObjOf (List.replicate 12 98)) := by decide

/-- **C8, counterexample.**  In `bigB`'s decode table, entry 87 is internal
yet its stored right offset is 0 (truncated from 256) while its left offset
is 1 (truncated from 257): left-offset-zero and right-offset-zero are not
equivalent, and the left-offset leaf test misclassifies nothing only by
accident of which side truncated to zero. -/
theorem c8_counterexample :
    0 < bytes_saved bigB ∧
    256 ≤ (nodeAt (build_node_tree bigB) 87).value ∧
    (decode_tree bigB).getD (3 * 87 + 1) 0 = 1 ∧
    (decode_tree bigB).getD (3 * 87 + 2) 0 = 0 ∧
    ¬ (((decode_tree bigB).getD (3 * 87 + 1) 0 = 0) ↔
        ((decode_tree bigB).getD (3 * 87 + 2) 0 = 0)) := by
  refine ⟨bigB_compressed, ?_, ?_, ?_, ?_⟩
  · rw [bigTree_eq]
    decide
  · rw [bigTbl_eq]
    decide
  · rw [bigTbl_eq]
    decide
  · rw [bigTbl_eq]
    decide

/-- **C10, counterexample.**  In `bigB`'s decode table the internal entry 87
carries a right offset of 0: a decoder step that reads a set bit there does
not increase the table index at all, so the "strictly increasing by a
positive child offset" walk argument fails on the truncated table (the C++
decoder loops on entry 87 forever when that branch is taken). -/
theorem c10_counterexample :
    0 < bytes_saved bigB ∧
    256 ≤ (nodeAt (build_node_tree bigB) 87).value ∧
    (decode_tree bigB).getD (3 * 87 + 2) 0 = 0 ∧
    87 + (decode_tree bigB).getD (3 * 87 + 2) 0 ≤ 87 := by
  refine ⟨bigB_compressed, ?_, ?_, ?_⟩
  · rw [bigTree_eq]
    decide
  · rw [bigTbl_eq]
    decide
  · rw [bigTbl_eq]
    decide
end ConstevalHuffman
